import Mathlib

/-!
# MIOpen: activation dispatch and MIOpenGEMM wrapper

A shallow embedding of `src/ocl/activ_ocl.cpp`, `src/miopengemm.cpp` and
`src/op_args.cpp`, followed by theorems about the embedded functions.

Conventions of the embedding:
* `std::size_t` values are natural numbers; `int` values are integers kept in
  the 32-bit two's-complement range by `size_t_to_int` and `int_mul`;
* C++ exceptions (`MIOPEN_THROW`) and undefined behaviour (an out-of-range
  `operator[]`, `back()` of an empty vector) are the two constructors of
  `Failure`;
* functions that act on the `Handle` return the resulting handle together
  with their status, so that the state after a failure can be inspected.
-/

namespace MIOpen

/-! ## Machine integers -/

/-- The conversion of an `int` to `std::size_t` (value modulo `2^64`). -/
def int_to_size_t (a : Int) : Nat := (a % 18446744073709551616).toNat

/-- The conversion of a `std::size_t` to `int` (two's complement, 32 bits). -/
def size_t_to_int (n : Nat) : Int :=
  if n % 4294967296 < 2147483648 then ((n % 4294967296 : Nat) : Int)
  else ((n % 4294967296 : Nat) : Int) - 4294967296

/-- The product of two `int`s, wrapped to 32 bits. -/
def int_mul (a b : Int) : Int := size_t_to_int (int_to_size_t (a * b))

/-- The conversion `cl_long(offset)` of a `std::size_t` to a signed 64-bit integer. -/
def cl_long (n : Nat) : Int :=
  if n % 18446744073709551616 < 9223372036854775808 then ((n % 18446744073709551616 : Nat) : Int)
  else ((n % 18446744073709551616 : Nat) : Int) - 18446744073709551616

/-! ## Failures -/

/-- How a call can fail: a thrown exception with its message, or undefined behaviour. -/
inductive Failure where
  | thrown (msg : String)
  | undefined
  deriving DecidableEq, Repr

deriving instance DecidableEq for Except

/-! ## Tensor descriptors -/

/-- Element datatype tags of `miopen.h` that `activ_ocl.cpp` distinguishes. -/
inductive miopenDataType_t where
  | miopenHalf
  | miopenFloat
  | miopenOther
  deriving DecidableEq, Repr

/-- Modelled from the spec: the tensor descriptor (`TensorDescriptor`, not in the
sources at hand) is an ordered sequence of per-axis extents, an ordered sequence
of per-axis strides and an element datatype tag. -/
structure TensorDescriptor where
  lens : List Nat
  strides : List Nat
  type : miopenDataType_t
  deriving DecidableEq, Repr

namespace TensorDescriptor

def GetLengths (d : TensorDescriptor) : List Nat := d.lens

def GetStrides (d : TensorDescriptor) : List Nat := d.strides

def GetType (d : TensorDescriptor) : miopenDataType_t := d.type

/-- Modelled from the spec: the rank of the tensor (`GetSize`). -/
def GetSize (d : TensorDescriptor) : Nat := d.lens.length

/-- Modelled from the spec: the total element count is the product of the extents. -/
def GetElementSize (d : TensorDescriptor) : Nat := d.lens.prod

end TensorDescriptor

/-! ## `IsPackedTensor` -/

/-- The loop of `IsPackedTensor`: `i` is the loop index, `acc_lens` the `int`
accumulator.  The loop runs while `i > 0`; `strides[i]` is read before the
comparison and `lens[i]` after it. -/
def IsPackedTensor_loop (strides lens : List Nat) : Nat → Int → Except Failure Bool
  | 0, _ => .ok true
  | i + 1, acc_lens =>
    match strides[i + 1]? with
    | none => .error .undefined
    | some s =>
      if int_to_size_t acc_lens != s then .ok false
      else
        match lens[i + 1]? with
        | none => .error .undefined
        | some l =>
          IsPackedTensor_loop strides lens i
            (size_t_to_int (int_to_size_t acc_lens * l % 18446744073709551616))

/-- `IsPackedTensor(strides, lens)`.  For an empty `lens` the index
`lens.size() - 1` wraps around and the first read is out of range. -/
def IsPackedTensor (strides lens : List Nat) : Except Failure Bool :=
  if lens.length = 0 then .error .undefined
  else IsPackedTensor_loop strides lens (lens.length - 1) 1

/-- The test `xDesc.GetElementSize() == yDesc.GetElementSize() && (packed || t2D)`
made by `Forward` (lines 78-81) and by `Backward` (lines 316-319);
`packed` is `IsPackedTensor(x) && IsPackedTensor(y)`, evaluated left to right. -/
def fast_path_decision (xDesc yDesc : TensorDescriptor) : Except Failure Bool := do
  let t2D : Bool :=
    xDesc.GetLengths.length == yDesc.GetLengths.length && xDesc.GetLengths.length == 2
  let px ← IsPackedTensor xDesc.GetStrides xDesc.GetLengths
  let packed ← if px then IsPackedTensor yDesc.GetStrides yDesc.GetLengths else pure false
  pure (xDesc.GetElementSize == yDesc.GetElementSize && (packed || t2D))

/-! ## The handle: kernel registry and device queue -/

/-- Floating-point values are kept symbolic: the embedding never computes with
them, it only records which value is passed where. -/
inductive FloatExpr where
  /-- A `float` or `double` value supplied by the caller, identified by a tag. -/
  | val (tag : Nat)
  /-- The conversion `static_cast<float>(e)`. -/
  | cast (e : FloatExpr)
  /-- The product `a * b` of two `float`s. -/
  | mul (a b : FloatExpr)
  deriving DecidableEq, Repr

/-- A runtime argument bound to a kernel invocation. -/
inductive Arg where
  /-- A device buffer (`Data_t` or `ConstData_t`), identified by its address. -/
  | data (p : Nat)
  /-- A `float` scalar. -/
  | float (v : FloatExpr)
  /-- An `int` scalar. -/
  | int (v : Int)
  /-- A `cl_long` scalar. -/
  | long (v : Int)
  deriving DecidableEq, Repr

/-- A launchable kernel: what `AddKernel` is given to build it from. -/
structure Kernel where
  program_name : String
  kernel_name : String
  vld : List Nat
  vgd : List Nat
  params : String
  deriving DecidableEq, Repr, Inhabited

/-- One call of `Handle::AddKernel`, as recorded by the handle. -/
structure Registration where
  algorithm : String
  network_config : String
  cache_index : Nat
  kernel : Kernel
  deriving DecidableEq, Repr

/-- Modelled from the spec: the handle (`Handle`, not in the sources at hand) owns
the registry, a flat mapping from (operation name, config key) to the ordered
kernels of a plan, and the device queue, on which invocations are enqueued in
program order.  The field `added` records every `AddKernel` call. -/
structure Handle where
  cache : String → String → List Kernel
  added : List Registration
  queue : List (Kernel × List Arg)

namespace Handle

/-- A handle with an empty registry and an empty queue. -/
def empty : Handle := ⟨fun _ _ => [], [], []⟩

/-- Modelled from the spec: `GetKernels` returns the kernels bound to
(operation name, config key), none when nothing is bound. -/
def GetKernels (h : Handle) (algorithm network_config : String) : List Kernel :=
  h.cache algorithm network_config

/-- Stores `k` at position `i` of a plan, growing the plan when it is too short. -/
def store (v : List Kernel) (i : Nat) (k : Kernel) : List Kernel :=
  (v ++ List.replicate (i + 1 - v.length) default).set i k

/-- Modelled from the spec: `AddKernel` builds the kernel from the program, the
entry-point name, the work sizes and the compile options, stores it in the
registry under (operation name, config key) at the ordinal `cache_index`, and
returns it. -/
def AddKernel (h : Handle) (algorithm network_config program_name kernel_name : String)
    (vld vgd : List Nat) (params : String) (cache_index : Nat) : Kernel × Handle :=
  let kernel : Kernel := ⟨program_name, kernel_name, vld, vgd, params⟩
  (kernel,
   { h with
     cache := fun a c =>
       if a = algorithm ∧ c = network_config then store (h.cache a c) cache_index kernel
       else h.cache a c
     added := h.added ++ [⟨algorithm, network_config, cache_index, kernel⟩] })

/-- Modelled from the spec: invoking a kernel with runtime arguments enqueues
one execution on the device queue. -/
def invoke (h : Handle) (k : Kernel) (args : List Arg) : Handle :=
  { h with queue := h.queue ++ [(k, args)] }

end Handle

/-! ## The file `miopengemm.cpp` -/

namespace tempfix_v2

/-- Left-to-right replacement of the non-overlapping occurrences of the literal
text `target` by `replacement`; the first argument counts the characters of a
matched occurrence that are still to be skipped.  The targets built by
`get_target` are non-empty and contain no regular-expression operator, and the
replacements contain no dollar sign, so `std::regex_replace` acts on them in
this way. -/
def replace_from (target replacement : List Char) : Nat → List Char → List Char
  | _, [] => []
  | skip + 1, _ :: cs => replace_from target replacement skip cs
  | 0, c :: cs =>
    if target.isPrefixOf (c :: cs) then
      replacement ++ replace_from target replacement (target.length - 1) cs
    else c :: replace_from target replacement 0 cs

/-- The call `std::regex_replace(clstr, target, replacement)` for a literal target. -/
def regex_replace (clstr target replacement : List Char) : List Char :=
  replace_from target replacement 0 clstr

/-- The lambda `get_target`: the text `const <inttype> <x>_offset`. -/
def get_target (inttype : List Char) (x : Char) : List Char :=
  "const ".toList ++ inttype ++ " ".toList ++ [x] ++ "_offset".toList

/-- The inner loop of `set_offsets_to_uint`, over the two integer types. -/
def set_offsets_inner (x : Char) (clstr : List Char) : List Char :=
  let replacement := "const unsigned ".toList ++ [x] ++ "_offset".toList
  ["size_t".toList, "ulong".toList].foldl
    (fun s inttype => regex_replace s (get_target inttype x) replacement) clstr

/-- The outer loop of `set_offsets_to_uint`, over the three buffer roles, on the
characters of the kernel source. -/
def set_offsets_chars (clstr : List Char) : List Char :=
  ['a', 'b', 'c'].foldl (fun s x => set_offsets_inner x s) clstr

/-- The function `set_offsets_to_uint(clstr)`; the updated string is returned. -/
def set_offsets_to_uint (clstr : String) : String :=
  String.mk (set_offsets_chars clstr.toList)

end tempfix_v2

/-- One entry `v_tgks[i]` of a planner solution. -/
structure KernelString where
  kernstr : String
  fname : String
  local_work_size : Nat
  global_work_size : Nat
  deriving DecidableEq, Repr

/-- The solution returned by the external planner (`MIOpenGEMM::find` or
`MIOpenGEMM::get_default`). -/
structure Solution where
  v_tgks : List KernelString
  deriving DecidableEq, Repr

/-- The function `AddMiopengemmSolution`, from the solution `soln` the planner
returned.  Taking `back()` of an empty solution is undefined behaviour. -/
def AddMiopengemmSolution (handle : Handle) (algorithm_name network_config : String)
    (soln : Solution) : Except Failure Unit × Handle :=
  match soln.v_tgks.getLast? with
  | none => (.error .undefined, handle)
  | some back =>
    let kernel_clstring := tempfix_v2.set_offsets_to_uint back.kernstr
    let kernel_name := back.fname
    let local_work_size := back.local_work_size
    let global_work_size := back.global_work_size
    let vld := [local_work_size, 1, 1]
    let vgd := [global_work_size, 1, 1]
    let handle1 :=
      (handle.AddKernel algorithm_name network_config kernel_clstring kernel_name vld vgd "" 0).2
    if soln.v_tgks.length = 2 then
      match soln.v_tgks[0]? with
      | none => (.error .undefined, handle1)
      | some front =>
        let beta_program_name := tempfix_v2.set_offsets_to_uint front.kernstr
        let beta_kernel_name := front.fname
        let vld := vld.set 0 front.local_work_size
        let vgd := vgd.set 0 front.global_work_size
        (.ok (),
         (handle1.AddKernel algorithm_name network_config beta_program_name beta_kernel_name
            vld vgd "" 1).2)
    else (.ok (), handle1)

/-- The function `RunMiopengemmSolution`. -/
def RunMiopengemmSolution (handle : Handle) (algorithm_name network_config : String)
    (alpha : FloatExpr) (A : Nat) (a_offset : Int) (B : Nat) (b_offset : Int)
    (beta : FloatExpr) (C : Nat) (c_offset : Int) : Except Failure Unit × Handle :=
  let kernels := handle.GetKernels algorithm_name network_config
  if kernels.length = 2 then
    match kernels[1]?, kernels[0]? with
    | some k1, some k0 =>
      let handle1 := handle.invoke k1 [.data C, .int c_offset, .float beta]
      (.ok (),
       handle1.invoke k0
         [.data A, .int a_offset, .data B, .int b_offset, .data C, .int c_offset, .float alpha])
    | _, _ => (.error .undefined, handle)
  else if kernels.length = 1 then
    match kernels[0]? with
    | some k0 =>
      (.ok (),
       handle.invoke k0
         [.data A, .int a_offset, .data B, .int b_offset, .data C, .int c_offset,
          .float alpha, .float beta])
    | none => (.error .undefined, handle)
  else (.error (.thrown "unable to get correct MIOpenGEMM kenerls"), handle)

/-! ## The file `ocl/activ_ocl.cpp` -/

/-- The activation descriptor (`this` in `Forward` and `Backward`): the operation
mode and the three parameters returned by `GetAlpha`, `GetBeta`, `GetPower`. -/
structure ActivationDescriptor where
  mode : Nat
  alpha : FloatExpr
  beta : FloatExpr
  power : FloatExpr
  deriving DecidableEq, Repr

namespace ActivationDescriptor

def GetMode (d : ActivationDescriptor) : Nat := d.mode

def GetAlpha (d : ActivationDescriptor) : FloatExpr := d.alpha

def GetBeta (d : ActivationDescriptor) : FloatExpr := d.beta

def GetPower (d : ActivationDescriptor) : FloatExpr := d.power

end ActivationDescriptor

/-- The eight `int` locals that describe one tensor on the general path:
extents `n c h w` and strides `nStride cStride hStride wStride`. -/
structure NCHW where
  n : Int
  c : Int
  h : Int
  w : Int
  nStride : Int
  cStride : Int
  hStride : Int
  wStride : Int
  deriving DecidableEq, Repr

/-- A tensor description handed to the construction-parameter object. -/
inductive mlo_descr where
  /-- Set by `setTopDescr(layout, data_type, n, c, h, w, strides...)`. -/
  | explicit (layout data_type : String) (v : NCHW)
  /-- Set by one of the `set...FromMLDesc(desc)` calls. -/
  | fromMLDesc (desc : TensorDescriptor)
  deriving DecidableEq, Repr

/-- The state of the construction-parameter object `construct_params`
(`mlo_construct_neuron`, declared in `mlo_internal.hpp`): the direction it was
constructed with and what the setters have stored in it. -/
structure mlo_construct_neuron where
  direction : Int
  stream : Bool
  top : Option mlo_descr
  bot : Option mlo_descr
  top_df : Option mlo_descr
  bot_df : Option mlo_descr
  neuron : Option (Nat × FloatExpr × FloatExpr × FloatExpr)
  deriving DecidableEq, Repr

/-- The constructor `mlo_construct_neuron construct_params(direction)`. -/
def mlo_construct_neuron.new (direction : Int) : mlo_construct_neuron :=
  ⟨direction, false, none, none, none, none, none⟩

/-- What the getters of `construct_params` return once `mloConstruct` has run. -/
structure mlo_constructed where
  getKernelFile : String
  getKernelName : String
  getCompilerOptions : String
  getLocalWkSize : List Nat
  getGlobalWkSize : List Nat
  getNeuronDescr : Nat × FloatExpr × FloatExpr × FloatExpr
  deriving DecidableEq, Repr

/-- The functions of other files that `activ_ocl.cpp` calls and whose code is
not at hand; they are parameters of the embedding. -/
structure Collaborators where
  /-- The test `float_equal(v, k)` of `float_equal.hpp` against the constant `k`. -/
  float_equal : FloatExpr → Int → Bool
  /-- The method `mloBuildConf_Key` of the construction-parameter object. -/
  mloBuildConf_Key : mlo_construct_neuron → String
  /-- The general kernel construction `mloConstruct` and the getters after it. -/
  mloConstruct : mlo_construct_neuron → mlo_constructed

/-- The call `tien<1>(v)`, assigned to an `int`. -/
def tien1 (v : List Nat) : Except Failure Int :=
  match v with
  | a :: _ => .ok (size_t_to_int a)
  | _ => .error .undefined

/-- The call `tien<2>(v)`, assigned to two `int`s. -/
def tien2 (v : List Nat) : Except Failure (Int × Int) :=
  match v with
  | a :: b :: _ => .ok (size_t_to_int a, size_t_to_int b)
  | _ => .error .undefined

/-- The call `tien<3>(v)`, assigned to three `int`s. -/
def tien3 (v : List Nat) : Except Failure (Int × Int × Int) :=
  match v with
  | a :: b :: c :: _ => .ok (size_t_to_int a, size_t_to_int b, size_t_to_int c)
  | _ => .error .undefined

/-- The call `tien<4>(v)`, assigned to four `int`s. -/
def tien4 (v : List Nat) : Except Failure (Int × Int × Int × Int) :=
  match v with
  | a :: b :: c :: d :: _ =>
    .ok (size_t_to_int a, size_t_to_int b, size_t_to_int c, size_t_to_int d)
  | _ => .error .undefined

/-- The block that fills the eight `int` locals of one tensor from its
descriptor (in `Forward` lines 134-176 for `yDesc` and 180-223 for `xDesc`, in
`Backward` once for each of `dyDesc`, `yDesc`, `dxDesc`, `xDesc`); `msg` is the
message of the `MIOPEN_THROW` in the last branch.  The extents start at 1 and
the strides at 0. -/
def normalize4 (desc : TensorDescriptor) (msg : String) : Except Failure NCHW :=
  if desc.GetSize = 4 then do
    let (n, c, h, w) ← tien4 desc.GetLengths
    let (nStride, cStride, hStride, wStride) ← tien4 desc.GetStrides
    pure ⟨n, c, h, w, nStride, cStride, hStride, wStride⟩
  else if desc.GetSize < 4 ∧ desc.GetSize > 0 then
    match desc.GetSize with
    | 1 => do
      let w ← tien1 desc.GetLengths
      let wStride ← tien1 desc.GetStrides
      pure ⟨1, 1, 1, w, int_mul w wStride, int_mul w wStride, int_mul w wStride, wStride⟩
    | 2 => do
      let (h, w) ← tien2 desc.GetLengths
      let (hStride, wStride) ← tien2 desc.GetStrides
      pure ⟨1, 1, h, w, int_mul h hStride, int_mul h hStride, hStride, wStride⟩
    | 3 => do
      let (c, h, w) ← tien3 desc.GetLengths
      let (cStride, hStride, wStride) ← tien3 desc.GetStrides
      pure ⟨1, c, h, w, int_mul c cStride, cStride, hStride, wStride⟩
    | _ => pure ⟨1, 1, 1, 1, 0, 0, 0, 0⟩
  else .error (.thrown msg)

/-- The read width `read_unit` of the fast path, from the element count. -/
def read_unit (elementSize : Nat) : Nat :=
  if elementSize % 4 = 0 then 4 else if elementSize % 2 = 0 then 2 else 1

/-- The count of read units `MAP_RD` of the fast path. -/
def MAP_RD (elementSize : Nat) : Nat := elementSize / read_unit elementSize

/-- The text `READ_TYPE` of the fast path. -/
def READ_TYPE (width : Nat) : String :=
  if width = 1 then "_FLOAT" else "_FLOAT" ++ toString width

/-- The text `type_opt` of the fast path; it stays empty for other datatypes. -/
def type_opt (t : miopenDataType_t) : String :=
  match t with
  | .miopenFloat => " -DMIOPEN_USE_FP16=0 -DMIOPEN_USE_FP32=1"
  | .miopenHalf => " -DMIOPEN_USE_FP16=1 -DMIOPEN_USE_FP32=0"
  | .miopenOther => ""

/-- The text `compiler_options` of the fast path (line 101 and line 340). -/
def lite_compiler_options (mode : Nat) (xDesc : TensorDescriptor) : String :=
  " -DLITE -DMLO_READ_UNIT=" ++ toString (read_unit xDesc.GetElementSize) ++
    " -DMLO_READ_TYPE=" ++ READ_TYPE (read_unit xDesc.GetElementSize) ++
    " -DMLO_NRN_OP_ID=" ++ toString mode ++ type_opt xDesc.GetType

/-- The local work size `vld` of the fast path. -/
def lite_vld : List Nat := [256, 1, 1]

/-- The global work size `vgd` of the fast path. -/
def lite_vgd (xDesc : TensorDescriptor) : List Nat := [MAP_RD xDesc.GetElementSize, 1, 1]

/-- The eight defines of one logical tensor, in the order of the source:
`MLO_N_<tag>`, `MLO_C_<tag>`, `MLO_H_<tag>`, `MLO_W_<tag>` and then the four
`MLO_<axis>_<tag>_STRIDE`. -/
def tensor_defines (tag : String) (v : NCHW) : List (String × Int) :=
  [("MLO_N_" ++ tag, v.n), ("MLO_C_" ++ tag, v.c), ("MLO_H_" ++ tag, v.h),
   ("MLO_W_" ++ tag, v.w), ("MLO_N_" ++ tag ++ "_STRIDE", v.nStride),
   ("MLO_C_" ++ tag ++ "_STRIDE", v.cStride), ("MLO_H_" ++ tag ++ "_STRIDE", v.hStride),
   ("MLO_W_" ++ tag ++ "_STRIDE", v.wStride)]

/-- The defines appended to `compiler_options` on the general path, in the order
of the source (lines 248-268 and 585-608): the four tensors, then the four block
sizes. -/
def general_defines (vIn vOut vDin vDout : NCHW) (inBlock outBlock dinBlock doutBlock : Int) :
    List (String × Int) :=
  tensor_defines "IN" vIn ++ tensor_defines "OUT" vOut ++ tensor_defines "DIN" vDin ++
    tensor_defines "DOUT" vDout ++
    [("MLO_IN_BLOCK_SZ", inBlock), ("MLO_OUT_BLOCK_SZ", outBlock),
     ("MLO_DIN_BLOCK_SZ", dinBlock), ("MLO_DOUT_BLOCK_SZ", doutBlock)]

/-- The text of a list of defines: ` -D<name>=<value>` for each, concatenated. -/
def render_defines (l : List (String × Int)) : String :=
  String.join (l.map fun p => " -D" ++ p.1 ++ "=" ++ toString p.2)

/-- The values `std::to_string(1)` written for a tensor that is not part of the
request. -/
def NCHW.ones : NCHW := ⟨1, 1, 1, 1, 1, 1, 1, 1⟩

/-- The block size `c * h * w` of a tensor, in `int` arithmetic. -/
def NCHW.block_sz (v : NCHW) : Int := int_mul (int_mul v.c v.h) v.w

/-- The method `ActivationDescriptor::Forward`.  The locals `elem_space` and
`elem_size` of the source are never read and are left out. -/
def ActivationDescriptor.Forward (env : Collaborators) (self : ActivationDescriptor)
    (handle : Handle) (alpha : FloatExpr) (xDesc : TensorDescriptor) (x : Nat)
    (beta : FloatExpr) (yDesc : TensorDescriptor) (y : Nat) (xOffset yOffset : Nat) :
    Except Failure Unit × Handle :=
  if !env.float_equal alpha 1 || !env.float_equal beta 0 then
    (.error (.thrown "Only alpha=1 and beta=0 is supported"), handle)
  else
    let construct_params := mlo_construct_neuron.new 1
    let activ_alpha := self.GetAlpha
    let activ_beta := self.GetBeta
    let activ_power := self.GetPower
    let network_config := env.mloBuildConf_Key construct_params
    match fast_path_decision xDesc yDesc with
    | .error e => (.error e, handle)
    | .ok true =>
      let compiler_options := lite_compiler_options self.mode xDesc
      let f_activ_alpha := FloatExpr.cast activ_alpha
      let f_activ_beta := FloatExpr.cast activ_beta
      let f_activ_power := FloatExpr.cast activ_power
      let vld := lite_vld
      let vgd := lite_vgd xDesc
      let program_name := "MIOpenNeuron.cl"
      let kernel_name := "MIOpenActiveFwdLite"
      let added := handle.AddKernel "miopenActivationForward" network_config program_name
        kernel_name vld vgd compiler_options 0
      (.ok (),
       added.2.invoke added.1
         [.data x, .data y, .float f_activ_power, .float f_activ_beta, .float f_activ_alpha])
    | .ok false =>
      let construct_params := { construct_params with stream := true }
      match normalize4 yDesc
          "activation does not support tensor size larger than 4 or smaller than 1" with
      | .error e => (.error e, handle)
      | .ok vOut =>
        let construct_params :=
          { construct_params with top := some (.explicit "NCHW" "FP32" vOut) }
        match normalize4 xDesc
            "Activation does not support tensor dimension larger than 4 or smaller than 1" with
        | .error e => (.error e, handle)
        | .ok vIn =>
          let construct_params := { construct_params with bot := some (.fromMLDesc xDesc) }
          let construct_params :=
            { construct_params with
              neuron := some (self.mode, activ_power, activ_beta, activ_alpha) }
          let constructed := env.mloConstruct construct_params
          let program_name := constructed.getKernelFile
          let kernel_name := constructed.getKernelName
          let compiler_options := constructed.getCompilerOptions
          let vld := constructed.getLocalWkSize
          let vgd := constructed.getGlobalWkSize
          let (_, activ_power, activ_beta, activ_alpha) := constructed.getNeuronDescr
          let f_activ_alpha := FloatExpr.cast activ_alpha
          let f_activ_beta := FloatExpr.cast activ_beta
          let f_activ_power := FloatExpr.cast activ_power
          let compiler_options := compiler_options ++
            render_defines
              (general_defines vIn vOut NCHW.ones NCHW.ones vIn.block_sz vOut.block_sz 1 1)
          let added := handle.AddKernel "miopenActivationForward" network_config program_name
            kernel_name vld vgd compiler_options 0
          (.ok (),
           added.2.invoke added.1
             [.data x, .data y, .float f_activ_power, .float f_activ_beta,
              .float f_activ_alpha, .long (cl_long xOffset), .long (cl_long yOffset)])

/-- The method `ActivationDescriptor::Backward`. -/
def ActivationDescriptor.Backward (env : Collaborators) (self : ActivationDescriptor)
    (handle : Handle) (alpha : FloatExpr) (yDesc : TensorDescriptor) (y : Nat)
    (dyDesc : TensorDescriptor) (dy : Nat) (xDesc : TensorDescriptor) (x : Nat)
    (beta : FloatExpr) (dxDesc : TensorDescriptor) (dx : Nat)
    (yOffset dyOffset xOffset dxOffset : Nat) : Except Failure Unit × Handle :=
  if !env.float_equal alpha 1 || !env.float_equal beta 0 then
    (.error (.thrown "Only alpha=1 and beta=0 is supported"), handle)
  else
    let construct_params := mlo_construct_neuron.new 0
    let activ_alpha := self.GetAlpha
    let activ_beta := self.GetBeta
    let activ_power := self.GetPower
    let network_config := env.mloBuildConf_Key construct_params
    match fast_path_decision xDesc yDesc with
    | .error e => (.error e, handle)
    | .ok true =>
      let compiler_options := lite_compiler_options self.mode xDesc
      let f_activ_alpha := FloatExpr.cast activ_alpha
      let f_activ_beta := FloatExpr.cast activ_beta
      let f_activ_power := FloatExpr.cast activ_power
      let f_diff_scale := FloatExpr.mul f_activ_beta f_activ_power
      let vld := lite_vld
      let vgd := lite_vgd xDesc
      let program_name := "MIOpenNeuron.cl"
      let kernel_name := "MIOpenActiveBwdLite"
      let added := handle.AddKernel "miopenActivationBackward" network_config program_name
        kernel_name vld vgd compiler_options 0
      (.ok (),
       added.2.invoke added.1
         [.data dx, .data dy, .data x, .data y, .float f_diff_scale, .float f_activ_power,
          .float f_activ_beta, .float f_activ_alpha])
    | .ok false =>
      let construct_params := { construct_params with stream := true }
      match normalize4 dyDesc
          "activation does not support tensor size larger than 4 or smaller than 1" with
      | .error e => (.error e, handle)
      | .ok vDout =>
        let construct_params := { construct_params with top_df := some (.fromMLDesc dyDesc) }
        match normalize4 yDesc
            "Activation does not support tensor dimensions larger than 4 or smaller than 1" with
        | .error e => (.error e, handle)
        | .ok vOut =>
          let construct_params := { construct_params with top := some (.fromMLDesc yDesc) }
          match normalize4 dxDesc
              "Activation does not support tensor dimensions larger than 4 or smaller than 1"
            with
          | .error e => (.error e, handle)
          | .ok vDin =>
            let construct_params :=
              { construct_params with bot_df := some (.fromMLDesc dxDesc) }
            match normalize4 xDesc
                "Activation does not support tensor dimensions larger than 4 or smaller than 1"
              with
            | .error e => (.error e, handle)
            | .ok vIn =>
              let construct_params := { construct_params with bot := some (.fromMLDesc xDesc) }
              let activ_mode := self.GetMode
              let construct_params :=
                { construct_params with
                  neuron := some (activ_mode, activ_power, activ_beta, activ_alpha) }
              let constructed := env.mloConstruct construct_params
              let program_name := constructed.getKernelFile
              let kernel_name := constructed.getKernelName
              let compiler_options := constructed.getCompilerOptions
              let vld := constructed.getLocalWkSize
              let vgd := constructed.getGlobalWkSize
              let f_activ_alpha := FloatExpr.cast self.GetAlpha
              let f_activ_beta := FloatExpr.cast self.GetBeta
              let f_activ_power := FloatExpr.cast self.GetPower
              let f_diff_scale := FloatExpr.mul f_activ_beta f_activ_power
              let compiler_options := compiler_options ++
                render_defines
                  (general_defines vIn vOut vDin vDout vIn.block_sz vOut.block_sz
                    vDin.block_sz vDout.block_sz)
              let added := handle.AddKernel "miopenActivationBackward" network_config
                program_name kernel_name vld vgd compiler_options 0
              (.ok (),
               added.2.invoke added.1
                 [.data dx, .data dy, .data x, .data y, .float f_diff_scale,
                  .float f_activ_power, .float f_activ_beta, .float f_activ_alpha,
                  .long (cl_long dxOffset), .long (cl_long dyOffset), .long (cl_long xOffset),
                  .long (cl_long yOffset)])

/-! ## Reference notions used in the statements -/

/-- Following the spec's words: a tensor is fully packed when the stride of
every axis `i` equals the product of the extents of the axes `i+1..end` (the
empty product being 1). -/
def spec_fully_packed (strides lens : List Nat) : Prop :=
  ∀ i, i < lens.length → strides[i]? = some (lens.drop (i + 1)).prod

instance (strides lens : List Nat) : Decidable (spec_fully_packed strides lens) := by
  unfold spec_fully_packed
  infer_instance

/-- Following the spec's words: the fast path is eligible when input and output
have equal total element count and both tensors are either fully packed or both
have exactly two axes. -/
def spec_IsFastPathEligible (xDesc yDesc : TensorDescriptor) : Prop :=
  xDesc.GetElementSize = yDesc.GetElementSize ∧
    ((spec_fully_packed xDesc.strides xDesc.lens ∧ spec_fully_packed yDesc.strides yDesc.lens) ∨
      (xDesc.lens.length = 2 ∧ yDesc.lens.length = 2))

instance (xDesc yDesc : TensorDescriptor) : Decidable (spec_IsFastPathEligible xDesc yDesc) := by
  unfold spec_IsFastPathEligible
  infer_instance

/-- The operation name under which `Forward` registers its kernel. -/
def forward_name : String := "miopenActivationForward"

/-- The operation name under which `Backward` registers its kernel. -/
def backward_name : String := "miopenActivationBackward"

/-- The kernel that the fast path of `Forward` hands to `AddKernel`. -/
def fwd_lite_kernel (self : ActivationDescriptor) (xDesc : TensorDescriptor) : Kernel :=
  ⟨"MIOpenNeuron.cl", "MIOpenActiveFwdLite", lite_vld, lite_vgd xDesc,
   lite_compiler_options self.mode xDesc⟩

/-- The kernel that the fast path of `Backward` hands to `AddKernel`. -/
def bwd_lite_kernel (self : ActivationDescriptor) (xDesc : TensorDescriptor) : Kernel :=
  ⟨"MIOpenNeuron.cl", "MIOpenActiveBwdLite", lite_vld, lite_vgd xDesc,
   lite_compiler_options self.mode xDesc⟩

/-- The arguments that the fast path of `Forward` binds. -/
def fwd_lite_args (self : ActivationDescriptor) (x y : Nat) : List Arg :=
  [.data x, .data y, .float (.cast self.power), .float (.cast self.beta),
   .float (.cast self.alpha)]

/-- The arguments that the fast path of `Backward` binds. -/
def bwd_lite_args (self : ActivationDescriptor) (dx dy x y : Nat) : List Arg :=
  [.data dx, .data dy, .data x, .data y,
   .float (.mul (.cast self.beta) (.cast self.power)), .float (.cast self.power),
   .float (.cast self.beta), .float (.cast self.alpha)]

/-- Registers `k` under `(name, key)` at ordinal 0 and invokes it with `args`. -/
def Handle.launch (h : Handle) (name key : String) (k : Kernel) (args : List Arg) : Handle :=
  (h.AddKernel name key k.program_name k.kernel_name k.vld k.vgd k.params 0).2.invoke
    (h.AddKernel name key k.program_name k.kernel_name k.vld k.vgd k.params 0).1 args

/-- A sample of the collaborators: `float_equal v k` holds exactly for the value
tagged `k`, the key is built from the direction, and the general construction
returns fixed values. -/
def sample_env : Collaborators :=
  ⟨fun v k => decide (v = FloatExpr.val k.toNat),
   fun p => "neuron" ++ toString p.direction,
   fun p =>
    ⟨"MIOpenNeuron.cl", "MIOpenNeuronFwd", " -DGEN", [256, 1, 1], [1024, 1, 1],
     p.neuron.getD (0, .val 0, .val 0, .val 0)⟩⟩

/-- A sample activation descriptor: mode 3 with three tagged parameters. -/
def sample_activation : ActivationDescriptor := ⟨3, .val 10, .val 11, .val 12⟩

/-- A packed float tensor with the given extents on two axes. -/
def sample_2d (a b : Nat) : TensorDescriptor := ⟨[a, b], [b, 1], .miopenFloat⟩

/-- A packed float tensor with one axis. -/
def sample_1d (a : Nat) : TensorDescriptor := ⟨[a], [1], .miopenFloat⟩

/-- The kernel that `AddMiopengemmSolution` builds from one entry of the
solution: the normalised source, the entry-point name, the work sizes with the
non-leading components 1, and no compile options. -/
def solution_kernel (s : KernelString) : Kernel :=
  ⟨tempfix_v2.set_offsets_to_uint s.kernstr, s.fname, [s.local_work_size, 1, 1],
   [s.global_work_size, 1, 1], ""⟩

/-- A handle whose registry binds `plan` to the key `("gemm", "cfg")` and nothing
else, with an empty queue. -/
def sample_handle (plan : List Kernel) : Handle :=
  ⟨fun a c => if a = "gemm" ∧ c = "cfg" then plan else [], [], []⟩

/-- A sample main kernel (`C += alpha * A * B`). -/
def sample_main : Kernel := ⟨"main source", "miog_alphaab", [256, 1, 1], [1024, 1, 1], ""⟩

/-- A sample scale kernel (`C *= beta`). -/
def sample_beta : Kernel := ⟨"beta source", "miog_betac", [64, 1, 1], [128, 1, 1], ""⟩

/-- A sample scale entry of a planner solution. -/
def sample_soln_beta : KernelString :=
  ⟨"__kernel void miog_betac(__global float* c, const ulong c_offset, float beta)",
   "miog_betac", 64, 128⟩

/-- A sample main entry of a planner solution. -/
def sample_soln_main : KernelString :=
  ⟨"__kernel void miog_alphaab(const size_t a_offset, const size_t b_offset)",
   "miog_alphaab", 256, 1024⟩

/-- The handle after `n` successive calls of `Forward` with the same arguments,
starting from `handle`. -/
def Forward_repeat (env : Collaborators) (self : ActivationDescriptor) (alpha : FloatExpr)
    (xDesc : TensorDescriptor) (x : Nat) (beta : FloatExpr) (yDesc : TensorDescriptor) (y : Nat)
    (xOffset yOffset : Nat) : Nat → Handle → Handle
  | 0, handle => handle
  | n + 1, handle =>
    Forward_repeat env self alpha xDesc x beta yDesc y xOffset yOffset n
      (self.Forward env handle alpha xDesc x beta yDesc y xOffset yOffset).2

/-! ## Reference notions for the source normalizer -/

namespace tempfix_v2

/-- The text `const unsigned <x>_offset` that `set_offsets_to_uint` writes for
the buffer role `x` (the local `replacement` of the source). -/
def replacement (x : Char) : List Char :=
  "const unsigned ".toList ++ [x] ++ "_offset".toList

/-- The six (target, replacement) pairs of `set_offsets_to_uint`, in the order
in which its two nested loops visit them. -/
def passes : List (List Char × List Char) :=
  [(get_target "size_t".toList 'a', replacement 'a'),
   (get_target "ulong".toList 'a', replacement 'a'),
   (get_target "size_t".toList 'b', replacement 'b'),
   (get_target "ulong".toList 'b', replacement 'b'),
   (get_target "size_t".toList 'c', replacement 'c'),
   (get_target "ulong".toList 'c', replacement 'c')]

/-- Following the spec's words: the declarations of a buffer-offset parameter
typed as a 64-bit-width integer, for each of the three buffer roles, each with
the fixed 32-bit-width declaration it is rewritten to. -/
def spec_targets : List (List Char × List Char) :=
  [("const size_t a_offset".toList, "const unsigned a_offset".toList),
   ("const ulong a_offset".toList, "const unsigned a_offset".toList),
   ("const size_t b_offset".toList, "const unsigned b_offset".toList),
   ("const ulong b_offset".toList, "const unsigned b_offset".toList),
   ("const size_t c_offset".toList, "const unsigned c_offset".toList),
   ("const ulong c_offset".toList, "const unsigned c_offset".toList)]

/-- Following the spec's words: the text obtained by replacing, in one pass from
left to right, every occurrence of a target of `ps` by its replacement; the
first argument counts the characters of a replaced occurrence that are still to
be skipped. -/
def replace_every (ps : List (List Char × List Char)) : Nat → List Char → List Char
  | _, [] => []
  | skip + 1, _ :: cs => replace_every ps skip cs
  | 0, c :: cs =>
    match ps.find? (fun pr => pr.1.isPrefixOf (c :: cs)) with
    | some pr => pr.2 ++ replace_every ps (pr.1.length - 1) cs
    | none => c :: replace_every ps 0 cs

/-- Two texts clash when neither is a prefix of the other: they differ at a
position that both have. -/
def clash (u v : List Char) : Bool := !u.isPrefixOf v && !v.isPrefixOf u

/-- The text `p` is free of `w` when no occurrence of `p` can begin at a
position of `w`, whatever follows `w`. -/
def free (p w : List Char) : Bool := w.tails.all fun v => v.isEmpty || clash p v

/-- The conditions on a list of (target, replacement) pairs under which the
successive passes act as one pass: no target is empty, no target can begin
inside a replacement or a replacement inside a target, and no target can begin
inside the target of another pair. -/
def Good (ps : List (List Char × List Char)) : Prop :=
  (∀ pr ∈ ps, pr.1 ≠ []) ∧
  (∀ pr ∈ ps, ∀ qr ∈ ps, free pr.1 qr.2 = true ∧ free qr.2 pr.1 = true) ∧
  ps.Pairwise (fun pr qr => free pr.1 qr.1 = true ∧ free qr.1 pr.1 = true)

instance (ps : List (List Char × List Char)) : Decidable (Good ps) := by
  unfold Good
  infer_instance

end tempfix_v2

/-- The successive passes of `set_offsets_to_uint` over a list of (target,
replacement) pairs: each pass is one `std::regex_replace`. -/
def tempfix_v2.run_passes (ps : List (List Char × List Char)) (s : List Char) : List Char :=
  ps.foldl (fun s pr => regex_replace s pr.1 pr.2) s

/-! ## Reference notions for the general path -/

/-- The message thrown by the check on `alpha` and `beta`. -/
def msg_alpha_beta : String := "Only alpha=1 and beta=0 is supported"

/-- The message thrown for `yDesc` in `Forward` and for `dyDesc` in `Backward`. -/
def msg_size : String :=
  "activation does not support tensor size larger than 4 or smaller than 1"

/-- The message thrown for `xDesc` in `Forward`. -/
def msg_dimension : String :=
  "Activation does not support tensor dimension larger than 4 or smaller than 1"

/-- The message thrown for `yDesc`, `dxDesc` and `xDesc` in `Backward`. -/
def msg_dimensions : String :=
  "Activation does not support tensor dimensions larger than 4 or smaller than 1"

/-- The state of `construct_params` when `Forward` calls `mloConstruct`. -/
def fwd_construct_params (self : ActivationDescriptor) (xDesc : TensorDescriptor)
    (vOut : NCHW) : mlo_construct_neuron :=
  { direction := 1, stream := true, top := some (.explicit "NCHW" "FP32" vOut),
    bot := some (.fromMLDesc xDesc), top_df := none, bot_df := none,
    neuron := some (self.mode, self.power, self.beta, self.alpha) }

/-- The defines that `Forward` appends to the compile options on the general
path, from the normalized `xDesc` (`vIn`) and `yDesc` (`vOut`). -/
def fwd_general_defines (vIn vOut : NCHW) : List (String × Int) :=
  general_defines vIn vOut NCHW.ones NCHW.ones vIn.block_sz vOut.block_sz 1 1

/-- The kernel that the general path of `Forward` hands to `AddKernel`. -/
def fwd_general_kernel (env : Collaborators) (self : ActivationDescriptor)
    (xDesc : TensorDescriptor) (vIn vOut : NCHW) : Kernel :=
  ⟨(env.mloConstruct (fwd_construct_params self xDesc vOut)).getKernelFile,
   (env.mloConstruct (fwd_construct_params self xDesc vOut)).getKernelName,
   (env.mloConstruct (fwd_construct_params self xDesc vOut)).getLocalWkSize,
   (env.mloConstruct (fwd_construct_params self xDesc vOut)).getGlobalWkSize,
   (env.mloConstruct (fwd_construct_params self xDesc vOut)).getCompilerOptions ++
     render_defines (fwd_general_defines vIn vOut)⟩

/-- The arguments that the general path of `Forward` binds. -/
def fwd_general_args (env : Collaborators) (self : ActivationDescriptor)
    (xDesc : TensorDescriptor) (vOut : NCHW) (x y xOffset yOffset : Nat) : List Arg :=
  [.data x, .data y,
   .float (.cast (env.mloConstruct (fwd_construct_params self xDesc vOut)).getNeuronDescr.2.1),
   .float (.cast (env.mloConstruct (fwd_construct_params self xDesc vOut)).getNeuronDescr.2.2.1),
   .float (.cast (env.mloConstruct (fwd_construct_params self xDesc vOut)).getNeuronDescr.2.2.2),
   .long (cl_long xOffset), .long (cl_long yOffset)]

/-- The state of `construct_params` when `Backward` calls `mloConstruct`. -/
def bwd_construct_params (self : ActivationDescriptor)
    (dyDesc yDesc dxDesc xDesc : TensorDescriptor) : mlo_construct_neuron :=
  { direction := 0, stream := true, top := some (.fromMLDesc yDesc),
    bot := some (.fromMLDesc xDesc), top_df := some (.fromMLDesc dyDesc),
    bot_df := some (.fromMLDesc dxDesc),
    neuron := some (self.mode, self.power, self.beta, self.alpha) }

/-- The defines that `Backward` appends to the compile options on the general
path, from the normalized `xDesc`, `yDesc`, `dxDesc` and `dyDesc`. -/
def bwd_general_defines (vIn vOut vDin vDout : NCHW) : List (String × Int) :=
  general_defines vIn vOut vDin vDout vIn.block_sz vOut.block_sz vDin.block_sz vDout.block_sz

/-- The kernel that the general path of `Backward` hands to `AddKernel`. -/
def bwd_general_kernel (env : Collaborators) (self : ActivationDescriptor)
    (dyDesc yDesc dxDesc xDesc : TensorDescriptor) (vIn vOut vDin vDout : NCHW) : Kernel :=
  ⟨(env.mloConstruct (bwd_construct_params self dyDesc yDesc dxDesc xDesc)).getKernelFile,
   (env.mloConstruct (bwd_construct_params self dyDesc yDesc dxDesc xDesc)).getKernelName,
   (env.mloConstruct (bwd_construct_params self dyDesc yDesc dxDesc xDesc)).getLocalWkSize,
   (env.mloConstruct (bwd_construct_params self dyDesc yDesc dxDesc xDesc)).getGlobalWkSize,
   (env.mloConstruct (bwd_construct_params self dyDesc yDesc dxDesc xDesc)).getCompilerOptions ++
     render_defines (bwd_general_defines vIn vOut vDin vDout)⟩

/-- The arguments that the general path of `Backward` binds. -/
def bwd_general_args (self : ActivationDescriptor)
    (dx dy x y dxOffset dyOffset xOffset yOffset : Nat) : List Arg :=
  [.data dx, .data dy, .data x, .data y,
   .float (.mul (.cast self.beta) (.cast self.power)), .float (.cast self.power),
   .float (.cast self.beta), .float (.cast self.alpha),
   .long (cl_long dxOffset), .long (cl_long dyOffset), .long (cl_long xOffset),
   .long (cl_long yOffset)]

/-- A float tensor of extents `[4,4,4]` whose rows are padded: strides `[32,8,1]`. -/
def sample_3d_strided : TensorDescriptor := ⟨[4, 4, 4], [32, 8, 1], .miopenFloat⟩

/-- A packed float tensor of extents `[4,4,4]`. -/
def sample_3d_packed : TensorDescriptor := ⟨[4, 4, 4], [16, 4, 1], .miopenFloat⟩

/-- A float tensor of extents `[4,4,4,4]` whose outermost stride is 128, not 64;
the inner axes are packed. -/
def sample_4d_outer : TensorDescriptor := ⟨[4, 4, 4, 4], [128, 16, 4, 1], .miopenFloat⟩

/-- A packed float tensor of extents `[4,4,4,4]`. -/
def sample_4d_packed : TensorDescriptor := ⟨[4, 4, 4, 4], [64, 16, 4, 1], .miopenFloat⟩

/-- A packed float tensor of rank 5, extents `[2,2,2,2,2]`. -/
def sample_5d : TensorDescriptor := ⟨[2, 2, 2, 2, 2], [16, 8, 4, 2, 1], .miopenFloat⟩

/-- The normalization of `sample_3d_strided`. -/
def sample_nchw_strided : NCHW := ⟨1, 4, 4, 4, 128, 32, 8, 1⟩

/-- The normalization of `sample_3d_packed`. -/
def sample_nchw_packed : NCHW := ⟨1, 4, 4, 4, 64, 16, 4, 1⟩

/-! ## The file `op_args.cpp` -/

/-- A value held by a `boost::spirit::hold_any`.  The embedding only stores such
values and hands them back, so a value is identified by a tag. -/
structure hold_any where
  tag : Nat
  deriving DecidableEq, Repr

/-- The members of `OperatorArgs` (declared in `fusion.hpp`) as `ins_arg` uses
them: `args_map`, a map from names to values on which `operator[]` assigns, kept
as the list of its entries, one per name; and `args_vec`, a sequence on which
`push_back` appends. -/
structure OperatorArgs where
  args_map : List (String × hold_any)
  args_vec : List hold_any
  deriving DecidableEq, Repr

namespace OperatorArgs

/-- The constructor `OperatorArgs()`: both containers start empty. -/
def new : OperatorArgs := ⟨[], []⟩

/-- The assignment `m[name] = v` on the entries of a map: the entry of `name`
is overwritten when there is one, and a new entry is made otherwise. -/
def map_assign (m : List (String × hold_any)) (name : String) (v : hold_any) :
    List (String × hold_any) :=
  match m with
  | [] => [(name, v)]
  | (k, w) :: rest =>
    if k = name then (k, v) :: rest else (k, w) :: map_assign rest name v

/-- The value the map holds for `name`, none when `name` has no entry. -/
def map_find (m : List (String × hold_any)) (name : String) : Option hold_any :=
  match m with
  | [] => none
  | (k, w) :: rest => if k = name then some w else map_find rest name

/-- The method `OperatorArgs::ins_arg(name, v)`. -/
def ins_arg (self : OperatorArgs) (name : String) (v : hold_any) : OperatorArgs :=
  { args_map := map_assign self.args_map name v, args_vec := self.args_vec ++ [v] }

/-- The object after the calls `ins_arg(name, v)` for the pairs of `calls`, in
order, made on `self`. -/
def ins_args (self : OperatorArgs) (calls : List (String × hold_any)) : OperatorArgs :=
  calls.foldl (fun s c => s.ins_arg c.1 c.2) self

end OperatorArgs

/-! ## Reference notions for the frame of the source normalizer -/

namespace tempfix_v2

/-- Following the spec's words: a piece of a kernel-source text as the
normalizer treats it, either one character outside the matched occurrences or a
matched occurrence of a target together with the text written in its place. -/
inductive Piece where
  | keep (c : Char)
  | hit (target replacement : List Char)
  deriving DecidableEq, Repr

/-- The text of a piece before the normalizer has run. -/
def Piece.before : Piece → List Char
  | .keep c => [c]
  | .hit target _ => target

/-- The text of a piece after the normalizer has run: a character outside the
matched occurrences is kept, a matched occurrence is rewritten. -/
def Piece.after : Piece → List Char
  | .keep c => [c]
  | .hit _ replacement => replacement

/-- The text made of the pieces before the normalizer has run. -/
def pieces_before : List Piece → List Char
  | [] => []
  | p :: ps => p.before ++ pieces_before ps

/-- The text made of the pieces after the normalizer has run. -/
def pieces_after : List Piece → List Char
  | [] => []
  | p :: ps => p.after ++ pieces_after ps

/-- The pieces into which the sweep over the targets `ps` cuts a text; the first
argument counts the characters of a matched occurrence still to be skipped. -/
def cut (ps : List (List Char × List Char)) : Nat → List Char → List Piece
  | _, [] => []
  | skip + 1, _ :: cs => cut ps skip cs
  | 0, c :: cs =>
    match ps.find? (fun pr => pr.1.isPrefixOf (c :: cs)) with
    | some pr => .hit pr.1 pr.2 :: cut ps (pr.1.length - 1) cs
    | none => .keep c :: cut ps 0 cs

/-- A kernel source in which no parameter declaration is a target: offsets
declared without the leading `const`, and `const` declarations of other
parameters. -/
def sample_untouched : String :=
  "size_t a_offset, ulong b_offset, const size_t d_offset, const int c_offset"

/-- A kernel source with two targets among other declarations. -/
def sample_source : String :=
  "(const ulong a_offset, size_t b_offset, const size_t c_offset, float beta)"

end tempfix_v2

/-! ## Reference notions for the remaining claims -/

/-- A gradient descriptor that is neither packed nor of the element count of
`sample_2d 8 8`: extents `[3,5]`, strides `[100,7]`. -/
def sample_grad_odd : TensorDescriptor := ⟨[3, 5], [100, 7], .miopenFloat⟩

/-- A third sample entry of a planner solution. -/
def sample_soln_extra : KernelString :=
  ⟨"__kernel void miog_extra(const ulong b_offset)", "miog_extra", 32, 96⟩


/-- The compile options that `Forward` gives the kernel for a strided `[4,4,4]`
input (strides `[32,8,1]`) and a packed `[4,4,4]` output, when the general
construction returns ` -DGEN`. -/
def sample_general_fwd_options : String :=
  " -DGEN -DMLO_N_IN=1 -DMLO_C_IN=4 -DMLO_H_IN=4 -DMLO_W_IN=4 -DMLO_N_IN_STRIDE=128" ++
  " -DMLO_C_IN_STRIDE=32 -DMLO_H_IN_STRIDE=8 -DMLO_W_IN_STRIDE=1 -DMLO_N_OUT=1" ++
  " -DMLO_C_OUT=4 -DMLO_H_OUT=4 -DMLO_W_OUT=4 -DMLO_N_OUT_STRIDE=64" ++
  " -DMLO_C_OUT_STRIDE=16 -DMLO_H_OUT_STRIDE=4 -DMLO_W_OUT_STRIDE=1 -DMLO_N_DIN=1" ++
  " -DMLO_C_DIN=1 -DMLO_H_DIN=1 -DMLO_W_DIN=1 -DMLO_N_DIN_STRIDE=1 -DMLO_C_DIN_STRIDE=1" ++
  " -DMLO_H_DIN_STRIDE=1 -DMLO_W_DIN_STRIDE=1 -DMLO_N_DOUT=1 -DMLO_C_DOUT=1" ++
  " -DMLO_H_DOUT=1 -DMLO_W_DOUT=1 -DMLO_N_DOUT_STRIDE=1 -DMLO_C_DOUT_STRIDE=1" ++
  " -DMLO_H_DOUT_STRIDE=1 -DMLO_W_DOUT_STRIDE=1 -DMLO_IN_BLOCK_SZ=64" ++
  " -DMLO_OUT_BLOCK_SZ=64 -DMLO_DIN_BLOCK_SZ=1 -DMLO_DOUT_BLOCK_SZ=1"

/-- The compile options that `Backward` gives the kernel for a strided `[4,4,4]`
input (strides `[32,8,1]`) and packed `[4,4,4]` output and gradients, when the
general construction returns ` -DGEN`. -/
def sample_general_bwd_options : String :=
  " -DGEN -DMLO_N_IN=1 -DMLO_C_IN=4 -DMLO_H_IN=4 -DMLO_W_IN=4 -DMLO_N_IN_STRIDE=128" ++
  " -DMLO_C_IN_STRIDE=32 -DMLO_H_IN_STRIDE=8 -DMLO_W_IN_STRIDE=1 -DMLO_N_OUT=1" ++
  " -DMLO_C_OUT=4 -DMLO_H_OUT=4 -DMLO_W_OUT=4 -DMLO_N_OUT_STRIDE=64" ++
  " -DMLO_C_OUT_STRIDE=16 -DMLO_H_OUT_STRIDE=4 -DMLO_W_OUT_STRIDE=1 -DMLO_N_DIN=1" ++
  " -DMLO_C_DIN=4 -DMLO_H_DIN=4 -DMLO_W_DIN=4 -DMLO_N_DIN_STRIDE=64" ++
  " -DMLO_C_DIN_STRIDE=16 -DMLO_H_DIN_STRIDE=4 -DMLO_W_DIN_STRIDE=1 -DMLO_N_DOUT=1" ++
  " -DMLO_C_DOUT=4 -DMLO_H_DOUT=4 -DMLO_W_DOUT=4 -DMLO_N_DOUT_STRIDE=64" ++
  " -DMLO_C_DOUT_STRIDE=16 -DMLO_H_DOUT_STRIDE=4 -DMLO_W_DOUT_STRIDE=1" ++
  " -DMLO_IN_BLOCK_SZ=64 -DMLO_OUT_BLOCK_SZ=64 -DMLO_DIN_BLOCK_SZ=64" ++
  " -DMLO_DOUT_BLOCK_SZ=64"

/-! ## General facts about the embedding -/

theorem Handle.launch_queue (h : Handle) (name key : String) (k : Kernel) (args : List Arg) :
    (h.launch name key k args).queue = h.queue ++ [(k, args)] := by
  simp [Handle.launch, Handle.invoke, Handle.AddKernel]

theorem Handle.launch_added (h : Handle) (name key : String) (k : Kernel) (args : List Arg) :
    (h.launch name key k args).added = h.added ++ [⟨name, key, 0, k⟩] := by
  simp [Handle.launch, Handle.invoke, Handle.AddKernel]

/-- On the fast path `Forward` registers the lite kernel and invokes it. -/
theorem Forward_fast (env : Collaborators) (self : ActivationDescriptor) (handle : Handle)
    (alpha beta : FloatExpr) (xDesc yDesc : TensorDescriptor) (x y xOffset yOffset : Nat)
    (ha : env.float_equal alpha 1 = true) (hb : env.float_equal beta 0 = true)
    (hf : fast_path_decision xDesc yDesc = .ok true) :
    self.Forward env handle alpha xDesc x beta yDesc y xOffset yOffset =
      (.ok (), handle.launch forward_name (env.mloBuildConf_Key (mlo_construct_neuron.new 1))
        (fwd_lite_kernel self xDesc) (fwd_lite_args self x y)) := by
  simp [ActivationDescriptor.Forward, ha, hb, hf, Handle.launch, fwd_lite_kernel, fwd_lite_args,
    forward_name, ActivationDescriptor.GetAlpha, ActivationDescriptor.GetBeta,
    ActivationDescriptor.GetPower, Handle.AddKernel]

/-- On the fast path `Backward` registers the lite kernel and invokes it. -/
theorem Backward_fast (env : Collaborators) (self : ActivationDescriptor) (handle : Handle)
    (alpha beta : FloatExpr) (yDesc dyDesc xDesc dxDesc : TensorDescriptor)
    (y dy x dx yOffset dyOffset xOffset dxOffset : Nat)
    (ha : env.float_equal alpha 1 = true) (hb : env.float_equal beta 0 = true)
    (hf : fast_path_decision xDesc yDesc = .ok true) :
    self.Backward env handle alpha yDesc y dyDesc dy xDesc x beta dxDesc dx
        yOffset dyOffset xOffset dxOffset =
      (.ok (), handle.launch backward_name (env.mloBuildConf_Key (mlo_construct_neuron.new 0))
        (bwd_lite_kernel self xDesc) (bwd_lite_args self dx dy x y)) := by
  simp [ActivationDescriptor.Backward, ha, hb, hf, Handle.launch, bwd_lite_kernel,
    bwd_lite_args, backward_name, ActivationDescriptor.GetAlpha, ActivationDescriptor.GetBeta,
    ActivationDescriptor.GetPower, Handle.AddKernel]

theorem read_unit_eq (T : Nat) :
    read_unit T = if 4 ∣ T then 4 else if 2 ∣ T then 2 else 1 := by
  simp [read_unit, Nat.dvd_iff_mod_eq_zero]

theorem read_unit_dvd (T : Nat) : read_unit T ∣ T := by
  unfold read_unit
  split_ifs with h4 h2
  · exact Nat.dvd_of_mod_eq_zero h4
  · exact Nat.dvd_of_mod_eq_zero h2
  · exact one_dvd T

theorem read_unit_pos (T : Nat) : 0 < read_unit T := by
  unfold read_unit
  split_ifs <;> decide

/-! ## Claims about the fast path -/

/-- C1 (evaluation of the code where it departs from the claim): for two
rank-3 tensors of extents `[2,2,2]` and strides `[100,2,1]` the decision taken
by `Forward` and `Backward` is the fast path, although the element counts being
equal, neither tensor is fully packed (axis 0 has stride 100, not 4) and
neither has two axes; the `[8,8]` tensors with strides `[8,1]` of the claim are
eligible. -/
theorem C1_fast_path_taken_for_unpacked_outer_stride :
    fast_path_decision ⟨[2, 2, 2], [100, 2, 1], .miopenFloat⟩
        ⟨[2, 2, 2], [100, 2, 1], .miopenFloat⟩ = .ok true ∧
      ¬ spec_IsFastPathEligible ⟨[2, 2, 2], [100, 2, 1], .miopenFloat⟩
        ⟨[2, 2, 2], [100, 2, 1], .miopenFloat⟩ ∧
      fast_path_decision ⟨[8, 8], [8, 1], .miopenFloat⟩ ⟨[8, 8], [8, 1], .miopenFloat⟩ =
        .ok true := by
  decide

/-- C2 (evaluation of the code where it departs from the claim): for extents
`[2,2]` and strides `[5,1]`, `IsPackedTensor` returns true although the stride
of axis 0 is 5 and the product of the extents of the axes after it is 2; and
for the rank-1 tensor of extent 3 and stride 7 it returns true although the
stride is not 1. -/
theorem C2_IsPackedTensor_ignores_axis0 :
    IsPackedTensor [5, 1] [2, 2] = .ok true ∧ ¬ spec_fully_packed [5, 1] [2, 2] ∧
      IsPackedTensor [7] [3] = .ok true ∧ ¬ spec_fully_packed [7] [3] := by
  decide

/-- C3: on the fast path of `Forward` and of `Backward`, with `T` the element
count of the input, the registered kernel is specialised with the read width
`w = 4` if `4 ∣ T`, else `2` if `2 ∣ T`, else `1`; this `w` is the largest of
1, 2, 4 that divides `T`, and the count of read units (the leading global size)
is `T / w`. -/
theorem C3_read_width_selection (env : Collaborators) (self : ActivationDescriptor)
    (handle : Handle) (alpha beta : FloatExpr) (xDesc yDesc dyDesc dxDesc : TensorDescriptor)
    (x y dx dy xOffset yOffset dxOffset dyOffset : Nat)
    (ha : env.float_equal alpha 1 = true) (hb : env.float_equal beta 0 = true)
    (hf : fast_path_decision xDesc yDesc = .ok true) :
    ∃ w kf kb argsf argsb,
      w = (if 4 ∣ xDesc.GetElementSize then 4 else if 2 ∣ xDesc.GetElementSize then 2 else 1) ∧
      w ∣ xDesc.GetElementSize ∧
      (∀ v, v ∈ [1, 2, 4] → v ∣ xDesc.GetElementSize → v ≤ w) ∧
      (self.Forward env handle alpha xDesc x beta yDesc y xOffset yOffset).2.queue =
        handle.queue ++ [(kf, argsf)] ∧
      (self.Backward env handle alpha yDesc y dyDesc dy xDesc x beta dxDesc dx
        yOffset dyOffset xOffset dxOffset).2.queue = handle.queue ++ [(kb, argsb)] ∧
      kf.params = " -DLITE -DMLO_READ_UNIT=" ++ toString w ++ " -DMLO_READ_TYPE=" ++
        READ_TYPE w ++ " -DMLO_NRN_OP_ID=" ++ toString self.mode ++ type_opt xDesc.type ∧
      kb.params = kf.params ∧
      kf.vgd = [xDesc.GetElementSize / w, 1, 1] ∧ kb.vgd = [xDesc.GetElementSize / w, 1, 1] := by
  refine ⟨read_unit xDesc.GetElementSize, fwd_lite_kernel self xDesc,
    bwd_lite_kernel self xDesc, fwd_lite_args self x y, bwd_lite_args self dx dy x y,
    read_unit_eq _, read_unit_dvd _, ?_, ?_, ?_, rfl, rfl, rfl, rfl⟩
  · intro v hv hdvd
    rw [read_unit_eq]
    simp only [List.mem_cons, List.mem_singleton, List.not_mem_nil, or_false] at hv
    rcases hv with rfl | rfl | rfl <;> split_ifs <;> decide
  · rw [Forward_fast env self handle alpha beta xDesc yDesc x y xOffset yOffset ha hb hf]
    exact Handle.launch_queue _ _ _ _ _
  · rw [Backward_fast env self handle alpha beta yDesc dyDesc xDesc dxDesc y dy x dx
      yOffset dyOffset xOffset dxOffset ha hb hf]
    exact Handle.launch_queue _ _ _ _ _

/-- C3 at a concrete request: two packed `[8,8]` float tensors. -/
theorem C3_read_width_selection_witness :
    ∃ w kf kb argsf argsb,
      w = (if 4 ∣ (sample_2d 8 8).GetElementSize then 4
        else if 2 ∣ (sample_2d 8 8).GetElementSize then 2 else 1) ∧
      w ∣ (sample_2d 8 8).GetElementSize ∧
      (∀ v, v ∈ [1, 2, 4] → v ∣ (sample_2d 8 8).GetElementSize → v ≤ w) ∧
      (sample_activation.Forward sample_env Handle.empty (.val 1) (sample_2d 8 8) 100 (.val 0)
        (sample_2d 8 8) 200 0 0).2.queue = Handle.empty.queue ++ [(kf, argsf)] ∧
      (sample_activation.Backward sample_env Handle.empty (.val 1) (sample_2d 8 8) 200
        (sample_2d 8 8) 201 (sample_2d 8 8) 100 (.val 0) (sample_2d 8 8) 101
        0 0 0 0).2.queue = Handle.empty.queue ++ [(kb, argsb)] ∧
      kf.params = " -DLITE -DMLO_READ_UNIT=" ++ toString w ++ " -DMLO_READ_TYPE=" ++
        READ_TYPE w ++ " -DMLO_NRN_OP_ID=" ++ toString sample_activation.mode ++
        type_opt (sample_2d 8 8).type ∧
      kb.params = kf.params ∧
      kf.vgd = [(sample_2d 8 8).GetElementSize / w, 1, 1] ∧
      kb.vgd = [(sample_2d 8 8).GetElementSize / w, 1, 1] :=
  C3_read_width_selection sample_env sample_activation Handle.empty (.val 1) (.val 0)
    (sample_2d 8 8) (sample_2d 8 8) (sample_2d 8 8) (sample_2d 8 8) 100 200 101 201 0 0 0 0
    (by decide) (by decide) (by decide)

/-- C4: on the fast path of `Forward`, with `T` the element count of the input
and `w` the chosen read width, the registered kernel has local size
`(256, 1, 1)` and global size `(ceil(T / w), 1, 1)`; for `T = 1024` the width is
4 and the global size `(256, 1, 1)`, for `T = 17` the width is 1 and the global
size `(17, 1, 1)`. -/
theorem C4_fast_path_geometry (env : Collaborators) (self : ActivationDescriptor)
    (handle : Handle) (alpha beta : FloatExpr) (xDesc yDesc : TensorDescriptor)
    (x y xOffset yOffset : Nat)
    (ha : env.float_equal alpha 1 = true) (hb : env.float_equal beta 0 = true)
    (hf : fast_path_decision xDesc yDesc = .ok true) :
    (∃ k args,
      (self.Forward env handle alpha xDesc x beta yDesc y xOffset yOffset).2.queue =
        handle.queue ++ [(k, args)] ∧
      (self.Forward env handle alpha xDesc x beta yDesc y xOffset yOffset).2.added =
        handle.added ++
          [⟨forward_name, env.mloBuildConf_Key (mlo_construct_neuron.new 1), 0, k⟩] ∧
      k.vld = [256, 1, 1] ∧
      k.vgd = [(xDesc.GetElementSize + read_unit xDesc.GetElementSize - 1) /
        read_unit xDesc.GetElementSize, 1, 1]) ∧
    (read_unit 1024 = 4 ∧ (1024 + read_unit 1024 - 1) / read_unit 1024 = 256 ∧
      lite_vgd (sample_2d 32 32) = [256, 1, 1]) ∧
    (read_unit 17 = 1 ∧ (17 + read_unit 17 - 1) / read_unit 17 = 17 ∧
      lite_vgd (sample_1d 17) = [17, 1, 1]) := by
  refine ⟨⟨fwd_lite_kernel self xDesc, fwd_lite_args self x y, ?_, ?_, rfl, ?_⟩,
    by decide, by decide⟩
  · rw [Forward_fast env self handle alpha beta xDesc yDesc x y xOffset yOffset ha hb hf]
    exact Handle.launch_queue _ _ _ _ _
  · rw [Forward_fast env self handle alpha beta xDesc yDesc x y xOffset yOffset ha hb hf]
    exact Handle.launch_added _ _ _ _ _
  · obtain ⟨q, hq⟩ := read_unit_dvd xDesc.GetElementSize
    have hpos := read_unit_pos xDesc.GetElementSize
    show [MAP_RD xDesc.GetElementSize, 1, 1] = _
    congr 1
    unfold MAP_RD
    generalize read_unit xDesc.GetElementSize = w at hq hpos
    rw [hq, Nat.mul_div_cancel_left q hpos]
    have : w * q + w - 1 = w - 1 + q * w := by
      have := Nat.sub_add_cancel hpos
      rw [Nat.mul_comm w q]
      omega
    rw [this, Nat.add_mul_div_right _ _ hpos, Nat.div_eq_of_lt (Nat.sub_lt hpos one_pos)]
    simp

/-- C4 at a concrete request: two packed `[32,32]` float tensors, 1024 elements. -/
theorem C4_fast_path_geometry_witness :
    (∃ k args,
      (sample_activation.Forward sample_env Handle.empty (.val 1) (sample_2d 32 32) 100
        (.val 0) (sample_2d 32 32) 200 0 0).2.queue = Handle.empty.queue ++ [(k, args)] ∧
      (sample_activation.Forward sample_env Handle.empty (.val 1) (sample_2d 32 32) 100
        (.val 0) (sample_2d 32 32) 200 0 0).2.added =
        Handle.empty.added ++
          [⟨forward_name, sample_env.mloBuildConf_Key (mlo_construct_neuron.new 1), 0, k⟩] ∧
      k.vld = [256, 1, 1] ∧
      k.vgd = [((sample_2d 32 32).GetElementSize + read_unit (sample_2d 32 32).GetElementSize
        - 1) / read_unit (sample_2d 32 32).GetElementSize, 1, 1]) ∧
    (read_unit 1024 = 4 ∧ (1024 + read_unit 1024 - 1) / read_unit 1024 = 256 ∧
      lite_vgd (sample_2d 32 32) = [256, 1, 1]) ∧
    (read_unit 17 = 1 ∧ (17 + read_unit 17 - 1) / read_unit 17 = 17 ∧
      lite_vgd (sample_1d 17) = [17, 1, 1]) :=
  C4_fast_path_geometry sample_env sample_activation Handle.empty (.val 1) (.val 0)
    (sample_2d 32 32) (sample_2d 32 32) 100 200 0 0 (by decide) (by decide) (by decide)

/-! ## Claims about the MIOpenGEMM wrapper -/

theorem Handle.store_two (v : List Kernel) (k0 k1 : Kernel) (hv : v.length ≤ 2) :
    Handle.store (Handle.store v 0 k0) 1 k1 = [k0, k1] := by
  match v, hv with
  | [], _ => rfl
  | [_], _ => rfl
  | [_, _], _ => rfl

theorem RunMiopengemmSolution_two (handle : Handle)
    (algorithm_name network_config : String) (alpha beta : FloatExpr) (A B C : Nat)
    (a_offset b_offset c_offset : Int) (k0 k1 : Kernel)
    (hplan : handle.GetKernels algorithm_name network_config = [k0, k1]) :
    RunMiopengemmSolution handle algorithm_name network_config alpha A a_offset B b_offset
        beta C c_offset =
      (.ok (),
       { handle with
         queue := handle.queue ++
           [(k1, [.data C, .int c_offset, .float beta]),
            (k0, [.data A, .int a_offset, .data B, .int b_offset, .data C, .int c_offset,
              .float alpha])] }) := by
  simp [RunMiopengemmSolution, hplan, Handle.invoke]

/-- C5 (the claim fails as stated): on a handle whose plan is
`[sample_main, sample_beta]`, the first kernel enqueued is `kernel[1]`
(`sample_beta`), not `kernel[0]`. -/
theorem C5_kernel0_first_counterexample :
    (RunMiopengemmSolution (sample_handle [sample_main, sample_beta]) "gemm" "cfg"
        (.val 1) 10 0 20 0 (.val 0) 30 0).2.queue ≠
      [(sample_main, [.data 30, .int 0, .float (.val 0)]),
       (sample_beta, [.data 10, .int 0, .data 20, .int 0, .data 30, .int 0, .float (.val 1)])] ∧
    (RunMiopengemmSolution (sample_handle [sample_main, sample_beta]) "gemm" "cfg"
        (.val 1) 10 0 20 0 (.val 0) 30 0).2.queue =
      [(sample_beta, [.data 30, .int 0, .float (.val 0)]),
       (sample_main, [.data 10, .int 0, .data 20, .int 0, .data 30, .int 0, .float (.val 1)])] := by
  decide

/-- C5 (amended): for every registered plan of exactly two kernels,
`RunMiopengemmSolution` succeeds and enqueues exactly two invocations: first
`kernel[1]` of the plan with `(C, c_offset, beta)`, then `kernel[0]` of the plan
with `(A, a_offset, B, b_offset, C, c_offset, alpha)`; the registry is left as
it was. -/
theorem C5_two_kernel_plan_runs_kernel1_then_kernel0 (handle : Handle)
    (algorithm_name network_config : String) (alpha beta : FloatExpr) (A B C : Nat)
    (a_offset b_offset c_offset : Int) (k0 k1 : Kernel)
    (hplan : handle.GetKernels algorithm_name network_config = [k0, k1]) :
    RunMiopengemmSolution handle algorithm_name network_config alpha A a_offset B b_offset
        beta C c_offset =
      (.ok (),
       { handle with
         queue := handle.queue ++
           [(k1, [.data C, .int c_offset, .float beta]),
            (k0, [.data A, .int a_offset, .data B, .int b_offset, .data C, .int c_offset,
              .float alpha])] }) :=
  RunMiopengemmSolution_two handle algorithm_name network_config alpha beta A B C
    a_offset b_offset c_offset k0 k1 hplan

/-- C5 (amended) at a concrete plan. -/
theorem C5_two_kernel_plan_runs_kernel1_then_kernel0_witness :
    RunMiopengemmSolution (sample_handle [sample_main, sample_beta]) "gemm" "cfg" (.val 1)
        10 0 20 0 (.val 0) 30 0 =
      (.ok (),
       { sample_handle [sample_main, sample_beta] with
         queue := (sample_handle [sample_main, sample_beta]).queue ++
           [(sample_beta, [.data 30, .int 0, .float (.val 0)]),
            (sample_main, [.data 10, .int 0, .data 20, .int 0, .data 30, .int 0,
              .float (.val 1)])] }) :=
  C5_two_kernel_plan_runs_kernel1_then_kernel0 (sample_handle [sample_main, sample_beta])
    "gemm" "cfg" (.val 1) (.val 0) 10 20 30 0 0 0 sample_main sample_beta (by decide)

/-- C6: for a planner solution of exactly two kernels `[s0, s1]` (scale kernel
first, main kernel last), registered by `AddMiopengemmSolution` under a key that
holds at most two kernels, `RunMiopengemmSolution` under the same key succeeds
and enqueues first the kernel built from `s0` with `(C, c_offset, beta)` and
then the kernel built from `s1` with `(A, a_offset, B, b_offset, C, c_offset,
alpha)`. -/
theorem C6_add_then_run_scale_before_main (handle : Handle)
    (algorithm_name network_config : String) (s0 s1 : KernelString) (alpha beta : FloatExpr)
    (A B C : Nat) (a_offset b_offset c_offset : Int)
    (hfresh : (handle.GetKernels algorithm_name network_config).length ≤ 2) :
    (AddMiopengemmSolution handle algorithm_name network_config ⟨[s0, s1]⟩).1 = .ok () ∧
    (RunMiopengemmSolution
        (AddMiopengemmSolution handle algorithm_name network_config ⟨[s0, s1]⟩).2
        algorithm_name network_config alpha A a_offset B b_offset beta C c_offset).1 = .ok () ∧
    (RunMiopengemmSolution
        (AddMiopengemmSolution handle algorithm_name network_config ⟨[s0, s1]⟩).2
        algorithm_name network_config alpha A a_offset B b_offset beta C c_offset).2.queue =
      handle.queue ++
        [(solution_kernel s0, [.data C, .int c_offset, .float beta]),
         (solution_kernel s1,
          [.data A, .int a_offset, .data B, .int b_offset, .data C, .int c_offset,
           .float alpha])] := by
  have hplan : (AddMiopengemmSolution handle algorithm_name network_config ⟨[s0, s1]⟩).2.GetKernels
      algorithm_name network_config = [solution_kernel s1, solution_kernel s0] := by
    simp only [AddMiopengemmSolution, Handle.AddKernel, Handle.GetKernels, List.getLast?,
      List.getLast, List.length_cons, List.length_nil, List.getElem?_cons_zero, and_self,
      if_true, List.set_cons_zero]
    exact Handle.store_two _ _ _ hfresh
  have hq : (AddMiopengemmSolution handle algorithm_name network_config ⟨[s0, s1]⟩).2.queue =
      handle.queue := by
    simp [AddMiopengemmSolution, Handle.AddKernel]
  refine ⟨by simp [AddMiopengemmSolution], ?_, ?_⟩
  · rw [RunMiopengemmSolution_two _ _ _ _ _ _ _ _ _ _ _ _ _ hplan]
  · rw [RunMiopengemmSolution_two _ _ _ _ _ _ _ _ _ _ _ _ _ hplan]
    simp [hq]

/-- C6 at a concrete solution, registered on the empty handle. -/
theorem C6_add_then_run_scale_before_main_witness :
    (AddMiopengemmSolution Handle.empty "gemm" "cfg" ⟨[sample_soln_beta, sample_soln_main]⟩).1 =
      .ok () ∧
    (RunMiopengemmSolution
        (AddMiopengemmSolution Handle.empty "gemm" "cfg"
          ⟨[sample_soln_beta, sample_soln_main]⟩).2
        "gemm" "cfg" (.val 1) 10 0 20 0 (.val 0) 30 0).1 = .ok () ∧
    (RunMiopengemmSolution
        (AddMiopengemmSolution Handle.empty "gemm" "cfg"
          ⟨[sample_soln_beta, sample_soln_main]⟩).2
        "gemm" "cfg" (.val 1) 10 0 20 0 (.val 0) 30 0).2.queue =
      Handle.empty.queue ++
        [(solution_kernel sample_soln_beta, [.data 30, .int 0, .float (.val 0)]),
         (solution_kernel sample_soln_main,
          [.data 10, .int 0, .data 20, .int 0, .data 30, .int 0, .float (.val 1)])] :=
  C6_add_then_run_scale_before_main Handle.empty "gemm" "cfg" sample_soln_beta
    sample_soln_main (.val 1) (.val 0) 10 20 30 0 0 0 (by decide)

/-- C7: for every registered plan of exactly one kernel, `RunMiopengemmSolution`
succeeds and enqueues exactly one invocation, of that kernel, with the
arguments `(A, a_offset, B, b_offset, C, c_offset, alpha, beta)` in this order;
the registry is left as it was. -/
theorem C7_one_kernel_plan_single_invocation (handle : Handle)
    (algorithm_name network_config : String) (alpha beta : FloatExpr) (A B C : Nat)
    (a_offset b_offset c_offset : Int) (k0 : Kernel)
    (hplan : handle.GetKernels algorithm_name network_config = [k0]) :
    RunMiopengemmSolution handle algorithm_name network_config alpha A a_offset B b_offset
        beta C c_offset =
      (.ok (),
       { handle with
         queue := handle.queue ++
           [(k0, [.data A, .int a_offset, .data B, .int b_offset, .data C, .int c_offset,
              .float alpha, .float beta])] }) := by
  simp [RunMiopengemmSolution, hplan, Handle.invoke]

/-- C7 at a concrete plan. -/
theorem C7_one_kernel_plan_single_invocation_witness :
    RunMiopengemmSolution (sample_handle [sample_main]) "gemm" "cfg" (.val 1)
        10 0 20 0 (.val 0) 30 0 =
      (.ok (),
       { sample_handle [sample_main] with
         queue := (sample_handle [sample_main]).queue ++
           [(sample_main, [.data 10, .int 0, .data 20, .int 0, .data 30, .int 0,
              .float (.val 1), .float (.val 0)])] }) :=
  C7_one_kernel_plan_single_invocation (sample_handle [sample_main])
    "gemm" "cfg" (.val 1) (.val 0) 10 20 30 0 0 0 sample_main (by decide)

/-- C8: `RunMiopengemmSolution` fails exactly when the plan bound to
(algorithm name, config key) has a number of kernels other than 1 and 2; the
failure is the thrown error, it succeeds exactly when the number is 1 or 2, and
whenever it does not succeed the handle (registry and queue) is unchanged, so
no kernel is invoked. -/
theorem C8_run_fails_iff_plan_size_not_1_or_2 (handle : Handle)
    (algorithm_name network_config : String) (alpha beta : FloatExpr) (A B C : Nat)
    (a_offset b_offset c_offset : Int) :
    ((∃ e, (RunMiopengemmSolution handle algorithm_name network_config alpha A a_offset
          B b_offset beta C c_offset).1 = .error e) ↔
      ((handle.GetKernels algorithm_name network_config).length ≠ 1 ∧
        (handle.GetKernels algorithm_name network_config).length ≠ 2)) ∧
    ((RunMiopengemmSolution handle algorithm_name network_config alpha A a_offset
          B b_offset beta C c_offset).1 = .ok () ↔
      ((handle.GetKernels algorithm_name network_config).length = 1 ∨
        (handle.GetKernels algorithm_name network_config).length = 2)) ∧
    ((RunMiopengemmSolution handle algorithm_name network_config alpha A a_offset
          B b_offset beta C c_offset).1 ≠ .ok () →
      RunMiopengemmSolution handle algorithm_name network_config alpha A a_offset
          B b_offset beta C c_offset =
        (.error (.thrown "unable to get correct MIOpenGEMM kenerls"), handle)) := by
  match hk : handle.GetKernels algorithm_name network_config with
  | [] => simp [RunMiopengemmSolution, hk]
  | [k0] => simp [RunMiopengemmSolution, hk]
  | [k0, k1] => simp [RunMiopengemmSolution, hk]
  | k0 :: k1 :: k2 :: ks => simp [RunMiopengemmSolution, hk]

/-! ## Claims about the config key and the registry on the activation path -/

/-- The effect of `Forward` on the handle: either it fails and leaves the handle
as it was, or it registers one kernel under the key built from the fresh
construction parameters and invokes it; which of the two, and the kernel and
the arguments, do not depend on the handle. -/
theorem Forward_cases (env : Collaborators) (self : ActivationDescriptor)
    (alpha beta : FloatExpr) (xDesc yDesc : TensorDescriptor) (x y xOffset yOffset : Nat) :
    (∃ e, ∀ handle, self.Forward env handle alpha xDesc x beta yDesc y xOffset yOffset =
      (.error e, handle)) ∨
    (∃ k args, ∀ handle, self.Forward env handle alpha xDesc x beta yDesc y xOffset yOffset =
      (.ok (), handle.launch forward_name (env.mloBuildConf_Key (mlo_construct_neuron.new 1))
        k args)) := by
  unfold ActivationDescriptor.Forward
  split_ifs with hcheck
  · exact Or.inl ⟨_, fun _ => rfl⟩
  · cases hf : fast_path_decision xDesc yDesc with
    | error e => exact Or.inl ⟨e, fun _ => rfl⟩
    | ok b =>
      cases b with
      | true => exact Or.inr ⟨⟨_, _, _, _, _⟩, _, fun _ => rfl⟩
      | false =>
        cases hy : normalize4 yDesc
            "activation does not support tensor size larger than 4 or smaller than 1" with
        | error e => exact Or.inl ⟨e, fun _ => rfl⟩
        | ok vOut =>
          cases hx : normalize4 xDesc
              "Activation does not support tensor dimension larger than 4 or smaller than 1" with
          | error e => exact Or.inl ⟨e, fun _ => rfl⟩
          | ok vIn => exact Or.inr ⟨⟨_, _, _, _, _⟩, _, fun _ => rfl⟩

theorem Handle.store_zero_idem (v : List Kernel) (k : Kernel) :
    Handle.store (Handle.store v 0 k) 0 k = Handle.store v 0 k := by
  cases v <;> simp [Handle.store]

theorem Handle.launch_GetKernels (h : Handle) (name key : String) (k : Kernel)
    (args : List Arg) :
    (h.launch name key k args).GetKernels name key = Handle.store (h.GetKernels name key) 0 k := by
  simp [Handle.launch, Handle.invoke, Handle.AddKernel, Handle.GetKernels]

theorem Forward_repeat_launch (env : Collaborators) (self : ActivationDescriptor)
    (alpha beta : FloatExpr) (xDesc yDesc : TensorDescriptor) (x y xOffset yOffset : Nat)
    (k : Kernel) (args : List Arg)
    (hk : ∀ handle, self.Forward env handle alpha xDesc x beta yDesc y xOffset yOffset =
      (.ok (), handle.launch forward_name (env.mloBuildConf_Key (mlo_construct_neuron.new 1))
        k args)) (n : Nat) (handle : Handle) :
    (Forward_repeat env self alpha xDesc x beta yDesc y xOffset yOffset n handle).added =
        handle.added ++ List.replicate n
          ⟨forward_name, env.mloBuildConf_Key (mlo_construct_neuron.new 1), 0, k⟩ ∧
      (Forward_repeat env self alpha xDesc x beta yDesc y xOffset yOffset n handle).queue =
        handle.queue ++ List.replicate n (k, args) ∧
      (1 ≤ n →
        (Forward_repeat env self alpha xDesc x beta yDesc y xOffset yOffset n handle).GetKernels
            forward_name (env.mloBuildConf_Key (mlo_construct_neuron.new 1)) =
          Handle.store (handle.GetKernels forward_name
            (env.mloBuildConf_Key (mlo_construct_neuron.new 1))) 0 k) := by
  induction n generalizing handle with
  | zero => simp [Forward_repeat]
  | succ n ih =>
    obtain ⟨ha, hq, hg⟩ := ih (handle.launch forward_name
      (env.mloBuildConf_Key (mlo_construct_neuron.new 1)) k args)
    simp only [Forward_repeat, hk]
    refine ⟨?_, ?_, fun _ => ?_⟩
    · rw [ha, Handle.launch_added, List.append_assoc]
      rfl
    · rw [hq, Handle.launch_queue, List.append_assoc]
      rfl
    · rcases Nat.eq_zero_or_pos n with rfl | hn
      · simp only [Forward_repeat]
        exact Handle.launch_GetKernels _ _ _ _ _
      · rw [hg hn, Handle.launch_GetKernels, Handle.store_zero_idem]

/-- C9 (evaluation of the code where it departs from the claim): whatever the
key function of the collaborator is, a `Forward` request on a packed tensor of
4 elements and one on a packed tensor of 3 elements register their kernels
under the same operation name and the same config key, yet with different
compile options (read width 4 against 1) and different global sizes. -/
theorem C9_equal_keys_different_specialization (env : Collaborators)
    (self : ActivationDescriptor) (handle : Handle) (alpha beta : FloatExpr)
    (ha : env.float_equal alpha 1 = true) (hb : env.float_equal beta 0 = true) :
    ∃ key k4 k3,
      (self.Forward env handle alpha (sample_1d 4) 100 beta (sample_1d 4) 200 0 0).2.added =
        handle.added ++ [⟨forward_name, key, 0, k4⟩] ∧
      (self.Forward env handle alpha (sample_1d 3) 100 beta (sample_1d 3) 200 0 0).2.added =
        handle.added ++ [⟨forward_name, key, 0, k3⟩] ∧
      k4.params ≠ k3.params ∧ k4.vgd = [1, 1, 1] ∧ k3.vgd = [3, 1, 1] := by
  refine ⟨env.mloBuildConf_Key (mlo_construct_neuron.new 1),
    fwd_lite_kernel self (sample_1d 4), fwd_lite_kernel self (sample_1d 3), ?_, ?_, ?_,
    rfl, rfl⟩
  · rw [Forward_fast env self handle alpha beta _ _ _ _ _ _ ha hb (by decide)]
    exact Handle.launch_added _ _ _ _ _
  · rw [Forward_fast env self handle alpha beta _ _ _ _ _ _ ha hb (by decide)]
    exact Handle.launch_added _ _ _ _ _
  · intro h
    have h2 := congrArg String.data h
    have e4 : read_unit (sample_1d 4).GetElementSize = 4 := by decide
    have e3 : read_unit (sample_1d 3).GetElementSize = 1 := by decide
    have d4 : (toString (4 : Nat)).data = ['4'] := by decide
    have d1 : (toString (1 : Nat)).data = ['1'] := by decide
    simp [fwd_lite_kernel, lite_compiler_options, e4, e3, String.data_append, d4, d1] at h2

/-- C9 at a concrete collaborator, descriptor and handle. -/
theorem C9_equal_keys_different_specialization_witness :
    ∃ key k4 k3,
      (sample_activation.Forward sample_env Handle.empty (.val 1) (sample_1d 4) 100 (.val 0)
        (sample_1d 4) 200 0 0).2.added = Handle.empty.added ++ [⟨forward_name, key, 0, k4⟩] ∧
      (sample_activation.Forward sample_env Handle.empty (.val 1) (sample_1d 3) 100 (.val 0)
        (sample_1d 3) 200 0 0).2.added = Handle.empty.added ++ [⟨forward_name, key, 0, k3⟩] ∧
      k4.params ≠ k3.params ∧ k4.vgd = [1, 1, 1] ∧ k3.vgd = [3, 1, 1] :=
  C9_equal_keys_different_specialization sample_env sample_activation Handle.empty
    (.val 1) (.val 0) (by decide) (by decide)

/-- C10 (the claim fails as stated): two `Forward` calls with the same
arguments on the empty handle make two registrations, not one. -/
theorem C10_second_call_registers_again_counterexample :
    (Forward_repeat sample_env sample_activation (.val 1) (sample_2d 8 8) 100 (.val 0)
        (sample_2d 8 8) 200 0 0 1 Handle.empty).added.length = 1 ∧
    (Forward_repeat sample_env sample_activation (.val 1) (sample_2d 8 8) 100 (.val 0)
        (sample_2d 8 8) 200 0 0 2 Handle.empty).added.length ≠ 1 ∧
    (Forward_repeat sample_env sample_activation (.val 1) (sample_2d 8 8) 100 (.val 0)
        (sample_2d 8 8) 200 0 0 2 Handle.empty).added.length = 2 := by
  decide

/-- C10 (amended): when a `Forward` call succeeds, `n` successive calls with
the same arguments make `n` registrations of one and the same kernel under
(operation name, config key) at ordinal 0 and `n` invocations of it with the
same arguments, one per call; and for `n ≥ 1` the plan bound to the key after
the `n` calls is the plan after the first call (the kernel at ordinal 0 of what
was bound before). -/
theorem C10_every_call_registers_and_invokes (env : Collaborators)
    (self : ActivationDescriptor) (alpha beta : FloatExpr) (xDesc yDesc : TensorDescriptor)
    (x y xOffset yOffset : Nat) (handle : Handle) (n : Nat)
    (hok : (self.Forward env handle alpha xDesc x beta yDesc y xOffset yOffset).1 = .ok ()) :
    ∃ k args,
      (Forward_repeat env self alpha xDesc x beta yDesc y xOffset yOffset n handle).added =
        handle.added ++ List.replicate n
          ⟨forward_name, env.mloBuildConf_Key (mlo_construct_neuron.new 1), 0, k⟩ ∧
      (Forward_repeat env self alpha xDesc x beta yDesc y xOffset yOffset n handle).queue =
        handle.queue ++ List.replicate n (k, args) ∧
      (1 ≤ n →
        (Forward_repeat env self alpha xDesc x beta yDesc y xOffset yOffset n handle).GetKernels
            forward_name (env.mloBuildConf_Key (mlo_construct_neuron.new 1)) =
          Handle.store (handle.GetKernels forward_name
            (env.mloBuildConf_Key (mlo_construct_neuron.new 1))) 0 k) := by
  rcases Forward_cases env self alpha beta xDesc yDesc x y xOffset yOffset with
    ⟨e, he⟩ | ⟨k, args, hk⟩
  · rw [he handle] at hok
    cases hok
  · exact ⟨k, args, Forward_repeat_launch env self alpha beta xDesc yDesc x y xOffset yOffset
      k args hk n handle⟩

/-- C10 (amended) at a concrete request, repeated three times. -/
theorem C10_every_call_registers_and_invokes_witness :
    ∃ k args,
      (Forward_repeat sample_env sample_activation (.val 1) (sample_2d 8 8) 100 (.val 0)
        (sample_2d 8 8) 200 0 0 3 Handle.empty).added =
        Handle.empty.added ++ List.replicate 3
          ⟨forward_name, sample_env.mloBuildConf_Key (mlo_construct_neuron.new 1), 0, k⟩ ∧
      (Forward_repeat sample_env sample_activation (.val 1) (sample_2d 8 8) 100 (.val 0)
        (sample_2d 8 8) 200 0 0 3 Handle.empty).queue =
        Handle.empty.queue ++ List.replicate 3 (k, args) ∧
      (1 ≤ 3 →
        (Forward_repeat sample_env sample_activation (.val 1) (sample_2d 8 8) 100 (.val 0)
          (sample_2d 8 8) 200 0 0 3 Handle.empty).GetKernels
            forward_name (sample_env.mloBuildConf_Key (mlo_construct_neuron.new 1)) =
          Handle.store (Handle.empty.GetKernels forward_name
            (sample_env.mloBuildConf_Key (mlo_construct_neuron.new 1))) 0 k) :=
  C10_every_call_registers_and_invokes sample_env sample_activation (.val 1) (.val 0)
    (sample_2d 8 8) (sample_2d 8 8) 100 200 0 0 Handle.empty 3 (by decide)

/-! ## The source normalizer -/

namespace tempfix_v2

theorem replace_from_skip (p r : List Char) (k : Nat) (s : List Char) :
    replace_from p r k s = replace_from p r 0 (s.drop k) := by
  induction s generalizing k with
  | nil => simp [replace_from]
  | cons c cs ih =>
    cases k with
    | zero => rfl
    | succ k => simpa [replace_from] using ih k

theorem regex_replace_nil (p r : List Char) : regex_replace [] p r = [] := rfl

theorem regex_replace_cons_of_no_match (p r : List Char) (c : Char) (cs : List Char)
    (h : ¬ p <+: c :: cs) : regex_replace (c :: cs) p r = c :: regex_replace cs p r := by
  simp [regex_replace, replace_from, h]

theorem regex_replace_append_of_match (p r t : List Char) (hp : p ≠ []) :
    regex_replace (p ++ t) p r = r ++ regex_replace t p r := by
  cases p with
  | nil => exact absurd rfl hp
  | cons a p =>
    have h : (a :: p) <+: a :: (p ++ t) := List.prefix_append (a :: p) t
    simp only [regex_replace, List.cons_append, replace_from,
      List.isPrefixOf_iff_prefix.mpr h, if_true]
    rw [replace_from_skip]
    simp

theorem clash_symm (u v : List Char) : clash u v = clash v u := by
  simp [clash, Bool.and_comm]

theorem not_prefix_append_of_clash (u v t : List Char) (h : clash u v = true) :
    ¬ u <+: v ++ t := by
  intro hu
  simp only [clash, Bool.and_eq_true, Bool.not_eq_true', ← Bool.not_eq_true,
    List.isPrefixOf_iff_prefix] at h
  rcases List.prefix_or_prefix_of_prefix hu (List.prefix_append v t) with h1 | h1
  · exact h.1 h1
  · exact h.2 h1

theorem free_cons (p : List Char) (c : Char) (w : List Char) :
    free p (c :: w) = (clash p (c :: w) && free p w) := by
  simp [free, List.tails]

theorem free_of_free_cons (p : List Char) (c : Char) (w : List Char)
    (h : free p (c :: w) = true) : free p w = true := by
  rw [free_cons] at h
  simp only [Bool.and_eq_true] at h
  exact h.2

theorem clash_of_free_cons (p : List Char) (c : Char) (w : List Char)
    (h : free p (c :: w) = true) : clash p (c :: w) = true := by
  rw [free_cons] at h
  simp only [Bool.and_eq_true] at h
  exact h.1

/-- A stretch of text inside which the target cannot begin is copied. -/
theorem regex_replace_free_append (p r w t : List Char) (h : free p w = true) :
    regex_replace (w ++ t) p r = w ++ regex_replace t p r := by
  induction w with
  | nil => rfl
  | cons c w ih =>
    rw [List.cons_append, regex_replace_cons_of_no_match, ih (free_of_free_cons p c w h)]
    · rfl
    · exact not_prefix_append_of_clash _ _ _ (clash_of_free_cons p c w h)

/-- A text that cannot be entered from a replacement is a prefix of the output
only where it is a prefix of the input. -/
theorem prefix_of_prefix_regex_replace (p r : List Char) (hp : p ≠ []) (s q : List Char)
    (hq : free r q = true) (h : q <+: regex_replace s p r) : q <+: s := by
  induction s generalizing q with
  | nil => simpa [regex_replace_nil] using h
  | cons c s ih =>
    cases q with
    | nil => exact List.nil_prefix
    | cons a q =>
      by_cases hm : p <+: c :: s
      · obtain ⟨t, ht⟩ := hm
        rw [← ht, regex_replace_append_of_match p r t hp] at h
        have hc := clash_of_free_cons r a q hq
        rw [clash_symm] at hc
        exact absurd h (not_prefix_append_of_clash _ _ _ hc)
      · rw [regex_replace_cons_of_no_match p r c s hm, List.cons_prefix_cons] at h
        rw [List.cons_prefix_cons]
        exact ⟨h.1, ih q (free_of_free_cons r a q hq) h.2⟩

theorem not_infix_free_append (q w o : List Char) (hw : free q w = true)
    (ho : ¬ q <:+: o) : ¬ q <:+: w ++ o := by
  induction w with
  | nil => simpa using ho
  | cons c w ih =>
    rw [List.cons_append, List.infix_cons_iff]
    rintro (h | h)
    · exact not_prefix_append_of_clash _ _ _ (clash_of_free_cons q c w hw) h
    · exact ih (free_of_free_cons q c w hw) h

/-- One pass leaves no occurrence of `q` when every occurrence of `q` in the
input begins where the target matches, and `q` can neither begin inside the
replacement nor be entered from it. -/
theorem not_infix_replace_from (p r q : List Char) (hp : p ≠ []) (hq : q ≠ [])
    (hrq : free r q = true) (hqr : free q r = true) (s : List Char) (k : Nat)
    (H : ∀ t, t <:+ s.drop k → q <+: t → p <+: t) :
    ¬ q <:+: replace_from p r k s := by
  induction s generalizing k with
  | nil =>
    simp only [replace_from, List.infix_nil]
    exact hq
  | cons c s ih =>
    cases k with
    | succ k =>
      simp only [replace_from]
      exact ih k (by simpa using H)
    | zero =>
      by_cases hm : p <+: c :: s
      · simp only [replace_from, List.isPrefixOf_iff_prefix.mpr hm, if_true]
        refine not_infix_free_append q r _ hqr (ih _ ?_)
        intro t ht
        exact H t (ht.trans ((List.drop_suffix _ _).trans (List.suffix_cons c s)))
      · have e : replace_from p r 0 (c :: s) = c :: replace_from p r 0 s := by
          simp [replace_from, hm]
        rw [e, List.infix_cons_iff]
        rintro (h | h)
        · have h2 : q <+: regex_replace (c :: s) p r := by
            rw [regex_replace_cons_of_no_match p r c s hm]
            exact h
          exact hm (H _ (List.suffix_refl _)
            (prefix_of_prefix_regex_replace p r hp (c :: s) q hrq h2))
        · exact ih 0 (fun t ht => H t (ht.trans (List.suffix_cons c s))) h

theorem not_infix_regex_replace_self (p r : List Char) (hp : p ≠ [])
    (hrp : free r p = true) (hpr : free p r = true) (s : List Char) :
    ¬ p <:+: regex_replace s p r :=
  not_infix_replace_from p r p hp hp hrp hpr s 0 (fun _ _ h => h)

theorem regex_replace_keeps_absent (p r q : List Char) (hp : p ≠ []) (hq : q ≠ [])
    (hrq : free r q = true) (hqr : free q r = true) (s : List Char) (hs : ¬ q <:+: s) :
    ¬ q <:+: regex_replace s p r :=
  not_infix_replace_from p r q hp hq hrq hqr s 0
    (fun t ht h => absurd (List.infix_iff_prefix_suffix.mpr ⟨t, h, ht⟩) hs)

/-- A pass whose target does not occur in the text leaves the text as it is. -/
theorem regex_replace_of_absent (p r s : List Char) (h : ¬ p <:+: s) :
    regex_replace s p r = s := by
  induction s with
  | nil => rfl
  | cons c s ih =>
    rw [List.infix_cons_iff, not_or] at h
    rw [regex_replace_cons_of_no_match p r c s h.1, ih h.2]

end tempfix_v2

namespace tempfix_v2

theorem set_offsets_chars_eq_run_passes (s : List Char) :
    set_offsets_chars s = run_passes passes s := rfl

theorem run_passes_cons (pr : List Char × List Char) (ps : List (List Char × List Char))
    (s : List Char) : run_passes (pr :: ps) s = run_passes ps (regex_replace s pr.1 pr.2) := rfl

theorem run_passes_append (ps qs : List (List Char × List Char)) (s : List Char) :
    run_passes (ps ++ qs) s = run_passes qs (run_passes ps s) := by
  simp [run_passes, List.foldl_append]

theorem Good.tail {pr : List Char × List Char} {ps : List (List Char × List Char)}
    (h : Good (pr :: ps)) : Good ps :=
  ⟨fun qr hq => h.1 qr (List.mem_cons_of_mem _ hq),
   fun qr hq rr hr => h.2.1 qr (List.mem_cons_of_mem _ hq) rr (List.mem_cons_of_mem _ hr),
   (List.pairwise_cons.mp h.2.2).2⟩

/-- Passes that cannot produce `q` leave a text without `q` without `q`. -/
theorem run_passes_keeps_absent (q : List Char) (hq : q ≠ [])
    (ps : List (List Char × List Char))
    (hps : ∀ pr ∈ ps, pr.1 ≠ [] ∧ free pr.2 q = true ∧ free q pr.2 = true)
    (s : List Char) (hs : ¬ q <:+: s) : ¬ q <:+: run_passes ps s := by
  induction ps generalizing s with
  | nil => exact hs
  | cons pr ps ih =>
    rw [run_passes_cons]
    obtain ⟨h1, h2, h3⟩ := hps pr (List.mem_cons_self _ _)
    exact ih (fun qr hqr => hps qr (List.mem_cons_of_mem _ hqr)) _
      (regex_replace_keeps_absent pr.1 pr.2 q h1 hq h2 h3 s hs)

/-- After the passes no target of a pass occurs in the text. -/
theorem not_infix_run_passes (ps : List (List Char × List Char)) (hg : Good ps)
    (pr : List Char × List Char) (hpr : pr ∈ ps) (s : List Char) :
    ¬ pr.1 <:+: run_passes ps s := by
  obtain ⟨pre, post, rfl⟩ := List.append_of_mem hpr
  rw [run_passes_append, run_passes_cons]
  have hmem : ∀ qr ∈ post, qr ∈ pre ++ pr :: post := fun qr hqr =>
    List.mem_append_right _ (List.mem_cons_of_mem _ hqr)
  refine run_passes_keeps_absent pr.1 (hg.1 pr hpr) post ?_ _ ?_
  · intro qr hqr
    exact ⟨hg.1 qr (hmem qr hqr), (hg.2.1 pr hpr qr (hmem qr hqr)).2,
      (hg.2.1 pr hpr qr (hmem qr hqr)).1⟩
  · exact not_infix_regex_replace_self pr.1 pr.2 (hg.1 pr hpr) (hg.2.1 pr hpr pr hpr).2
      (hg.2.1 pr hpr pr hpr).1 _

/-- Passes whose targets do not occur in the text leave it as it is. -/
theorem run_passes_of_absent (ps : List (List Char × List Char)) (s : List Char)
    (h : ∀ pr ∈ ps, ¬ pr.1 <:+: s) : run_passes ps s = s := by
  induction ps with
  | nil => rfl
  | cons pr ps ih =>
    rw [run_passes_cons, regex_replace_of_absent _ _ _ (h pr (List.mem_cons_self _ _))]
    exact ih (fun qr hqr => h qr (List.mem_cons_of_mem _ hqr))

theorem run_passes_idem (ps : List (List Char × List Char)) (hg : Good ps) (s : List Char) :
    run_passes ps (run_passes ps s) = run_passes ps s :=
  run_passes_of_absent ps _ (fun pr hpr => not_infix_run_passes ps hg pr hpr s)

theorem good_passes : Good passes := by decide

theorem passes_eq_spec_targets : passes = spec_targets := by decide

end tempfix_v2

namespace tempfix_v2

theorem replace_every_skip (ps : List (List Char × List Char)) (k : Nat) (s : List Char) :
    replace_every ps k s = replace_every ps 0 (s.drop k) := by
  induction s generalizing k with
  | nil => simp [replace_every]
  | cons c cs ih =>
    cases k with
    | zero => rfl
    | succ k => simpa [replace_every] using ih k

theorem replace_every_cons_of_none (ps : List (List Char × List Char)) (c : Char)
    (s : List Char) (h : ∀ pr ∈ ps, ¬ pr.1 <+: c :: s) :
    replace_every ps 0 (c :: s) = c :: replace_every ps 0 s := by
  have hf : ps.find? (fun pr => pr.1.isPrefixOf (c :: s)) = none := by
    rw [List.find?_eq_none]
    intro pr hpr
    simpa using h pr hpr
  simp [replace_every, hf]

theorem replace_every_append_of_some (ps : List (List Char × List Char))
    (pr : List Char × List Char) (t : List Char) (hne : pr.1 ≠ [])
    (hf : ps.find? (fun qr => qr.1.isPrefixOf (pr.1 ++ t)) = some pr) :
    replace_every ps 0 (pr.1 ++ t) = pr.2 ++ replace_every ps 0 t := by
  obtain ⟨p, r⟩ := pr
  cases p with
  | nil => exact absurd rfl hne
  | cons a p =>
    simp only [List.cons_append] at hf ⊢
    simp only [replace_every, hf]
    rw [replace_every_skip]
    simp

theorem replace_every_free_append (ps : List (List Char × List Char)) (w t : List Char)
    (h : ∀ pr ∈ ps, free pr.1 w = true) :
    replace_every ps 0 (w ++ t) = w ++ replace_every ps 0 t := by
  induction w with
  | nil => rfl
  | cons c w ih =>
    rw [List.cons_append, replace_every_cons_of_none, ih]
    · rfl
    · exact fun pr hpr => free_of_free_cons _ c w (h pr hpr)
    · exact fun pr hpr => not_prefix_append_of_clash _ _ _ (clash_of_free_cons _ c w (h pr hpr))

theorem find?_congr_of_mem {α : Type} (f g : α → Bool) (l : List α)
    (h : ∀ a ∈ l, f a = g a) : l.find? f = l.find? g := by
  induction l with
  | nil => rfl
  | cons a l ih =>
    simp only [List.find?_cons, h a (List.mem_cons_self _ _)]
    rw [ih (fun b hb => h b (List.mem_cons_of_mem _ hb))]

theorem clash_of_free_of_ne_nil (p w : List Char) (hw : w ≠ []) (h : free p w = true) :
    clash p w = true := by
  cases w with
  | nil => exact absurd rfl hw
  | cons c w => exact clash_of_free_cons p c w h

/-- One more pass in front: running the pass and then replacing in one sweep for
the other pairs is replacing in one sweep for all the pairs. -/
theorem replace_every_regex_replace (p r : List Char) (ps : List (List Char × List Char))
    (hg : Good ((p, r) :: ps)) (s : List Char) :
    replace_every ps 0 (regex_replace s p r) = replace_every ((p, r) :: ps) 0 s := by
  have hp : p ≠ [] := hg.1 (p, r) (List.mem_cons_self _ _)
  have hps : ∀ pr ∈ ps, pr.1 ≠ [] := fun pr hpr => hg.1 pr (List.mem_cons_of_mem _ hpr)
  have hr : ∀ pr ∈ ps, free pr.1 r = true ∧ free r pr.1 = true := fun pr hpr =>
    hg.2.1 pr (List.mem_cons_of_mem _ hpr) (p, r) (List.mem_cons_self _ _)
  have hpp : ∀ pr ∈ ps, free p pr.1 = true ∧ free pr.1 p = true :=
    (List.pairwise_cons.mp hg.2.2).1
  have hpw := (List.pairwise_cons.mp hg.2.2).2
  have hsymm : Symmetric (fun pr qr : List Char × List Char =>
      free pr.1 qr.1 = true ∧ free qr.1 pr.1 = true) := fun _ _ h => ⟨h.2, h.1⟩
  generalize hn : s.length = n
  induction n using Nat.strong_induction_on generalizing s with
  | _ n ih =>
    cases s with
    | nil => rfl
    | cons c s =>
      by_cases hm : p <+: c :: s
      · obtain ⟨t, ht⟩ := hm
        have hlen : t.length < n := by
          have := congrArg List.length ht
          have hpl : 0 < p.length := List.length_pos.mpr hp
          simp only [List.length_append, List.length_cons] at this hn
          omega
        rw [← ht, regex_replace_append_of_match p r t hp,
          replace_every_free_append ps r _ (fun pr hpr => (hr pr hpr).1),
          ih _ hlen t rfl]
        have hf : ((p, r) :: ps).find? (fun qr => qr.1.isPrefixOf ((p, r).1 ++ t)) =
            some (p, r) := by
          apply List.find?_cons_of_pos
          simp
        exact (replace_every_append_of_some ((p, r) :: ps) (p, r) t hp hf).symm
      · rw [regex_replace_cons_of_no_match p r c s hm]
        cases hfind : ps.find? (fun pr => pr.1.isPrefixOf (c :: s)) with
        | none =>
          rw [List.find?_eq_none] at hfind
          have hnone : ∀ pr ∈ ps, ¬ pr.1 <+: c :: s := fun pr hpr => by
            simpa using hfind pr hpr
          have hlen : s.length < n := by
            simp only [List.length_cons] at hn
            omega
          rw [replace_every_cons_of_none ps c _, ih _ hlen s rfl,
            replace_every_cons_of_none ((p, r) :: ps) c s]
          · intro pr hpr
            rcases List.mem_cons.mp hpr with rfl | hpr
            · exact hm
            · exact hnone pr hpr
          · intro pr hpr hpre
            rw [← regex_replace_cons_of_no_match p r c s hm] at hpre
            exact hnone pr hpr
              (prefix_of_prefix_regex_replace p r hp (c :: s) pr.1 (hr pr hpr).2 hpre)
        | some qr =>
          have hqr : qr ∈ ps := List.mem_of_find?_eq_some hfind
          have hqpre : qr.1 <+: c :: s := by
            simpa using List.find?_some hfind
          obtain ⟨t, ht⟩ := hqpre
          have hqne := hps qr hqr
          have hlen : t.length < n := by
            have := congrArg List.length ht
            have hpl : 0 < qr.1.length := List.length_pos.mpr hqne
            simp only [List.length_append, List.length_cons] at this hn
            omega
          rw [← regex_replace_cons_of_no_match p r c s hm, ← ht,
            regex_replace_free_append p r qr.1 t (hpp qr hqr).1]
          have hf1 : ps.find? (fun pr => pr.1.isPrefixOf (qr.1 ++ regex_replace t p r)) =
              some qr := by
            rw [← hfind, ← ht]
            apply find?_congr_of_mem
            intro pr hpr
            show pr.1.isPrefixOf (qr.1 ++ regex_replace t p r) = pr.1.isPrefixOf (qr.1 ++ t)
            by_cases he : pr = qr
            · subst he
              rw [ List.isPrefixOf_iff_prefix.mpr (List.prefix_append _ _),
                List.isPrefixOf_iff_prefix.mpr (List.prefix_append _ _)]
            · have hcl := clash_of_free_of_ne_nil pr.1 qr.1 hqne
                (List.Pairwise.forall hsymm hpw hpr hqr he).1
              have h1 := not_prefix_append_of_clash _ _ (regex_replace t p r) hcl
              have h2 := not_prefix_append_of_clash _ _ t hcl
              rw [Bool.eq_false_iff.mpr (mt List.isPrefixOf_iff_prefix.mp h1),
                Bool.eq_false_iff.mpr (mt List.isPrefixOf_iff_prefix.mp h2)]
          have hf2 : ((p, r) :: ps).find? (fun pr => pr.1.isPrefixOf (qr.1 ++ t)) =
              some qr := by
            rw [List.find?_cons_of_neg]
            · rw [ht]
              exact hfind
            · rw [ht]
              simpa using hm
          rw [replace_every_append_of_some ps qr _ hqne hf1, ih _ hlen t rfl,
            replace_every_append_of_some ((p, r) :: ps) qr t hqne hf2]

theorem replace_every_nil (s : List Char) : replace_every [] 0 s = s := by
  induction s with
  | nil => rfl
  | cons c s ih => rw [replace_every_cons_of_none [] c s (by simp), ih]

/-- Under the conditions `Good`, the successive passes are one sweep. -/
theorem run_passes_eq_replace_every (ps : List (List Char × List Char)) (hg : Good ps)
    (s : List Char) : run_passes ps s = replace_every ps 0 s := by
  induction ps generalizing s with
  | nil => exact (replace_every_nil s).symm
  | cons pr ps ih =>
    obtain ⟨p, r⟩ := pr
    rw [run_passes_cons, ih hg.tail, replace_every_regex_replace p r ps hg s]

end tempfix_v2

/-! ## Claims about the source normalizer -/

/-- C11: for every kernel-source text `s`, applying `set_offsets_to_uint` twice
gives the same text as applying it once. -/
theorem C11_set_offsets_to_uint_idempotent (s : String) :
    tempfix_v2.set_offsets_to_uint (tempfix_v2.set_offsets_to_uint s) =
      tempfix_v2.set_offsets_to_uint s := by
  show String.mk (tempfix_v2.set_offsets_chars (tempfix_v2.set_offsets_chars s.toList)) =
    String.mk (tempfix_v2.set_offsets_chars s.toList)
  rw [tempfix_v2.set_offsets_chars_eq_run_passes, tempfix_v2.set_offsets_chars_eq_run_passes,
    tempfix_v2.run_passes_idem _ tempfix_v2.good_passes]

/-- C12: for every kernel-source text `s`, the output of `set_offsets_to_uint`
contains no occurrence of `const size_t x_offset` and none of
`const ulong x_offset` for `x` in `a`, `b`, `c`; it is the text obtained from
`s` by replacing, in one sweep from left to right, every such occurrence by
`const unsigned x_offset`; and two occurrences of these targets never overlap
(no target can begin inside another target or at a later position of itself),
so that the sweep meets every occurrence. -/
theorem C12_set_offsets_to_uint_replaces_every_target (s : String) :
    (∀ pr ∈ tempfix_v2.spec_targets, ¬ pr.1 <:+: (tempfix_v2.set_offsets_to_uint s).toList) ∧
    (tempfix_v2.set_offsets_to_uint s).toList =
      tempfix_v2.replace_every tempfix_v2.spec_targets 0 s.toList ∧
    (∀ pr ∈ tempfix_v2.spec_targets, ∀ qr ∈ tempfix_v2.spec_targets,
      tempfix_v2.free pr.1 qr.1.tail = true ∧ (pr = qr ∨ tempfix_v2.free pr.1 qr.1 = true)) := by
  have hout : (tempfix_v2.set_offsets_to_uint s).toList =
      tempfix_v2.run_passes tempfix_v2.spec_targets s.toList := by
    rw [← tempfix_v2.passes_eq_spec_targets]
    rfl
  refine ⟨?_, ?_, by decide⟩
  · intro pr hpr
    rw [hout]
    exact tempfix_v2.not_infix_run_passes _
      (tempfix_v2.passes_eq_spec_targets ▸ tempfix_v2.good_passes) pr hpr _
  · rw [hout]
    exact tempfix_v2.run_passes_eq_replace_every _
      (tempfix_v2.passes_eq_spec_targets ▸ tempfix_v2.good_passes) _

/-! ## General facts about the checks and the general path -/

theorem Forward_check_fails (env : Collaborators) (self : ActivationDescriptor)
    (handle : Handle) (alpha beta : FloatExpr) (xDesc yDesc : TensorDescriptor)
    (x y xOffset yOffset : Nat)
    (h : env.float_equal alpha 1 = false ∨ env.float_equal beta 0 = false) :
    self.Forward env handle alpha xDesc x beta yDesc y xOffset yOffset =
      (.error (.thrown msg_alpha_beta), handle) := by
  rcases h with h | h <;> simp [ActivationDescriptor.Forward, h, msg_alpha_beta]

theorem Backward_check_fails (env : Collaborators) (self : ActivationDescriptor)
    (handle : Handle) (alpha beta : FloatExpr) (yDesc dyDesc xDesc dxDesc : TensorDescriptor)
    (y dy x dx yOffset dyOffset xOffset dxOffset : Nat)
    (h : env.float_equal alpha 1 = false ∨ env.float_equal beta 0 = false) :
    self.Backward env handle alpha yDesc y dyDesc dy xDesc x beta dxDesc dx
        yOffset dyOffset xOffset dxOffset =
      (.error (.thrown msg_alpha_beta), handle) := by
  rcases h with h | h <;> simp [ActivationDescriptor.Backward, h, msg_alpha_beta]

theorem Forward_decision_fails (env : Collaborators) (self : ActivationDescriptor)
    (handle : Handle) (alpha beta : FloatExpr) (xDesc yDesc : TensorDescriptor)
    (x y xOffset yOffset : Nat)
    (ha : env.float_equal alpha 1 = true) (hb : env.float_equal beta 0 = true)
    (e : Failure) (hf : fast_path_decision xDesc yDesc = .error e) :
    self.Forward env handle alpha xDesc x beta yDesc y xOffset yOffset = (.error e, handle) := by
  simp [ActivationDescriptor.Forward, ha, hb, hf]

theorem Backward_decision_fails (env : Collaborators) (self : ActivationDescriptor)
    (handle : Handle) (alpha beta : FloatExpr) (yDesc dyDesc xDesc dxDesc : TensorDescriptor)
    (y dy x dx yOffset dyOffset xOffset dxOffset : Nat)
    (ha : env.float_equal alpha 1 = true) (hb : env.float_equal beta 0 = true)
    (e : Failure) (hf : fast_path_decision xDesc yDesc = .error e) :
    self.Backward env handle alpha yDesc y dyDesc dy xDesc x beta dxDesc dx
        yOffset dyOffset xOffset dxOffset = (.error e, handle) := by
  simp [ActivationDescriptor.Backward, ha, hb, hf]

/-- On the general path `Forward` registers the kernel of the general
construction and invokes it, when both normalizations succeed. -/
theorem Forward_general (env : Collaborators) (self : ActivationDescriptor) (handle : Handle)
    (alpha beta : FloatExpr) (xDesc yDesc : TensorDescriptor) (x y xOffset yOffset : Nat)
    (ha : env.float_equal alpha 1 = true) (hb : env.float_equal beta 0 = true)
    (hf : fast_path_decision xDesc yDesc = .ok false) (vIn vOut : NCHW)
    (hy : normalize4 yDesc msg_size = .ok vOut) (hx : normalize4 xDesc msg_dimension = .ok vIn) :
    self.Forward env handle alpha xDesc x beta yDesc y xOffset yOffset =
      (.ok (), handle.launch forward_name (env.mloBuildConf_Key (mlo_construct_neuron.new 1))
        (fwd_general_kernel env self xDesc vIn vOut)
        (fwd_general_args env self xDesc vOut x y xOffset yOffset)) := by
  unfold msg_size at hy
  unfold msg_dimension at hx
  simp [ActivationDescriptor.Forward, ha, hb, hf, hy, hx, Handle.launch, fwd_general_kernel,
    fwd_general_args, forward_name, ActivationDescriptor.GetAlpha, ActivationDescriptor.GetBeta,
    ActivationDescriptor.GetPower, Handle.AddKernel, fwd_construct_params,
    mlo_construct_neuron.new, fwd_general_defines]

theorem Forward_general_fails_y (env : Collaborators) (self : ActivationDescriptor)
    (handle : Handle) (alpha beta : FloatExpr) (xDesc yDesc : TensorDescriptor)
    (x y xOffset yOffset : Nat)
    (ha : env.float_equal alpha 1 = true) (hb : env.float_equal beta 0 = true)
    (hf : fast_path_decision xDesc yDesc = .ok false) (e : Failure)
    (hy : normalize4 yDesc msg_size = .error e) :
    self.Forward env handle alpha xDesc x beta yDesc y xOffset yOffset = (.error e, handle) := by
  unfold msg_size at hy
  simp [ActivationDescriptor.Forward, ha, hb, hf, hy]

theorem Forward_general_fails_x (env : Collaborators) (self : ActivationDescriptor)
    (handle : Handle) (alpha beta : FloatExpr) (xDesc yDesc : TensorDescriptor)
    (x y xOffset yOffset : Nat)
    (ha : env.float_equal alpha 1 = true) (hb : env.float_equal beta 0 = true)
    (hf : fast_path_decision xDesc yDesc = .ok false) (vOut : NCHW) (e : Failure)
    (hy : normalize4 yDesc msg_size = .ok vOut)
    (hx : normalize4 xDesc msg_dimension = .error e) :
    self.Forward env handle alpha xDesc x beta yDesc y xOffset yOffset = (.error e, handle) := by
  unfold msg_size at hy
  unfold msg_dimension at hx
  simp [ActivationDescriptor.Forward, ha, hb, hf, hy, hx]

/-- On the general path `Backward` registers the kernel of the general
construction and invokes it, when the four normalizations succeed. -/
theorem Backward_general (env : Collaborators) (self : ActivationDescriptor) (handle : Handle)
    (alpha beta : FloatExpr) (yDesc dyDesc xDesc dxDesc : TensorDescriptor)
    (y dy x dx yOffset dyOffset xOffset dxOffset : Nat)
    (ha : env.float_equal alpha 1 = true) (hb : env.float_equal beta 0 = true)
    (hf : fast_path_decision xDesc yDesc = .ok false) (vIn vOut vDin vDout : NCHW)
    (hdy : normalize4 dyDesc msg_size = .ok vDout)
    (hy : normalize4 yDesc msg_dimensions = .ok vOut)
    (hdx : normalize4 dxDesc msg_dimensions = .ok vDin)
    (hx : normalize4 xDesc msg_dimensions = .ok vIn) :
    self.Backward env handle alpha yDesc y dyDesc dy xDesc x beta dxDesc dx
        yOffset dyOffset xOffset dxOffset =
      (.ok (), handle.launch backward_name (env.mloBuildConf_Key (mlo_construct_neuron.new 0))
        (bwd_general_kernel env self dyDesc yDesc dxDesc xDesc vIn vOut vDin vDout)
        (bwd_general_args self dx dy x y dxOffset dyOffset xOffset yOffset)) := by
  unfold msg_size at hdy
  unfold msg_dimensions at hy hdx hx
  simp [ActivationDescriptor.Backward, ha, hb, hf, hdy, hy, hdx, hx, Handle.launch,
    bwd_general_kernel, bwd_general_args, backward_name, ActivationDescriptor.GetAlpha,
    ActivationDescriptor.GetBeta, ActivationDescriptor.GetPower, ActivationDescriptor.GetMode,
    Handle.AddKernel, bwd_construct_params, mlo_construct_neuron.new, bwd_general_defines]

/-- On the general path `Backward` fails with the failure of the first
normalization that fails, in the order `dyDesc`, `yDesc`, `dxDesc`, `xDesc`, and
leaves the handle as it was. -/
theorem Backward_general_fails (env : Collaborators) (self : ActivationDescriptor)
    (handle : Handle) (alpha beta : FloatExpr) (yDesc dyDesc xDesc dxDesc : TensorDescriptor)
    (y dy x dx yOffset dyOffset xOffset dxOffset : Nat)
    (ha : env.float_equal alpha 1 = true) (hb : env.float_equal beta 0 = true)
    (hf : fast_path_decision xDesc yDesc = .ok false) (e : Failure)
    (h : normalize4 dyDesc msg_size = .error e ∨
      (∃ vDout, normalize4 dyDesc msg_size = .ok vDout) ∧
        (normalize4 yDesc msg_dimensions = .error e ∨
          (∃ vOut, normalize4 yDesc msg_dimensions = .ok vOut) ∧
            (normalize4 dxDesc msg_dimensions = .error e ∨
              (∃ vDin, normalize4 dxDesc msg_dimensions = .ok vDin) ∧
                normalize4 xDesc msg_dimensions = .error e))) :
    self.Backward env handle alpha yDesc y dyDesc dy xDesc x beta dxDesc dx
        yOffset dyOffset xOffset dxOffset = (.error e, handle) := by
  unfold msg_size msg_dimensions at h
  rcases h with h1 | ⟨⟨v1, h1⟩, h2 | ⟨⟨v2, h2⟩, h3 | ⟨⟨v3, h3⟩, h4⟩⟩⟩
  · simp [ActivationDescriptor.Backward, ha, hb, hf, h1]
  · simp [ActivationDescriptor.Backward, ha, hb, hf, h1, h2]
  · simp [ActivationDescriptor.Backward, ha, hb, hf, h1, h2, h3]
  · simp [ActivationDescriptor.Backward, ha, hb, hf, h1, h2, h3, h4]

theorem IsPackedTensor_loop_total (strides lens : List Nat)
    (hs : strides.length = lens.length) (i : Nat) (hi : i < lens.length) (acc : Int) :
    ∃ b, IsPackedTensor_loop strides lens i acc = .ok b := by
  induction i generalizing acc with
  | zero => exact ⟨true, rfl⟩
  | succ i ih =>
    have h1 : strides[i + 1]? = some (strides[i + 1]) := List.getElem?_eq_getElem (hs ▸ hi)
    have h2 : lens[i + 1]? = some (lens[i + 1]) := List.getElem?_eq_getElem hi
    simp only [IsPackedTensor_loop, h1, h2]
    split_ifs
    · exact ⟨false, rfl⟩
    · exact ih (Nat.lt_of_succ_lt hi) _

/-- For a descriptor of rank at least 1 whose strides are as many as its
extents, `IsPackedTensor` returns a value. -/
theorem IsPackedTensor_total (strides lens : List Nat) (hs : strides.length = lens.length)
    (hr : 1 ≤ lens.length) : ∃ b, IsPackedTensor strides lens = .ok b := by
  unfold IsPackedTensor
  rw [if_neg (by omega)]
  exact IsPackedTensor_loop_total strides lens hs _ (by omega) 1

theorem IsPackedTensor_loop_error (strides lens : List Nat) (i : Nat) (acc : Int) (e : Failure)
    (h : IsPackedTensor_loop strides lens i acc = .error e) : e = .undefined := by
  induction i generalizing acc with
  | zero => simp [IsPackedTensor_loop] at h
  | succ i ih =>
    unfold IsPackedTensor_loop at h
    split at h
    · cases h
      rfl
    · split at h
      · cases h
      · split at h
        · cases h
          rfl
        · exact ih _ h

theorem IsPackedTensor_error (strides lens : List Nat) (e : Failure)
    (h : IsPackedTensor strides lens = .error e) : e = .undefined := by
  unfold IsPackedTensor at h
  split at h
  · cases h
    rfl
  · exact IsPackedTensor_loop_error _ _ _ _ _ h

/-- The decision in terms of the two results of `IsPackedTensor`. -/
theorem fast_path_decision_eq (xDesc yDesc : TensorDescriptor) (px py : Bool)
    (hx : IsPackedTensor xDesc.strides xDesc.lens = .ok px)
    (hy : px = true → IsPackedTensor yDesc.strides yDesc.lens = .ok py) :
    fast_path_decision xDesc yDesc =
      .ok (xDesc.GetElementSize == yDesc.GetElementSize &&
        ((px && py) || (xDesc.lens.length == yDesc.lens.length && xDesc.lens.length == 2))) := by
  cases px with
  | false =>
    simp [fast_path_decision, TensorDescriptor.GetStrides, TensorDescriptor.GetLengths, hx,
      bind, Except.bind, pure, Except.pure]
  | true =>
    simp [fast_path_decision, TensorDescriptor.GetStrides, TensorDescriptor.GetLengths, hx,
      hy rfl, bind, Except.bind, pure, Except.pure]

theorem fast_path_decision_error (xDesc yDesc : TensorDescriptor) (e : Failure)
    (h : fast_path_decision xDesc yDesc = .error e) : e = .undefined := by
  cases hx : IsPackedTensor xDesc.strides xDesc.lens with
  | error e1 =>
    have := IsPackedTensor_error _ _ _ hx
    subst this
    simp [fast_path_decision, TensorDescriptor.GetStrides, TensorDescriptor.GetLengths, hx,
      bind, Except.bind] at h
    exact h.symm
  | ok px =>
    cases px with
    | false => rw [fast_path_decision_eq xDesc yDesc false false hx (by simp)] at h; cases h
    | true =>
      cases hy : IsPackedTensor yDesc.strides yDesc.lens with
      | error e1 =>
        have := IsPackedTensor_error _ _ _ hy
        subst this
        simp [fast_path_decision, TensorDescriptor.GetStrides, TensorDescriptor.GetLengths, hx,
          hy, bind, Except.bind] at h
        exact h.symm
      | ok py => rw [fast_path_decision_eq xDesc yDesc true py hx (fun _ => hy)] at h; cases h

/-- Tensors of different element counts, of rank at least 1 and with as many
strides as extents, are sent to the general path. -/
theorem fast_path_decision_of_count_ne (xDesc yDesc : TensorDescriptor)
    (hxs : xDesc.strides.length = xDesc.lens.length) (hxr : 1 ≤ xDesc.lens.length)
    (hys : yDesc.strides.length = yDesc.lens.length) (hyr : 1 ≤ yDesc.lens.length)
    (hne : xDesc.GetElementSize ≠ yDesc.GetElementSize) :
    fast_path_decision xDesc yDesc = .ok false := by
  obtain ⟨px, hx⟩ := IsPackedTensor_total _ _ hxs hxr
  obtain ⟨py, hy⟩ := IsPackedTensor_total _ _ hys hyr
  rw [fast_path_decision_eq xDesc yDesc px py hx (fun _ => hy)]
  simp [hne]

/-- A descriptor of rank 0 or of rank above 4 is rejected with the message. -/
theorem normalize4_bad_rank (desc : TensorDescriptor) (msg : String)
    (h : ¬ (1 ≤ desc.lens.length ∧ desc.lens.length ≤ 4)) :
    normalize4 desc msg = .error (.thrown msg) := by
  obtain ⟨lens, strides, ty⟩ := desc
  rcases lens with _ | ⟨a, _ | ⟨b, _ | ⟨c, _ | ⟨d, _ | ⟨e5, l⟩⟩⟩⟩⟩ <;>
    simp [normalize4, TensorDescriptor.GetSize] at h ⊢

theorem normalize4_error (desc : TensorDescriptor) (msg : String) (e : Failure)
    (h : normalize4 desc msg = .error e) : e = .undefined ∨ e = .thrown msg := by
  by_cases hr : 1 ≤ desc.lens.length ∧ desc.lens.length ≤ 4
  · obtain ⟨lens, strides, ty⟩ := desc
    rcases lens with _ | ⟨a, _ | ⟨b, _ | ⟨c, _ | ⟨d, _ | ⟨e5, l⟩⟩⟩⟩⟩ <;>
      simp at hr <;>
      rcases strides with _ | ⟨s1, _ | ⟨s2, _ | ⟨s3, _ | ⟨s4, st⟩⟩⟩⟩ <;>
      simp [normalize4, TensorDescriptor.GetSize, TensorDescriptor.GetLengths,
        TensorDescriptor.GetStrides, tien1, tien2, tien3, tien4, bind, Except.bind, pure,
        Except.pure] at h <;>
      simp [h]
  · rw [normalize4_bad_rank desc msg hr] at h
    cases h
    exact Or.inr rfl

/-- The normalization of a descriptor of rank 1 to 4 with as many strides as
extents: extents padded on the left with 1, strides padded on the left with
the `int` product of the outermost extent and stride. -/
theorem normalize4_good_rank (desc : TensorDescriptor) (msg : String)
    (hr1 : 1 ≤ desc.lens.length) (hr4 : desc.lens.length ≤ 4)
    (hs : desc.strides.length = desc.lens.length) :
    ∃ v, normalize4 desc msg = .ok v ∧
      [v.n, v.c, v.h, v.w] =
        List.replicate (4 - desc.lens.length) 1 ++ desc.lens.map size_t_to_int ∧
      [v.nStride, v.cStride, v.hStride, v.wStride] =
        List.replicate (4 - desc.lens.length)
          (int_mul (size_t_to_int (desc.lens.headD 0)) (size_t_to_int (desc.strides.headD 0))) ++
          desc.strides.map size_t_to_int := by
  obtain ⟨lens, strides, ty⟩ := desc
  rcases lens with _ | ⟨a, _ | ⟨b, _ | ⟨c, _ | ⟨d, _ | ⟨e5, l⟩⟩⟩⟩⟩ <;>
    rcases strides with _ | ⟨s1, _ | ⟨s2, _ | ⟨s3, _ | ⟨s4, _ | ⟨s5, st⟩⟩⟩⟩⟩ <;>
    simp at hr1 hr4 hs <;>
    exact ⟨_, rfl, rfl, rfl⟩

theorem normalize4_ok_msg (desc : TensorDescriptor) (msg msg2 : String) (v : NCHW)
    (h : normalize4 desc msg = .ok v) : normalize4 desc msg2 = .ok v := by
  by_cases hr : 1 ≤ desc.lens.length ∧ desc.lens.length ≤ 4
  · obtain ⟨lens, strides, ty⟩ := desc
    rcases lens with _ | ⟨a, _ | ⟨b, _ | ⟨c, _ | ⟨d, _ | ⟨e5, l⟩⟩⟩⟩⟩ <;>
      simp at hr <;>
      rcases strides with _ | ⟨s1, _ | ⟨s2, _ | ⟨s3, _ | ⟨s4, st⟩⟩⟩⟩ <;>
      simp [normalize4, TensorDescriptor.GetSize, TensorDescriptor.GetLengths,
        TensorDescriptor.GetStrides, tien1, tien2, tien3, tien4, bind, Except.bind, pure,
        Except.pure] at h ⊢ <;>
      exact h
  · rw [normalize4_bad_rank desc msg hr] at h
    cases h

theorem size_t_to_int_of_lt (n : Nat) (h : n < 2147483648) : size_t_to_int n = (n : Int) := by
  unfold size_t_to_int
  have : n % 4294967296 = n := Nat.mod_eq_of_lt (by omega)
  rw [this, if_pos h]

theorem int_mul_of_range (a b : Int) (h1 : -2147483648 ≤ a * b) (h2 : a * b < 2147483648) :
    int_mul a b = a * b := by
  unfold int_mul size_t_to_int int_to_size_t
  generalize a * b = x at h1 h2
  split_ifs with h <;> omega

/-- The four outcomes of `Forward` once the check on `alpha` and `beta` has
passed: a launch, undefined behaviour, or one of the two rank errors; in the
last three the handle is as it was. -/
theorem Forward_result (env : Collaborators) (self : ActivationDescriptor) (handle : Handle)
    (alpha beta : FloatExpr) (xDesc yDesc : TensorDescriptor) (x y xOffset yOffset : Nat)
    (ha : env.float_equal alpha 1 = true) (hb : env.float_equal beta 0 = true) :
    (∃ k args, self.Forward env handle alpha xDesc x beta yDesc y xOffset yOffset =
      (.ok (), handle.launch forward_name (env.mloBuildConf_Key (mlo_construct_neuron.new 1))
        k args)) ∨
    self.Forward env handle alpha xDesc x beta yDesc y xOffset yOffset =
      (.error .undefined, handle) ∨
    self.Forward env handle alpha xDesc x beta yDesc y xOffset yOffset =
      (.error (.thrown msg_size), handle) ∨
    self.Forward env handle alpha xDesc x beta yDesc y xOffset yOffset =
      (.error (.thrown msg_dimension), handle) := by
  cases hf : fast_path_decision xDesc yDesc with
  | error e =>
    rw [Forward_decision_fails env self handle alpha beta xDesc yDesc x y xOffset yOffset
      ha hb e hf, fast_path_decision_error _ _ _ hf]
    exact Or.inr (Or.inl rfl)
  | ok b =>
    cases b with
    | true =>
      exact Or.inl ⟨_, _, Forward_fast env self handle alpha beta xDesc yDesc x y xOffset
        yOffset ha hb hf⟩
    | false =>
      cases hy : normalize4 yDesc msg_size with
      | error e =>
        rw [Forward_general_fails_y env self handle alpha beta xDesc yDesc x y xOffset yOffset
          ha hb hf e hy]
        rcases normalize4_error _ _ _ hy with rfl | rfl
        · exact Or.inr (Or.inl rfl)
        · exact Or.inr (Or.inr (Or.inl rfl))
      | ok vOut =>
        cases hx : normalize4 xDesc msg_dimension with
        | error e =>
          rw [Forward_general_fails_x env self handle alpha beta xDesc yDesc x y xOffset
            yOffset ha hb hf vOut e hy hx]
          rcases normalize4_error _ _ _ hx with rfl | rfl
          · exact Or.inr (Or.inl rfl)
          · exact Or.inr (Or.inr (Or.inr rfl))
        | ok vIn =>
          exact Or.inl ⟨_, _, Forward_general env self handle alpha beta xDesc yDesc x y
            xOffset yOffset ha hb hf vIn vOut hy hx⟩

/-- The outcomes of `Backward` once the check on `alpha` and `beta` has passed. -/
theorem Backward_result (env : Collaborators) (self : ActivationDescriptor) (handle : Handle)
    (alpha beta : FloatExpr) (yDesc dyDesc xDesc dxDesc : TensorDescriptor)
    (y dy x dx yOffset dyOffset xOffset dxOffset : Nat)
    (ha : env.float_equal alpha 1 = true) (hb : env.float_equal beta 0 = true) :
    (∃ k args, self.Backward env handle alpha yDesc y dyDesc dy xDesc x beta dxDesc dx
        yOffset dyOffset xOffset dxOffset =
      (.ok (), handle.launch backward_name (env.mloBuildConf_Key (mlo_construct_neuron.new 0))
        k args)) ∨
    self.Backward env handle alpha yDesc y dyDesc dy xDesc x beta dxDesc dx
        yOffset dyOffset xOffset dxOffset = (.error .undefined, handle) ∨
    self.Backward env handle alpha yDesc y dyDesc dy xDesc x beta dxDesc dx
        yOffset dyOffset xOffset dxOffset = (.error (.thrown msg_size), handle) ∨
    self.Backward env handle alpha yDesc y dyDesc dy xDesc x beta dxDesc dx
        yOffset dyOffset xOffset dxOffset = (.error (.thrown msg_dimensions), handle) := by
  generalize hR : self.Backward env handle alpha yDesc y dyDesc dy xDesc x beta dxDesc dx
    yOffset dyOffset xOffset dxOffset = R
  have key : ∀ e, (e = Failure.undefined ∨ e = .thrown msg_size ∨ e = .thrown msg_dimensions) →
      R = (.error e, handle) →
      ((∃ k args, R = (.ok (), handle.launch backward_name
        (env.mloBuildConf_Key (mlo_construct_neuron.new 0)) k args)) ∨
      R = (.error .undefined, handle) ∨ R = (.error (.thrown msg_size), handle) ∨
      R = (.error (.thrown msg_dimensions), handle)) := by
    intro e he h
    rcases he with rfl | rfl | rfl
    · exact Or.inr (Or.inl h)
    · exact Or.inr (Or.inr (Or.inl h))
    · exact Or.inr (Or.inr (Or.inr h))
  cases hf : fast_path_decision xDesc yDesc with
  | error e =>
    exact key e (Or.inl (fast_path_decision_error _ _ _ hf))
      (hR ▸ Backward_decision_fails env self handle alpha beta yDesc dyDesc xDesc dxDesc y dy x
        dx yOffset dyOffset xOffset dxOffset ha hb e hf)
  | ok b =>
    cases b with
    | true =>
      exact Or.inl ⟨_, _, hR ▸ Backward_fast env self handle alpha beta yDesc dyDesc xDesc
        dxDesc y dy x dx yOffset dyOffset xOffset dxOffset ha hb hf⟩
    | false =>
      have fails := Backward_general_fails env self handle alpha beta yDesc dyDesc xDesc dxDesc
        y dy x dx yOffset dyOffset xOffset dxOffset ha hb hf
      rw [hR] at fails
      cases hdy : normalize4 dyDesc msg_size with
      | error e =>
        refine key e ?_ (fails e (Or.inl hdy))
        rcases normalize4_error _ _ _ hdy with rfl | rfl
        · exact Or.inl rfl
        · exact Or.inr (Or.inl rfl)
      | ok vDout =>
        cases hy : normalize4 yDesc msg_dimensions with
        | error e =>
          refine key e ?_ (fails e (Or.inr ⟨⟨vDout, hdy⟩, Or.inl hy⟩))
          rcases normalize4_error _ _ _ hy with rfl | rfl
          · exact Or.inl rfl
          · exact Or.inr (Or.inr rfl)
        | ok vOut =>
          cases hdx : normalize4 dxDesc msg_dimensions with
          | error e =>
            refine key e ?_ (fails e (Or.inr ⟨⟨vDout, hdy⟩, Or.inr ⟨⟨vOut, hy⟩, Or.inl hdx⟩⟩))
            rcases normalize4_error _ _ _ hdx with rfl | rfl
            · exact Or.inl rfl
            · exact Or.inr (Or.inr rfl)
          | ok vDin =>
            cases hx : normalize4 xDesc msg_dimensions with
            | error e =>
              refine key e ?_ (fails e (Or.inr ⟨⟨vDout, hdy⟩, Or.inr ⟨⟨vOut, hy⟩,
                Or.inr ⟨⟨vDin, hdx⟩, hx⟩⟩⟩))
              rcases normalize4_error _ _ _ hx with rfl | rfl
              · exact Or.inl rfl
              · exact Or.inr (Or.inr rfl)
            | ok vIn =>
              exact Or.inl ⟨_, _, hR ▸ Backward_general env self handle alpha beta yDesc dyDesc
                xDesc dxDesc y dy x dx yOffset dyOffset xOffset dxOffset ha hb hf vIn vOut vDin
                vDout hdy hy hdx hx⟩

/-! ## Claims about the checks and the general path -/

/-- C13: when `alpha` is not equal to 1 or `beta` is not equal to 0 (as judged by
`float_equal`), `Forward` and `Backward` fail with the thrown error and leave the
handle as it was, so that no kernel is registered or invoked; when `alpha`
equals 1 and `beta` equals 0, neither of them fails with that error. -/
theorem C13_alpha_beta_check (env : Collaborators) (self : ActivationDescriptor)
    (handle : Handle) (alpha beta : FloatExpr) (yDesc dyDesc xDesc dxDesc : TensorDescriptor)
    (y dy x dx yOffset dyOffset xOffset dxOffset : Nat) :
    ((env.float_equal alpha 1 = false ∨ env.float_equal beta 0 = false) →
      self.Forward env handle alpha xDesc x beta yDesc y xOffset yOffset =
        (.error (.thrown "Only alpha=1 and beta=0 is supported"), handle) ∧
      self.Backward env handle alpha yDesc y dyDesc dy xDesc x beta dxDesc dx
        yOffset dyOffset xOffset dxOffset =
        (.error (.thrown "Only alpha=1 and beta=0 is supported"), handle)) ∧
    (env.float_equal alpha 1 = true → env.float_equal beta 0 = true →
      (self.Forward env handle alpha xDesc x beta yDesc y xOffset yOffset).1 ≠
        .error (.thrown "Only alpha=1 and beta=0 is supported") ∧
      (self.Backward env handle alpha yDesc y dyDesc dy xDesc x beta dxDesc dx
        yOffset dyOffset xOffset dxOffset).1 ≠
        .error (.thrown "Only alpha=1 and beta=0 is supported")) := by
  refine ⟨fun h => ⟨Forward_check_fails env self handle alpha beta xDesc yDesc x y xOffset
    yOffset h, Backward_check_fails env self handle alpha beta yDesc dyDesc xDesc dxDesc y dy
    x dx yOffset dyOffset xOffset dxOffset h⟩, fun ha hb => ⟨?_, ?_⟩⟩
  · rcases Forward_result env self handle alpha beta xDesc yDesc x y xOffset yOffset ha hb with
      ⟨k, args, h⟩ | h | h | h <;> rw [h] <;>
      simp [msg_size, msg_dimension]
  · rcases Backward_result env self handle alpha beta yDesc dyDesc xDesc dxDesc y dy x dx
      yOffset dyOffset xOffset dxOffset ha hb with ⟨k, args, h⟩ | h | h | h <;> rw [h] <;>
      simp [msg_size, msg_dimensions]

/-- C14 (the claim fails as stated): the rank-3 tensor of extents `[4,4,4]` and
strides `[32,8,1]` is sent to the general path, and its normalization gives
the padded axis `N` the stride `4 * 32 = 128`, not the product `4 * 4 * 4 = 64`
of the extents of the more-minor axes; likewise the rank-1 tensor of extent 4
and stride 2 gets the padded strides `4 * 2 = 8`, not 4. -/
theorem C14_padded_stride_counterexample :
    fast_path_decision sample_3d_strided sample_3d_strided = .ok false ∧
    normalize4 sample_3d_strided msg_size = .ok ⟨1, 4, 4, 4, 128, 32, 8, 1⟩ ∧
    (128 : Int) ≠ 4 * 4 * 4 ∧
    normalize4 ⟨[4], [2], .miopenFloat⟩ msg_size = .ok ⟨1, 1, 1, 4, 8, 8, 8, 2⟩ ∧
    (8 : Int) ≠ 4 := by
  decide

/-- C14 (amended): for every shape of rank `r` in 1..4 with as many strides as
extents, the normalization succeeds with a 4-tuple of extents and a 4-tuple of
strides, as `int`s, whose last `r` entries are the original extents and strides
in order and whose `4 - r` padded entries are the extent 1 and the stride
`e_0 * s_0`, the `int` product of the outermost original extent and stride; a
rank-4 shape passes through unchanged.  When the extents, the strides and
`e_0 * s_0` are below `2^31` the entries are the original numbers and the
product is exact, and for a fully packed shape `e_0 * s_0` is the product of
all the extents. -/
theorem C14_normalization_pads_with_outer_extent_times_stride (desc : TensorDescriptor)
    (msg : String) (hr1 : 1 ≤ desc.lens.length) (hr4 : desc.lens.length ≤ 4)
    (hs : desc.strides.length = desc.lens.length) :
    ∃ v, normalize4 desc msg = .ok v ∧
      [v.n, v.c, v.h, v.w] =
        List.replicate (4 - desc.lens.length) 1 ++ desc.lens.map size_t_to_int ∧
      [v.nStride, v.cStride, v.hStride, v.wStride] =
        List.replicate (4 - desc.lens.length)
          (int_mul (size_t_to_int (desc.lens.headD 0)) (size_t_to_int (desc.strides.headD 0))) ++
          desc.strides.map size_t_to_int ∧
      ((∀ e ∈ desc.lens, e < 2147483648) → (∀ s ∈ desc.strides, s < 2147483648) →
        desc.lens.headD 0 * desc.strides.headD 0 < 2147483648 →
        [v.n, v.c, v.h, v.w] =
          List.replicate (4 - desc.lens.length) 1 ++ desc.lens.map Int.ofNat ∧
        [v.nStride, v.cStride, v.hStride, v.wStride] =
          List.replicate (4 - desc.lens.length)
            (Int.ofNat (desc.lens.headD 0 * desc.strides.headD 0)) ++
            desc.strides.map Int.ofNat) ∧
      (spec_fully_packed desc.strides desc.lens →
        desc.lens.headD 0 * desc.strides.headD 0 = desc.lens.prod) := by
  obtain ⟨v, hv, he, hst⟩ := normalize4_good_rank desc msg hr1 hr4 hs
  refine ⟨v, hv, he, hst, ?_, ?_⟩
  · intro hl hsr hp
    have hmapl : desc.lens.map size_t_to_int = desc.lens.map Int.ofNat :=
      List.map_congr_left (fun e hemem => size_t_to_int_of_lt e (hl e hemem))
    have hmaps : desc.strides.map size_t_to_int = desc.strides.map Int.ofNat :=
      List.map_congr_left (fun s hsmem => size_t_to_int_of_lt s (hsr s hsmem))
    have h0l : desc.lens.headD 0 < 2147483648 := by
      cases hd : desc.lens with
      | nil => simp
      | cons a l => simpa [hd] using hl a (by simp [hd])
    have h0s : desc.strides.headD 0 < 2147483648 := by
      cases hd : desc.strides with
      | nil => simp
      | cons a l => simpa [hd] using hsr a (by simp [hd])
    have hmul : int_mul (size_t_to_int (desc.lens.headD 0))
        (size_t_to_int (desc.strides.headD 0)) =
        Int.ofNat (desc.lens.headD 0 * desc.strides.headD 0) := by
      rw [size_t_to_int_of_lt _ h0l, size_t_to_int_of_lt _ h0s, int_mul_of_range]
      · simp
      · have : (0 : Int) ≤ ((desc.lens.headD 0 * desc.strides.headD 0 : Nat) : Int) :=
          Int.ofNat_nonneg _
        push_cast at this
        omega
      · have : ((desc.lens.headD 0 * desc.strides.headD 0 : Nat) : Int) < 2147483648 := by
          exact_mod_cast hp
        push_cast at this
        exact this
    rw [he, hst, hmapl, hmaps, hmul]
    exact ⟨rfl, rfl⟩
  · intro hpk
    obtain ⟨lens, strides, ty⟩ := desc
    cases lens with
    | nil => simp at hr1
    | cons a l =>
      have h0 := hpk 0 (by simp)
      cases strides with
      | nil => simp at hs
      | cons s st =>
        simp at h0
        simp [h0]

/-- C14 (amended) at the rank-3 tensor of extents `[4,4,4]` and strides `[32,8,1]`. -/
theorem C14_normalization_pads_with_outer_extent_times_stride_witness :
    ∃ v, normalize4 sample_3d_strided msg_size = .ok v ∧
      [v.n, v.c, v.h, v.w] =
        List.replicate (4 - sample_3d_strided.lens.length) 1 ++
          sample_3d_strided.lens.map size_t_to_int ∧
      [v.nStride, v.cStride, v.hStride, v.wStride] =
        List.replicate (4 - sample_3d_strided.lens.length)
          (int_mul (size_t_to_int (sample_3d_strided.lens.headD 0))
            (size_t_to_int (sample_3d_strided.strides.headD 0))) ++
          sample_3d_strided.strides.map size_t_to_int ∧
      ((∀ e ∈ sample_3d_strided.lens, e < 2147483648) →
        (∀ s ∈ sample_3d_strided.strides, s < 2147483648) →
        sample_3d_strided.lens.headD 0 * sample_3d_strided.strides.headD 0 < 2147483648 →
        [v.n, v.c, v.h, v.w] =
          List.replicate (4 - sample_3d_strided.lens.length) 1 ++
            sample_3d_strided.lens.map Int.ofNat ∧
        [v.nStride, v.cStride, v.hStride, v.wStride] =
          List.replicate (4 - sample_3d_strided.lens.length)
            (Int.ofNat (sample_3d_strided.lens.headD 0 * sample_3d_strided.strides.headD 0)) ++
            sample_3d_strided.strides.map Int.ofNat) ∧
      (spec_fully_packed sample_3d_strided.strides sample_3d_strided.lens →
        sample_3d_strided.lens.headD 0 * sample_3d_strided.strides.headD 0 =
          sample_3d_strided.lens.prod) :=
  C14_normalization_pads_with_outer_extent_times_stride sample_3d_strided msg_size
    (by decide) (by decide) (by decide)

/-- C15: for a request on the general path (descriptors with as many strides as
extents), the normalization of each descriptor succeeds if and only if its
rank is 1, 2, 3 or 4, and fails with the thrown rank error otherwise; `Forward`
succeeds exactly when the ranks of `yDesc` and `xDesc` are in 1..4 and
`Backward` exactly when those of `dyDesc`, `yDesc`, `dxDesc` and `xDesc` are;
and when a rank is 0 or above 4 they fail with a thrown rank error and leave
the handle as it was, so that no kernel is registered or invoked. -/
theorem C15_normalization_succeeds_iff_rank_1_to_4 (env : Collaborators)
    (self : ActivationDescriptor) (handle : Handle) (alpha beta : FloatExpr)
    (yDesc dyDesc xDesc dxDesc : TensorDescriptor)
    (y dy x dx yOffset dyOffset xOffset dxOffset : Nat)
    (ha : env.float_equal alpha 1 = true) (hb : env.float_equal beta 0 = true)
    (hf : fast_path_decision xDesc yDesc = .ok false)
    (hsx : xDesc.strides.length = xDesc.lens.length)
    (hsy : yDesc.strides.length = yDesc.lens.length)
    (hsdx : dxDesc.strides.length = dxDesc.lens.length)
    (hsdy : dyDesc.strides.length = dyDesc.lens.length) :
    (∀ desc ∈ [xDesc, yDesc, dxDesc, dyDesc], ∀ msg : String,
      ((∃ v, normalize4 desc msg = .ok v) ↔ (1 ≤ desc.GetSize ∧ desc.GetSize ≤ 4)) ∧
      (¬ (1 ≤ desc.GetSize ∧ desc.GetSize ≤ 4) → normalize4 desc msg = .error (.thrown msg))) ∧
    ((self.Forward env handle alpha xDesc x beta yDesc y xOffset yOffset).1 = .ok () ↔
      ((1 ≤ yDesc.GetSize ∧ yDesc.GetSize ≤ 4) ∧ (1 ≤ xDesc.GetSize ∧ xDesc.GetSize ≤ 4))) ∧
    (¬ ((1 ≤ yDesc.GetSize ∧ yDesc.GetSize ≤ 4) ∧ (1 ≤ xDesc.GetSize ∧ xDesc.GetSize ≤ 4)) →
      ∃ m, self.Forward env handle alpha xDesc x beta yDesc y xOffset yOffset =
        (.error (.thrown m), handle)) ∧
    ((self.Backward env handle alpha yDesc y dyDesc dy xDesc x beta dxDesc dx
        yOffset dyOffset xOffset dxOffset).1 = .ok () ↔
      ((1 ≤ dyDesc.GetSize ∧ dyDesc.GetSize ≤ 4) ∧ (1 ≤ yDesc.GetSize ∧ yDesc.GetSize ≤ 4) ∧
        (1 ≤ dxDesc.GetSize ∧ dxDesc.GetSize ≤ 4) ∧ (1 ≤ xDesc.GetSize ∧ xDesc.GetSize ≤ 4))) ∧
    (¬ ((1 ≤ dyDesc.GetSize ∧ dyDesc.GetSize ≤ 4) ∧ (1 ≤ yDesc.GetSize ∧ yDesc.GetSize ≤ 4) ∧
        (1 ≤ dxDesc.GetSize ∧ dxDesc.GetSize ≤ 4) ∧ (1 ≤ xDesc.GetSize ∧ xDesc.GetSize ≤ 4)) →
      ∃ m, self.Backward env handle alpha yDesc y dyDesc dy xDesc x beta dxDesc dx
        yOffset dyOffset xOffset dxOffset = (.error (.thrown m), handle)) := by
  have norm : ∀ desc : TensorDescriptor, desc.strides.length = desc.lens.length →
      ∀ msg : String,
      ((∃ v, normalize4 desc msg = .ok v) ↔ (1 ≤ desc.GetSize ∧ desc.GetSize ≤ 4)) ∧
      (¬ (1 ≤ desc.GetSize ∧ desc.GetSize ≤ 4) →
        normalize4 desc msg = .error (.thrown msg)) := by
    intro desc hs msg
    refine ⟨⟨?_, ?_⟩, normalize4_bad_rank desc msg⟩
    · rintro ⟨v, hv⟩
      by_contra hbad
      rw [normalize4_bad_rank desc msg hbad] at hv
      cases hv
    · rintro ⟨h1, h4⟩
      obtain ⟨v, hv, _⟩ := normalize4_good_rank desc msg h1 h4 hs
      exact ⟨v, hv⟩
  have fwd : ∀ e, (normalize4 yDesc msg_size = .error e ∨
      (∃ v, normalize4 yDesc msg_size = .ok v) ∧ normalize4 xDesc msg_dimension = .error e) →
      self.Forward env handle alpha xDesc x beta yDesc y xOffset yOffset =
        (.error e, handle) := by
    rintro e (h | ⟨⟨v, hv⟩, h⟩)
    · exact Forward_general_fails_y env self handle alpha beta xDesc yDesc x y xOffset yOffset
        ha hb hf e h
    · exact Forward_general_fails_x env self handle alpha beta xDesc yDesc x y xOffset yOffset
        ha hb hf v e hv h
  have bwd := Backward_general_fails env self handle alpha beta yDesc dyDesc xDesc dxDesc
    y dy x dx yOffset dyOffset xOffset dxOffset ha hb hf
  have fwd_bad : ¬ ((1 ≤ yDesc.GetSize ∧ yDesc.GetSize ≤ 4) ∧
      (1 ≤ xDesc.GetSize ∧ xDesc.GetSize ≤ 4)) →
      ∃ m, self.Forward env handle alpha xDesc x beta yDesc y xOffset yOffset =
        (.error (.thrown m), handle) := by
    intro hbad
    by_cases hy : 1 ≤ yDesc.GetSize ∧ yDesc.GetSize ≤ 4
    · have hx : ¬ (1 ≤ xDesc.GetSize ∧ xDesc.GetSize ≤ 4) := fun hx => hbad ⟨hy, hx⟩
      exact ⟨_, fwd _ (Or.inr ⟨((norm yDesc hsy _).1).2 hy, (norm xDesc hsx _).2 hx⟩)⟩
    · exact ⟨_, fwd _ (Or.inl ((norm yDesc hsy _).2 hy))⟩
  have bwd_bad : ¬ ((1 ≤ dyDesc.GetSize ∧ dyDesc.GetSize ≤ 4) ∧
      (1 ≤ yDesc.GetSize ∧ yDesc.GetSize ≤ 4) ∧
      (1 ≤ dxDesc.GetSize ∧ dxDesc.GetSize ≤ 4) ∧ (1 ≤ xDesc.GetSize ∧ xDesc.GetSize ≤ 4)) →
      ∃ m, self.Backward env handle alpha yDesc y dyDesc dy xDesc x beta dxDesc dx
        yOffset dyOffset xOffset dxOffset = (.error (.thrown m), handle) := by
    intro hbad
    by_cases hdy : 1 ≤ dyDesc.GetSize ∧ dyDesc.GetSize ≤ 4
    · by_cases hy : 1 ≤ yDesc.GetSize ∧ yDesc.GetSize ≤ 4
      · by_cases hdx : 1 ≤ dxDesc.GetSize ∧ dxDesc.GetSize ≤ 4
        · have hx : ¬ (1 ≤ xDesc.GetSize ∧ xDesc.GetSize ≤ 4) :=
            fun hx => hbad ⟨hdy, hy, hdx, hx⟩
          exact ⟨_, bwd _ (Or.inr ⟨((norm dyDesc hsdy _).1).2 hdy,
            Or.inr ⟨((norm yDesc hsy _).1).2 hy,
              Or.inr ⟨((norm dxDesc hsdx _).1).2 hdx, (norm xDesc hsx _).2 hx⟩⟩⟩)⟩
        · exact ⟨_, bwd _ (Or.inr ⟨((norm dyDesc hsdy _).1).2 hdy,
            Or.inr ⟨((norm yDesc hsy _).1).2 hy, Or.inl ((norm dxDesc hsdx _).2 hdx)⟩⟩)⟩
      · exact ⟨_, bwd _ (Or.inr ⟨((norm dyDesc hsdy _).1).2 hdy,
          Or.inl ((norm yDesc hsy _).2 hy)⟩)⟩
    · exact ⟨_, bwd _ (Or.inl ((norm dyDesc hsdy _).2 hdy))⟩
  refine ⟨?_, ⟨?_, ?_⟩, fwd_bad, ⟨?_, ?_⟩, bwd_bad⟩
  · intro desc hmem msg
    simp only [List.mem_cons, List.mem_singleton, List.not_mem_nil, or_false] at hmem
    rcases hmem with rfl | rfl | rfl | rfl
    · exact norm _ hsx msg
    · exact norm _ hsy msg
    · exact norm _ hsdx msg
    · exact norm _ hsdy msg
  · intro hok
    by_contra hbad
    obtain ⟨m, hm⟩ := fwd_bad hbad
    rw [hm] at hok
    cases hok
  · rintro ⟨hy, hx⟩
    obtain ⟨vOut, hvOut⟩ := ((norm yDesc hsy msg_size).1).2 hy
    obtain ⟨vIn, hvIn⟩ := ((norm xDesc hsx msg_dimension).1).2 hx
    rw [Forward_general env self handle alpha beta xDesc yDesc x y xOffset yOffset ha hb hf
      vIn vOut hvOut hvIn]
  · intro hok
    by_contra hbad
    obtain ⟨m, hm⟩ := bwd_bad hbad
    rw [hm] at hok
    cases hok
  · rintro ⟨hdy, hy, hdx, hx⟩
    obtain ⟨vDout, hvDout⟩ := ((norm dyDesc hsdy msg_size).1).2 hdy
    obtain ⟨vOut, hvOut⟩ := ((norm yDesc hsy msg_dimensions).1).2 hy
    obtain ⟨vDin, hvDin⟩ := ((norm dxDesc hsdx msg_dimensions).1).2 hdx
    obtain ⟨vIn, hvIn⟩ := ((norm xDesc hsx msg_dimensions).1).2 hx
    rw [Backward_general env self handle alpha beta yDesc dyDesc xDesc dxDesc y dy x dx
      yOffset dyOffset xOffset dxOffset ha hb hf vIn vOut vDin vDout hvDout hvOut hvDin hvIn]

/-- C15 at a concrete request: `yDesc` of rank 5, the others of rank 1. -/
theorem C15_normalization_succeeds_iff_rank_1_to_4_witness :
    (∀ desc ∈ [sample_1d 4, sample_5d, sample_1d 4, sample_1d 4], ∀ msg : String,
      ((∃ v, normalize4 desc msg = .ok v) ↔ (1 ≤ desc.GetSize ∧ desc.GetSize ≤ 4)) ∧
      (¬ (1 ≤ desc.GetSize ∧ desc.GetSize ≤ 4) → normalize4 desc msg = .error (.thrown msg))) ∧
    ((sample_activation.Forward sample_env Handle.empty (.val 1) (sample_1d 4) 100 (.val 0)
        sample_5d 200 0 0).1 = .ok () ↔
      ((1 ≤ sample_5d.GetSize ∧ sample_5d.GetSize ≤ 4) ∧
        (1 ≤ (sample_1d 4).GetSize ∧ (sample_1d 4).GetSize ≤ 4))) ∧
    (¬ ((1 ≤ sample_5d.GetSize ∧ sample_5d.GetSize ≤ 4) ∧
        (1 ≤ (sample_1d 4).GetSize ∧ (sample_1d 4).GetSize ≤ 4)) →
      ∃ m, sample_activation.Forward sample_env Handle.empty (.val 1) (sample_1d 4) 100 (.val 0)
        sample_5d 200 0 0 = (.error (.thrown m), Handle.empty)) ∧
    ((sample_activation.Backward sample_env Handle.empty (.val 1) sample_5d 200 (sample_1d 4) 201
        (sample_1d 4) 100 (.val 0) (sample_1d 4) 101 0 0 0 0).1 = .ok () ↔
      ((1 ≤ (sample_1d 4).GetSize ∧ (sample_1d 4).GetSize ≤ 4) ∧
        (1 ≤ sample_5d.GetSize ∧ sample_5d.GetSize ≤ 4) ∧
        (1 ≤ (sample_1d 4).GetSize ∧ (sample_1d 4).GetSize ≤ 4) ∧
        (1 ≤ (sample_1d 4).GetSize ∧ (sample_1d 4).GetSize ≤ 4))) ∧
    (¬ ((1 ≤ (sample_1d 4).GetSize ∧ (sample_1d 4).GetSize ≤ 4) ∧
        (1 ≤ sample_5d.GetSize ∧ sample_5d.GetSize ≤ 4) ∧
        (1 ≤ (sample_1d 4).GetSize ∧ (sample_1d 4).GetSize ≤ 4) ∧
        (1 ≤ (sample_1d 4).GetSize ∧ (sample_1d 4).GetSize ≤ 4)) →
      ∃ m, sample_activation.Backward sample_env Handle.empty (.val 1) sample_5d 200
        (sample_1d 4) 201 (sample_1d 4) 100 (.val 0) (sample_1d 4) 101 0 0 0 0 =
        (.error (.thrown m), Handle.empty)) :=
  C15_normalization_succeeds_iff_rank_1_to_4 sample_env sample_activation Handle.empty (.val 1)
    (.val 0) sample_5d (sample_1d 4) (sample_1d 4) (sample_1d 4) 200 201 100 101 0 0 0 0
    (by decide) (by decide) (by decide) (by decide) (by decide) (by decide) (by decide)

/-- The text that the general path appends to the compile options, written out:
one ` -D<name>=<value>` for each extent and stride of `IN`, `OUT`, `DIN`, `DOUT`
in the order of the source, then the four block sizes. -/
theorem render_general_defines (base : String) (vIn vOut vDin vDout : NCHW)
    (bIn bOut bDin bDout : Int) :
    base ++ render_defines (general_defines vIn vOut vDin vDout bIn bOut bDin bDout) =
      base ++ " -DMLO_N_IN=" ++ toString vIn.n ++ " -DMLO_C_IN=" ++ toString vIn.c ++
      " -DMLO_H_IN=" ++ toString vIn.h ++ " -DMLO_W_IN=" ++ toString vIn.w ++
      " -DMLO_N_IN_STRIDE=" ++ toString vIn.nStride ++
      " -DMLO_C_IN_STRIDE=" ++ toString vIn.cStride ++
      " -DMLO_H_IN_STRIDE=" ++ toString vIn.hStride ++
      " -DMLO_W_IN_STRIDE=" ++ toString vIn.wStride ++ " -DMLO_N_OUT=" ++ toString vOut.n ++
      " -DMLO_C_OUT=" ++ toString vOut.c ++ " -DMLO_H_OUT=" ++ toString vOut.h ++
      " -DMLO_W_OUT=" ++ toString vOut.w ++ " -DMLO_N_OUT_STRIDE=" ++ toString vOut.nStride ++
      " -DMLO_C_OUT_STRIDE=" ++ toString vOut.cStride ++
      " -DMLO_H_OUT_STRIDE=" ++ toString vOut.hStride ++
      " -DMLO_W_OUT_STRIDE=" ++ toString vOut.wStride ++ " -DMLO_N_DIN=" ++ toString vDin.n ++
      " -DMLO_C_DIN=" ++ toString vDin.c ++ " -DMLO_H_DIN=" ++ toString vDin.h ++
      " -DMLO_W_DIN=" ++ toString vDin.w ++ " -DMLO_N_DIN_STRIDE=" ++ toString vDin.nStride ++
      " -DMLO_C_DIN_STRIDE=" ++ toString vDin.cStride ++
      " -DMLO_H_DIN_STRIDE=" ++ toString vDin.hStride ++
      " -DMLO_W_DIN_STRIDE=" ++ toString vDin.wStride ++ " -DMLO_N_DOUT=" ++ toString vDout.n ++
      " -DMLO_C_DOUT=" ++ toString vDout.c ++ " -DMLO_H_DOUT=" ++ toString vDout.h ++
      " -DMLO_W_DOUT=" ++ toString vDout.w ++ " -DMLO_N_DOUT_STRIDE=" ++ toString vDout.nStride ++
      " -DMLO_C_DOUT_STRIDE=" ++ toString vDout.cStride ++
      " -DMLO_H_DOUT_STRIDE=" ++ toString vDout.hStride ++
      " -DMLO_W_DOUT_STRIDE=" ++ toString vDout.wStride ++
      " -DMLO_IN_BLOCK_SZ=" ++ toString bIn ++ " -DMLO_OUT_BLOCK_SZ=" ++ toString bOut ++
      " -DMLO_DIN_BLOCK_SZ=" ++ toString bDin ++ " -DMLO_DOUT_BLOCK_SZ=" ++ toString bDout := by
  simp only [render_defines, general_defines, tensor_defines, List.cons_append, List.nil_append,
    List.map_cons, List.map_nil, String.reduceAppend]
  simp only [String.join, List.foldl_cons, List.foldl_nil, String.append_assoc,
    String.empty_append]

set_option maxRecDepth 100000 in
/-- The compile options of the kernels that `Forward` and `Backward` register for
a strided `[4,4,4]` input with packed `[4,4,4]` output and gradients. -/
theorem sample_general_options :
    (sample_activation.Forward sample_env Handle.empty (.val 1) sample_3d_strided 100 (.val 0)
      sample_3d_packed 200 0 0).2.queue.map (fun p => p.1.params) =
      [sample_general_fwd_options] ∧
    (sample_activation.Backward sample_env Handle.empty (.val 1) sample_3d_packed 200
      sample_3d_packed 201 sample_3d_strided 100 (.val 0) sample_3d_packed 101
      0 0 0 0).2.queue.map (fun p => p.1.params) =
      [sample_general_bwd_options] := by
  decide

/-- C16: for every request on the general path whose normalizations succeed, the
compile options of the registered kernel are those of the general
construction followed by the text ` -DMLO_<axis>_<tensor>=<extent>` and
` -DMLO_<axis>_<tensor>_STRIDE=<stride>` for each of the four axes `N C H W` of
each of the four logical tensors `IN`, `OUT`, `DIN`, `DOUT`, and by the four
block sizes.  In `Forward`, `IN` carries the normalized `xDesc` and `OUT` the
normalized `yDesc`, and every extent and every stride of `DIN` and `DOUT` is
written as 1; in `Backward`, `IN`, `OUT`, `DIN`, `DOUT` carry the normalized
`xDesc`, `yDesc`, `dxDesc`, `dyDesc`.  For a strided `[4,4,4]` input with
packed output and gradients the two texts are evaluated. -/
theorem C16_general_path_defines_all_four_tensors (env : Collaborators)
    (self : ActivationDescriptor) (handle : Handle) (alpha beta : FloatExpr)
    (yDesc dyDesc xDesc dxDesc : TensorDescriptor)
    (y dy x dx yOffset dyOffset xOffset dxOffset : Nat) (vIn vOut vDin vDout : NCHW)
    (ha : env.float_equal alpha 1 = true) (hb : env.float_equal beta 0 = true)
    (hf : fast_path_decision xDesc yDesc = .ok false)
    (hx : normalize4 xDesc msg_size = .ok vIn) (hy : normalize4 yDesc msg_size = .ok vOut)
    (hdx : normalize4 dxDesc msg_size = .ok vDin)
    (hdy : normalize4 dyDesc msg_size = .ok vDout) :
    ∃ kf kb argsf argsb,
      self.Forward env handle alpha xDesc x beta yDesc y xOffset yOffset =
        (.ok (), handle.launch forward_name
          (env.mloBuildConf_Key (mlo_construct_neuron.new 1)) kf argsf) ∧
      kf.params =
        (env.mloConstruct (fwd_construct_params self xDesc vOut)).getCompilerOptions ++
        " -DMLO_N_IN=" ++ toString vIn.n ++ " -DMLO_C_IN=" ++ toString vIn.c ++
        " -DMLO_H_IN=" ++ toString vIn.h ++ " -DMLO_W_IN=" ++ toString vIn.w ++
        " -DMLO_N_IN_STRIDE=" ++ toString vIn.nStride ++
        " -DMLO_C_IN_STRIDE=" ++ toString vIn.cStride ++
        " -DMLO_H_IN_STRIDE=" ++ toString vIn.hStride ++
        " -DMLO_W_IN_STRIDE=" ++ toString vIn.wStride ++ " -DMLO_N_OUT=" ++ toString vOut.n ++
        " -DMLO_C_OUT=" ++ toString vOut.c ++ " -DMLO_H_OUT=" ++ toString vOut.h ++
        " -DMLO_W_OUT=" ++ toString vOut.w ++ " -DMLO_N_OUT_STRIDE=" ++ toString vOut.nStride ++
        " -DMLO_C_OUT_STRIDE=" ++ toString vOut.cStride ++
        " -DMLO_H_OUT_STRIDE=" ++ toString vOut.hStride ++
        " -DMLO_W_OUT_STRIDE=" ++ toString vOut.wStride ++
        " -DMLO_N_DIN=" ++ toString (1 : Int) ++ " -DMLO_C_DIN=" ++ toString (1 : Int) ++
        " -DMLO_H_DIN=" ++ toString (1 : Int) ++ " -DMLO_W_DIN=" ++ toString (1 : Int) ++
        " -DMLO_N_DIN_STRIDE=" ++ toString (1 : Int) ++
        " -DMLO_C_DIN_STRIDE=" ++ toString (1 : Int) ++
        " -DMLO_H_DIN_STRIDE=" ++ toString (1 : Int) ++
        " -DMLO_W_DIN_STRIDE=" ++ toString (1 : Int) ++ " -DMLO_N_DOUT=" ++ toString (1 : Int) ++
        " -DMLO_C_DOUT=" ++ toString (1 : Int) ++ " -DMLO_H_DOUT=" ++ toString (1 : Int) ++
        " -DMLO_W_DOUT=" ++ toString (1 : Int) ++ " -DMLO_N_DOUT_STRIDE=" ++ toString (1 : Int) ++
        " -DMLO_C_DOUT_STRIDE=" ++ toString (1 : Int) ++
        " -DMLO_H_DOUT_STRIDE=" ++ toString (1 : Int) ++
        " -DMLO_W_DOUT_STRIDE=" ++ toString (1 : Int) ++
        " -DMLO_IN_BLOCK_SZ=" ++ toString vIn.block_sz ++
        " -DMLO_OUT_BLOCK_SZ=" ++ toString vOut.block_sz ++
        " -DMLO_DIN_BLOCK_SZ=" ++ toString (1 : Int) ++
        " -DMLO_DOUT_BLOCK_SZ=" ++ toString (1 : Int) ∧
      self.Backward env handle alpha yDesc y dyDesc dy xDesc x beta dxDesc dx
          yOffset dyOffset xOffset dxOffset =
        (.ok (), handle.launch backward_name
          (env.mloBuildConf_Key (mlo_construct_neuron.new 0)) kb argsb) ∧
      kb.params =
        (env.mloConstruct (bwd_construct_params self dyDesc yDesc dxDesc xDesc)).getCompilerOptions ++
        " -DMLO_N_IN=" ++ toString vIn.n ++ " -DMLO_C_IN=" ++ toString vIn.c ++
        " -DMLO_H_IN=" ++ toString vIn.h ++ " -DMLO_W_IN=" ++ toString vIn.w ++
        " -DMLO_N_IN_STRIDE=" ++ toString vIn.nStride ++
        " -DMLO_C_IN_STRIDE=" ++ toString vIn.cStride ++
        " -DMLO_H_IN_STRIDE=" ++ toString vIn.hStride ++
        " -DMLO_W_IN_STRIDE=" ++ toString vIn.wStride ++ " -DMLO_N_OUT=" ++ toString vOut.n ++
        " -DMLO_C_OUT=" ++ toString vOut.c ++ " -DMLO_H_OUT=" ++ toString vOut.h ++
        " -DMLO_W_OUT=" ++ toString vOut.w ++ " -DMLO_N_OUT_STRIDE=" ++ toString vOut.nStride ++
        " -DMLO_C_OUT_STRIDE=" ++ toString vOut.cStride ++
        " -DMLO_H_OUT_STRIDE=" ++ toString vOut.hStride ++
        " -DMLO_W_OUT_STRIDE=" ++ toString vOut.wStride ++ " -DMLO_N_DIN=" ++ toString vDin.n ++
        " -DMLO_C_DIN=" ++ toString vDin.c ++ " -DMLO_H_DIN=" ++ toString vDin.h ++
        " -DMLO_W_DIN=" ++ toString vDin.w ++ " -DMLO_N_DIN_STRIDE=" ++ toString vDin.nStride ++
        " -DMLO_C_DIN_STRIDE=" ++ toString vDin.cStride ++
        " -DMLO_H_DIN_STRIDE=" ++ toString vDin.hStride ++
        " -DMLO_W_DIN_STRIDE=" ++ toString vDin.wStride ++ " -DMLO_N_DOUT=" ++ toString vDout.n ++
        " -DMLO_C_DOUT=" ++ toString vDout.c ++ " -DMLO_H_DOUT=" ++ toString vDout.h ++
        " -DMLO_W_DOUT=" ++ toString vDout.w ++
        " -DMLO_N_DOUT_STRIDE=" ++ toString vDout.nStride ++
        " -DMLO_C_DOUT_STRIDE=" ++ toString vDout.cStride ++
        " -DMLO_H_DOUT_STRIDE=" ++ toString vDout.hStride ++
        " -DMLO_W_DOUT_STRIDE=" ++ toString vDout.wStride ++
        " -DMLO_IN_BLOCK_SZ=" ++ toString vIn.block_sz ++
        " -DMLO_OUT_BLOCK_SZ=" ++ toString vOut.block_sz ++
        " -DMLO_DIN_BLOCK_SZ=" ++ toString vDin.block_sz ++
        " -DMLO_DOUT_BLOCK_SZ=" ++ toString vDout.block_sz ∧
      (sample_activation.Forward sample_env Handle.empty (.val 1) sample_3d_strided 100
        (.val 0) sample_3d_packed 200 0 0).2.queue.map (fun p => p.1.params) =
        [sample_general_fwd_options] ∧
      (sample_activation.Backward sample_env Handle.empty (.val 1) sample_3d_packed 200
        sample_3d_packed 201 sample_3d_strided 100 (.val 0) sample_3d_packed 101
        0 0 0 0).2.queue.map (fun p => p.1.params) =
        [sample_general_bwd_options] := by
  refine ⟨fwd_general_kernel env self xDesc vIn vOut,
    bwd_general_kernel env self dyDesc yDesc dxDesc xDesc vIn vOut vDin vDout,
    fwd_general_args env self xDesc vOut x y xOffset yOffset,
    bwd_general_args self dx dy x y dxOffset dyOffset xOffset yOffset, ?_, ?_, ?_, ?_,
    sample_general_options⟩
  · exact Forward_general env self handle alpha beta xDesc yDesc x y xOffset yOffset ha hb hf
      vIn vOut hy (normalize4_ok_msg _ _ _ _ hx)
  · exact render_general_defines _ vIn vOut NCHW.ones NCHW.ones vIn.block_sz vOut.block_sz 1 1
  · exact Backward_general env self handle alpha beta yDesc dyDesc xDesc dxDesc y dy x dx
      yOffset dyOffset xOffset dxOffset ha hb hf vIn vOut vDin vDout hdy
      (normalize4_ok_msg _ _ _ _ hy) (normalize4_ok_msg _ _ _ _ hdx)
      (normalize4_ok_msg _ _ _ _ hx)
  · exact render_general_defines _ vIn vOut vDin vDout vIn.block_sz vOut.block_sz
      vDin.block_sz vDout.block_sz

/-- C16 at a concrete request: a strided `[4,4,4]` input and packed `[4,4,4]`
output and gradients. -/
theorem C16_general_path_defines_all_four_tensors_witness :
    ∃ kf kb argsf argsb,
      sample_activation.Forward sample_env Handle.empty (.val 1) sample_3d_strided 100 (.val 0) sample_3d_packed 200 0 0 =
        (.ok (), Handle.empty.launch forward_name
          (sample_env.mloBuildConf_Key (mlo_construct_neuron.new 1)) kf argsf) ∧
      kf.params =
        (sample_env.mloConstruct (fwd_construct_params sample_activation sample_3d_strided sample_nchw_packed)).getCompilerOptions ++
        " -DMLO_N_IN=" ++ toString sample_nchw_strided.n ++
        " -DMLO_C_IN=" ++ toString sample_nchw_strided.c ++
        " -DMLO_H_IN=" ++ toString sample_nchw_strided.h ++
        " -DMLO_W_IN=" ++ toString sample_nchw_strided.w ++
        " -DMLO_N_IN_STRIDE=" ++ toString sample_nchw_strided.nStride ++
        " -DMLO_C_IN_STRIDE=" ++ toString sample_nchw_strided.cStride ++
        " -DMLO_H_IN_STRIDE=" ++ toString sample_nchw_strided.hStride ++
        " -DMLO_W_IN_STRIDE=" ++ toString sample_nchw_strided.wStride ++
        " -DMLO_N_OUT=" ++ toString sample_nchw_packed.n ++
        " -DMLO_C_OUT=" ++ toString sample_nchw_packed.c ++
        " -DMLO_H_OUT=" ++ toString sample_nchw_packed.h ++
        " -DMLO_W_OUT=" ++ toString sample_nchw_packed.w ++
        " -DMLO_N_OUT_STRIDE=" ++ toString sample_nchw_packed.nStride ++
        " -DMLO_C_OUT_STRIDE=" ++ toString sample_nchw_packed.cStride ++
        " -DMLO_H_OUT_STRIDE=" ++ toString sample_nchw_packed.hStride ++
        " -DMLO_W_OUT_STRIDE=" ++ toString sample_nchw_packed.wStride ++
        " -DMLO_N_DIN=" ++ toString (1 : Int) ++ " -DMLO_C_DIN=" ++ toString (1 : Int) ++
        " -DMLO_H_DIN=" ++ toString (1 : Int) ++ " -DMLO_W_DIN=" ++ toString (1 : Int) ++
        " -DMLO_N_DIN_STRIDE=" ++ toString (1 : Int) ++
        " -DMLO_C_DIN_STRIDE=" ++ toString (1 : Int) ++
        " -DMLO_H_DIN_STRIDE=" ++ toString (1 : Int) ++
        " -DMLO_W_DIN_STRIDE=" ++ toString (1 : Int) ++ " -DMLO_N_DOUT=" ++ toString (1 : Int) ++
        " -DMLO_C_DOUT=" ++ toString (1 : Int) ++ " -DMLO_H_DOUT=" ++ toString (1 : Int) ++
        " -DMLO_W_DOUT=" ++ toString (1 : Int) ++ " -DMLO_N_DOUT_STRIDE=" ++ toString (1 : Int) ++
        " -DMLO_C_DOUT_STRIDE=" ++ toString (1 : Int) ++
        " -DMLO_H_DOUT_STRIDE=" ++ toString (1 : Int) ++
        " -DMLO_W_DOUT_STRIDE=" ++ toString (1 : Int) ++
        " -DMLO_IN_BLOCK_SZ=" ++ toString sample_nchw_strided.block_sz ++
        " -DMLO_OUT_BLOCK_SZ=" ++ toString sample_nchw_packed.block_sz ++
        " -DMLO_DIN_BLOCK_SZ=" ++ toString (1 : Int) ++
        " -DMLO_DOUT_BLOCK_SZ=" ++ toString (1 : Int) ∧
      sample_activation.Backward sample_env Handle.empty (.val 1) sample_3d_packed 200 sample_3d_packed 201 sample_3d_strided 100 (.val 0) sample_3d_packed 101
          0 0 0 0 =
        (.ok (), Handle.empty.launch backward_name
          (sample_env.mloBuildConf_Key (mlo_construct_neuron.new 0)) kb argsb) ∧
      kb.params =
        (sample_env.mloConstruct (bwd_construct_params sample_activation sample_3d_packed sample_3d_packed sample_3d_packed sample_3d_strided)).getCompilerOptions ++
        " -DMLO_N_IN=" ++ toString sample_nchw_strided.n ++
        " -DMLO_C_IN=" ++ toString sample_nchw_strided.c ++
        " -DMLO_H_IN=" ++ toString sample_nchw_strided.h ++
        " -DMLO_W_IN=" ++ toString sample_nchw_strided.w ++
        " -DMLO_N_IN_STRIDE=" ++ toString sample_nchw_strided.nStride ++
        " -DMLO_C_IN_STRIDE=" ++ toString sample_nchw_strided.cStride ++
        " -DMLO_H_IN_STRIDE=" ++ toString sample_nchw_strided.hStride ++
        " -DMLO_W_IN_STRIDE=" ++ toString sample_nchw_strided.wStride ++
        " -DMLO_N_OUT=" ++ toString sample_nchw_packed.n ++
        " -DMLO_C_OUT=" ++ toString sample_nchw_packed.c ++
        " -DMLO_H_OUT=" ++ toString sample_nchw_packed.h ++
        " -DMLO_W_OUT=" ++ toString sample_nchw_packed.w ++
        " -DMLO_N_OUT_STRIDE=" ++ toString sample_nchw_packed.nStride ++
        " -DMLO_C_OUT_STRIDE=" ++ toString sample_nchw_packed.cStride ++
        " -DMLO_H_OUT_STRIDE=" ++ toString sample_nchw_packed.hStride ++
        " -DMLO_W_OUT_STRIDE=" ++ toString sample_nchw_packed.wStride ++
        " -DMLO_N_DIN=" ++ toString sample_nchw_packed.n ++
        " -DMLO_C_DIN=" ++ toString sample_nchw_packed.c ++
        " -DMLO_H_DIN=" ++ toString sample_nchw_packed.h ++
        " -DMLO_W_DIN=" ++ toString sample_nchw_packed.w ++
        " -DMLO_N_DIN_STRIDE=" ++ toString sample_nchw_packed.nStride ++
        " -DMLO_C_DIN_STRIDE=" ++ toString sample_nchw_packed.cStride ++
        " -DMLO_H_DIN_STRIDE=" ++ toString sample_nchw_packed.hStride ++
        " -DMLO_W_DIN_STRIDE=" ++ toString sample_nchw_packed.wStride ++
        " -DMLO_N_DOUT=" ++ toString sample_nchw_packed.n ++
        " -DMLO_C_DOUT=" ++ toString sample_nchw_packed.c ++
        " -DMLO_H_DOUT=" ++ toString sample_nchw_packed.h ++
        " -DMLO_W_DOUT=" ++ toString sample_nchw_packed.w ++
        " -DMLO_N_DOUT_STRIDE=" ++ toString sample_nchw_packed.nStride ++
        " -DMLO_C_DOUT_STRIDE=" ++ toString sample_nchw_packed.cStride ++
        " -DMLO_H_DOUT_STRIDE=" ++ toString sample_nchw_packed.hStride ++
        " -DMLO_W_DOUT_STRIDE=" ++ toString sample_nchw_packed.wStride ++
        " -DMLO_IN_BLOCK_SZ=" ++ toString sample_nchw_strided.block_sz ++
        " -DMLO_OUT_BLOCK_SZ=" ++ toString sample_nchw_packed.block_sz ++
        " -DMLO_DIN_BLOCK_SZ=" ++ toString sample_nchw_packed.block_sz ++
        " -DMLO_DOUT_BLOCK_SZ=" ++ toString sample_nchw_packed.block_sz ∧
      (sample_activation.Forward sample_env Handle.empty (.val 1) sample_3d_strided 100
        (.val 0) sample_3d_packed 200 0 0).2.queue.map (fun p => p.1.params) =
        [sample_general_fwd_options] ∧
      (sample_activation.Backward sample_env Handle.empty (.val 1) sample_3d_packed 200
        sample_3d_packed 201 sample_3d_strided 100 (.val 0) sample_3d_packed 101
        0 0 0 0).2.queue.map (fun p => p.1.params) =
        [sample_general_bwd_options] :=
  C16_general_path_defines_all_four_tensors sample_env sample_activation Handle.empty (.val 1)
    (.val 0) sample_3d_packed sample_3d_packed sample_3d_strided sample_3d_packed 200 201 100 101
    0 0 0 0 sample_nchw_strided sample_nchw_packed sample_nchw_packed sample_nchw_packed
    (by decide) (by decide) (by decide) (by decide) (by decide) (by decide) (by decide)

/-- C17: for every request on the general path whose normalizations succeed, the
compile options of the registered kernel end with the four block sizes, each
written as ` -DMLO_<tensor>_BLOCK_SZ=` followed by the `int` product `C * H * W`
of the normalized non-batch extents of that tensor: `IN` from `xDesc` and `OUT`
from `yDesc`, in `Backward` also `DIN` from `dxDesc` and `DOUT` from `dyDesc`;
in `Forward` the block sizes of the two gradient tensors are written as 1.  The
`int` product is the product of the integers whenever `C * H` and `C * H * W`
are in the range of `int`. -/
theorem C17_general_path_block_sizes (env : Collaborators)
    (self : ActivationDescriptor) (handle : Handle) (alpha beta : FloatExpr)
    (yDesc dyDesc xDesc dxDesc : TensorDescriptor)
    (y dy x dx yOffset dyOffset xOffset dxOffset : Nat) (vIn vOut vDin vDout : NCHW)
    (ha : env.float_equal alpha 1 = true) (hb : env.float_equal beta 0 = true)
    (hf : fast_path_decision xDesc yDesc = .ok false)
    (hx : normalize4 xDesc msg_size = .ok vIn) (hy : normalize4 yDesc msg_size = .ok vOut)
    (hdx : normalize4 dxDesc msg_size = .ok vDin)
    (hdy : normalize4 dyDesc msg_size = .ok vDout) :
    (∃ kf kb argsf argsb,
      (self.Forward env handle alpha xDesc x beta yDesc y xOffset yOffset).2.queue =
        handle.queue ++ [(kf, argsf)] ∧
      kf.params =
        (env.mloConstruct (fwd_construct_params self xDesc vOut)).getCompilerOptions ++
        " -DMLO_N_IN=" ++ toString vIn.n ++ " -DMLO_C_IN=" ++ toString vIn.c ++
        " -DMLO_H_IN=" ++ toString vIn.h ++ " -DMLO_W_IN=" ++ toString vIn.w ++
        " -DMLO_N_IN_STRIDE=" ++ toString vIn.nStride ++
        " -DMLO_C_IN_STRIDE=" ++ toString vIn.cStride ++
        " -DMLO_H_IN_STRIDE=" ++ toString vIn.hStride ++
        " -DMLO_W_IN_STRIDE=" ++ toString vIn.wStride ++ " -DMLO_N_OUT=" ++ toString vOut.n ++
        " -DMLO_C_OUT=" ++ toString vOut.c ++ " -DMLO_H_OUT=" ++ toString vOut.h ++
        " -DMLO_W_OUT=" ++ toString vOut.w ++ " -DMLO_N_OUT_STRIDE=" ++ toString vOut.nStride ++
        " -DMLO_C_OUT_STRIDE=" ++ toString vOut.cStride ++
        " -DMLO_H_OUT_STRIDE=" ++ toString vOut.hStride ++
        " -DMLO_W_OUT_STRIDE=" ++ toString vOut.wStride ++
        " -DMLO_N_DIN=" ++ toString (1 : Int) ++ " -DMLO_C_DIN=" ++ toString (1 : Int) ++
        " -DMLO_H_DIN=" ++ toString (1 : Int) ++ " -DMLO_W_DIN=" ++ toString (1 : Int) ++
        " -DMLO_N_DIN_STRIDE=" ++ toString (1 : Int) ++
        " -DMLO_C_DIN_STRIDE=" ++ toString (1 : Int) ++
        " -DMLO_H_DIN_STRIDE=" ++ toString (1 : Int) ++
        " -DMLO_W_DIN_STRIDE=" ++ toString (1 : Int) ++ " -DMLO_N_DOUT=" ++ toString (1 : Int) ++
        " -DMLO_C_DOUT=" ++ toString (1 : Int) ++ " -DMLO_H_DOUT=" ++ toString (1 : Int) ++
        " -DMLO_W_DOUT=" ++ toString (1 : Int) ++ " -DMLO_N_DOUT_STRIDE=" ++ toString (1 : Int) ++
        " -DMLO_C_DOUT_STRIDE=" ++ toString (1 : Int) ++
        " -DMLO_H_DOUT_STRIDE=" ++ toString (1 : Int) ++
        " -DMLO_W_DOUT_STRIDE=" ++ toString (1 : Int) ++
        " -DMLO_IN_BLOCK_SZ=" ++ toString (int_mul (int_mul vIn.c vIn.h) vIn.w) ++
        " -DMLO_OUT_BLOCK_SZ=" ++ toString (int_mul (int_mul vOut.c vOut.h) vOut.w) ++
        " -DMLO_DIN_BLOCK_SZ=" ++ toString (1 : Int) ++
        " -DMLO_DOUT_BLOCK_SZ=" ++ toString (1 : Int) ∧
      (self.Backward env handle alpha yDesc y dyDesc dy xDesc x beta dxDesc dx
          yOffset dyOffset xOffset dxOffset).2.queue = handle.queue ++ [(kb, argsb)] ∧
      kb.params =
        (env.mloConstruct (bwd_construct_params self dyDesc yDesc dxDesc xDesc)).getCompilerOptions ++
        " -DMLO_N_IN=" ++ toString vIn.n ++ " -DMLO_C_IN=" ++ toString vIn.c ++
        " -DMLO_H_IN=" ++ toString vIn.h ++ " -DMLO_W_IN=" ++ toString vIn.w ++
        " -DMLO_N_IN_STRIDE=" ++ toString vIn.nStride ++
        " -DMLO_C_IN_STRIDE=" ++ toString vIn.cStride ++
        " -DMLO_H_IN_STRIDE=" ++ toString vIn.hStride ++
        " -DMLO_W_IN_STRIDE=" ++ toString vIn.wStride ++ " -DMLO_N_OUT=" ++ toString vOut.n ++
        " -DMLO_C_OUT=" ++ toString vOut.c ++ " -DMLO_H_OUT=" ++ toString vOut.h ++
        " -DMLO_W_OUT=" ++ toString vOut.w ++ " -DMLO_N_OUT_STRIDE=" ++ toString vOut.nStride ++
        " -DMLO_C_OUT_STRIDE=" ++ toString vOut.cStride ++
        " -DMLO_H_OUT_STRIDE=" ++ toString vOut.hStride ++
        " -DMLO_W_OUT_STRIDE=" ++ toString vOut.wStride ++ " -DMLO_N_DIN=" ++ toString vDin.n ++
        " -DMLO_C_DIN=" ++ toString vDin.c ++ " -DMLO_H_DIN=" ++ toString vDin.h ++
        " -DMLO_W_DIN=" ++ toString vDin.w ++ " -DMLO_N_DIN_STRIDE=" ++ toString vDin.nStride ++
        " -DMLO_C_DIN_STRIDE=" ++ toString vDin.cStride ++
        " -DMLO_H_DIN_STRIDE=" ++ toString vDin.hStride ++
        " -DMLO_W_DIN_STRIDE=" ++ toString vDin.wStride ++ " -DMLO_N_DOUT=" ++ toString vDout.n ++
        " -DMLO_C_DOUT=" ++ toString vDout.c ++ " -DMLO_H_DOUT=" ++ toString vDout.h ++
        " -DMLO_W_DOUT=" ++ toString vDout.w ++
        " -DMLO_N_DOUT_STRIDE=" ++ toString vDout.nStride ++
        " -DMLO_C_DOUT_STRIDE=" ++ toString vDout.cStride ++
        " -DMLO_H_DOUT_STRIDE=" ++ toString vDout.hStride ++
        " -DMLO_W_DOUT_STRIDE=" ++ toString vDout.wStride ++
        " -DMLO_IN_BLOCK_SZ=" ++ toString (int_mul (int_mul vIn.c vIn.h) vIn.w) ++
        " -DMLO_OUT_BLOCK_SZ=" ++ toString (int_mul (int_mul vOut.c vOut.h) vOut.w) ++
        " -DMLO_DIN_BLOCK_SZ=" ++ toString (int_mul (int_mul vDin.c vDin.h) vDin.w) ++
        " -DMLO_DOUT_BLOCK_SZ=" ++ toString (int_mul (int_mul vDout.c vDout.h) vDout.w)) ∧
    (∀ c h w : Int, -2147483648 ≤ c * h → c * h < 2147483648 →
      -2147483648 ≤ c * h * w → c * h * w < 2147483648 →
      int_mul (int_mul c h) w = c * h * w) := by
  refine ⟨⟨fwd_general_kernel env self xDesc vIn vOut,
    bwd_general_kernel env self dyDesc yDesc dxDesc xDesc vIn vOut vDin vDout,
    fwd_general_args env self xDesc vOut x y xOffset yOffset,
    bwd_general_args self dx dy x y dxOffset dyOffset xOffset yOffset, ?_, ?_, ?_, ?_⟩, ?_⟩
  · rw [Forward_general env self handle alpha beta xDesc yDesc x y xOffset yOffset ha hb hf
      vIn vOut hy (normalize4_ok_msg _ _ _ _ hx)]
    exact Handle.launch_queue _ _ _ _ _
  · exact render_general_defines _ vIn vOut NCHW.ones NCHW.ones vIn.block_sz vOut.block_sz 1 1
  · rw [Backward_general env self handle alpha beta yDesc dyDesc xDesc dxDesc y dy x dx
      yOffset dyOffset xOffset dxOffset ha hb hf vIn vOut vDin vDout hdy
      (normalize4_ok_msg _ _ _ _ hy) (normalize4_ok_msg _ _ _ _ hdx)
      (normalize4_ok_msg _ _ _ _ hx)]
    exact Handle.launch_queue _ _ _ _ _
  · exact render_general_defines _ vIn vOut vDin vDout vIn.block_sz vOut.block_sz
      vDin.block_sz vDout.block_sz
  · intro c h w h1 h2 h3 h4
    rw [int_mul_of_range c h h1 h2, int_mul_of_range (c * h) w h3 h4]

/-- C17 at a concrete request: a strided `[4,4,4]` input and packed `[4,4,4]`
output and gradients. -/
theorem C17_general_path_block_sizes_witness :
    (∃ kf kb argsf argsb,
      (sample_activation.Forward sample_env Handle.empty (.val 1) sample_3d_strided 100 (.val 0) sample_3d_packed 200 0 0).2.queue =
        Handle.empty.queue ++ [(kf, argsf)] ∧
      kf.params =
        (sample_env.mloConstruct (fwd_construct_params sample_activation sample_3d_strided sample_nchw_packed)).getCompilerOptions ++
        " -DMLO_N_IN=" ++ toString sample_nchw_strided.n ++
        " -DMLO_C_IN=" ++ toString sample_nchw_strided.c ++
        " -DMLO_H_IN=" ++ toString sample_nchw_strided.h ++
        " -DMLO_W_IN=" ++ toString sample_nchw_strided.w ++
        " -DMLO_N_IN_STRIDE=" ++ toString sample_nchw_strided.nStride ++
        " -DMLO_C_IN_STRIDE=" ++ toString sample_nchw_strided.cStride ++
        " -DMLO_H_IN_STRIDE=" ++ toString sample_nchw_strided.hStride ++
        " -DMLO_W_IN_STRIDE=" ++ toString sample_nchw_strided.wStride ++
        " -DMLO_N_OUT=" ++ toString sample_nchw_packed.n ++
        " -DMLO_C_OUT=" ++ toString sample_nchw_packed.c ++
        " -DMLO_H_OUT=" ++ toString sample_nchw_packed.h ++
        " -DMLO_W_OUT=" ++ toString sample_nchw_packed.w ++
        " -DMLO_N_OUT_STRIDE=" ++ toString sample_nchw_packed.nStride ++
        " -DMLO_C_OUT_STRIDE=" ++ toString sample_nchw_packed.cStride ++
        " -DMLO_H_OUT_STRIDE=" ++ toString sample_nchw_packed.hStride ++
        " -DMLO_W_OUT_STRIDE=" ++ toString sample_nchw_packed.wStride ++
        " -DMLO_N_DIN=" ++ toString (1 : Int) ++ " -DMLO_C_DIN=" ++ toString (1 : Int) ++
        " -DMLO_H_DIN=" ++ toString (1 : Int) ++ " -DMLO_W_DIN=" ++ toString (1 : Int) ++
        " -DMLO_N_DIN_STRIDE=" ++ toString (1 : Int) ++
        " -DMLO_C_DIN_STRIDE=" ++ toString (1 : Int) ++
        " -DMLO_H_DIN_STRIDE=" ++ toString (1 : Int) ++
        " -DMLO_W_DIN_STRIDE=" ++ toString (1 : Int) ++ " -DMLO_N_DOUT=" ++ toString (1 : Int) ++
        " -DMLO_C_DOUT=" ++ toString (1 : Int) ++ " -DMLO_H_DOUT=" ++ toString (1 : Int) ++
        " -DMLO_W_DOUT=" ++ toString (1 : Int) ++ " -DMLO_N_DOUT_STRIDE=" ++ toString (1 : Int) ++
        " -DMLO_C_DOUT_STRIDE=" ++ toString (1 : Int) ++
        " -DMLO_H_DOUT_STRIDE=" ++ toString (1 : Int) ++
        " -DMLO_W_DOUT_STRIDE=" ++ toString (1 : Int) ++
        " -DMLO_IN_BLOCK_SZ=" ++ toString (int_mul (int_mul sample_nchw_strided.c sample_nchw_strided.h) sample_nchw_strided.w) ++
        " -DMLO_OUT_BLOCK_SZ=" ++ toString (int_mul (int_mul sample_nchw_packed.c sample_nchw_packed.h) sample_nchw_packed.w) ++
        " -DMLO_DIN_BLOCK_SZ=" ++ toString (1 : Int) ++
        " -DMLO_DOUT_BLOCK_SZ=" ++ toString (1 : Int) ∧
      (sample_activation.Backward sample_env Handle.empty (.val 1) sample_3d_packed 200 sample_3d_packed 201 sample_3d_strided 100 (.val 0) sample_3d_packed 101
          0 0 0 0).2.queue = Handle.empty.queue ++ [(kb, argsb)] ∧
      kb.params =
        (sample_env.mloConstruct (bwd_construct_params sample_activation sample_3d_packed sample_3d_packed sample_3d_packed sample_3d_strided)).getCompilerOptions ++
        " -DMLO_N_IN=" ++ toString sample_nchw_strided.n ++
        " -DMLO_C_IN=" ++ toString sample_nchw_strided.c ++
        " -DMLO_H_IN=" ++ toString sample_nchw_strided.h ++
        " -DMLO_W_IN=" ++ toString sample_nchw_strided.w ++
        " -DMLO_N_IN_STRIDE=" ++ toString sample_nchw_strided.nStride ++
        " -DMLO_C_IN_STRIDE=" ++ toString sample_nchw_strided.cStride ++
        " -DMLO_H_IN_STRIDE=" ++ toString sample_nchw_strided.hStride ++
        " -DMLO_W_IN_STRIDE=" ++ toString sample_nchw_strided.wStride ++
        " -DMLO_N_OUT=" ++ toString sample_nchw_packed.n ++
        " -DMLO_C_OUT=" ++ toString sample_nchw_packed.c ++
        " -DMLO_H_OUT=" ++ toString sample_nchw_packed.h ++
        " -DMLO_W_OUT=" ++ toString sample_nchw_packed.w ++
        " -DMLO_N_OUT_STRIDE=" ++ toString sample_nchw_packed.nStride ++
        " -DMLO_C_OUT_STRIDE=" ++ toString sample_nchw_packed.cStride ++
        " -DMLO_H_OUT_STRIDE=" ++ toString sample_nchw_packed.hStride ++
        " -DMLO_W_OUT_STRIDE=" ++ toString sample_nchw_packed.wStride ++
        " -DMLO_N_DIN=" ++ toString sample_nchw_packed.n ++
        " -DMLO_C_DIN=" ++ toString sample_nchw_packed.c ++
        " -DMLO_H_DIN=" ++ toString sample_nchw_packed.h ++
        " -DMLO_W_DIN=" ++ toString sample_nchw_packed.w ++
        " -DMLO_N_DIN_STRIDE=" ++ toString sample_nchw_packed.nStride ++
        " -DMLO_C_DIN_STRIDE=" ++ toString sample_nchw_packed.cStride ++
        " -DMLO_H_DIN_STRIDE=" ++ toString sample_nchw_packed.hStride ++
        " -DMLO_W_DIN_STRIDE=" ++ toString sample_nchw_packed.wStride ++
        " -DMLO_N_DOUT=" ++ toString sample_nchw_packed.n ++
        " -DMLO_C_DOUT=" ++ toString sample_nchw_packed.c ++
        " -DMLO_H_DOUT=" ++ toString sample_nchw_packed.h ++
        " -DMLO_W_DOUT=" ++ toString sample_nchw_packed.w ++
        " -DMLO_N_DOUT_STRIDE=" ++ toString sample_nchw_packed.nStride ++
        " -DMLO_C_DOUT_STRIDE=" ++ toString sample_nchw_packed.cStride ++
        " -DMLO_H_DOUT_STRIDE=" ++ toString sample_nchw_packed.hStride ++
        " -DMLO_W_DOUT_STRIDE=" ++ toString sample_nchw_packed.wStride ++
        " -DMLO_IN_BLOCK_SZ=" ++ toString (int_mul (int_mul sample_nchw_strided.c sample_nchw_strided.h) sample_nchw_strided.w) ++
        " -DMLO_OUT_BLOCK_SZ=" ++ toString (int_mul (int_mul sample_nchw_packed.c sample_nchw_packed.h) sample_nchw_packed.w) ++
        " -DMLO_DIN_BLOCK_SZ=" ++ toString (int_mul (int_mul sample_nchw_packed.c sample_nchw_packed.h) sample_nchw_packed.w) ++
        " -DMLO_DOUT_BLOCK_SZ=" ++ toString (int_mul (int_mul sample_nchw_packed.c sample_nchw_packed.h) sample_nchw_packed.w)) ∧
    (∀ c h w : Int, -2147483648 ≤ c * h → c * h < 2147483648 →
      -2147483648 ≤ c * h * w → c * h * w < 2147483648 →
      int_mul (int_mul c h) w = c * h * w) :=
  C17_general_path_block_sizes sample_env sample_activation Handle.empty (.val 1)
    (.val 0) sample_3d_packed sample_3d_packed sample_3d_strided sample_3d_packed 200 201 100 101
    0 0 0 0 sample_nchw_strided sample_nchw_packed sample_nchw_packed sample_nchw_packed
    (by decide) (by decide) (by decide) (by decide) (by decide) (by decide) (by decide)

/-- C18 (evaluation of the code where it departs from the claim): the 4-axis
input of extents `[4,4,4,4]` and strides `[128,16,4,1]` is not packed (axis 0
has stride 128, the product of the extents of axes 1..3 is 64), the output of
the same extents is packed and has the same element count, and yet the fast
path is selected: `Forward` registers and invokes the lite kernel. -/
theorem C18_unpacked_outer_axis_takes_fast_path :
    ¬ spec_fully_packed sample_4d_outer.strides sample_4d_outer.lens ∧
    spec_fully_packed sample_4d_packed.strides sample_4d_packed.lens ∧
    sample_4d_outer.GetElementSize = sample_4d_packed.GetElementSize ∧
    fast_path_decision sample_4d_outer sample_4d_packed = .ok true ∧
    (sample_activation.Forward sample_env Handle.empty (.val 1) sample_4d_outer 100 (.val 0)
      sample_4d_packed 200 0 0).2.queue.map (fun p => p.1.kernel_name) =
      ["MIOpenActiveFwdLite"] := by
  decide

/-- C19 (the claim fails as stated): on the fast path a packed tensor of 17
elements is launched with the global size `(17, 1, 1)` and the local size
`(256, 1, 1)`, and 17 is not a multiple of 256. -/
theorem C19_global_not_multiple_of_local_counterexample :
    fast_path_decision (sample_1d 17) (sample_1d 17) = .ok true ∧
    (sample_activation.Forward sample_env Handle.empty (.val 1) (sample_1d 17) 100 (.val 0)
      (sample_1d 17) 200 0 0).2.queue.map (fun p => (p.1.vld, p.1.vgd)) =
      [([256, 1, 1], [17, 1, 1])] ∧
    ¬ (256 ∣ 17) := by
  decide

/-- C19 (amended): for every request that takes the fast path, in `Forward` and
in `Backward`, the local work size is `(256, 1, 1)` and the global work size is
`(T / w, 1, 1)`, with `T` the element count of the input and `w` the read
width: the second and third components of both sizes are 1, and the leading
global component is a multiple of 256 exactly when `256 * w` divides `T`. -/
theorem C19_fast_path_work_sizes (env : Collaborators) (self : ActivationDescriptor)
    (handle : Handle) (alpha beta : FloatExpr) (yDesc dyDesc xDesc dxDesc : TensorDescriptor)
    (y dy x dx yOffset dyOffset xOffset dxOffset : Nat)
    (ha : env.float_equal alpha 1 = true) (hb : env.float_equal beta 0 = true)
    (hf : fast_path_decision xDesc yDesc = .ok true) :
    ∃ kf kb argsf argsb,
      (self.Forward env handle alpha xDesc x beta yDesc y xOffset yOffset).2.queue =
        handle.queue ++ [(kf, argsf)] ∧
      (self.Backward env handle alpha yDesc y dyDesc dy xDesc x beta dxDesc dx
        yOffset dyOffset xOffset dxOffset).2.queue = handle.queue ++ [(kb, argsb)] ∧
      kf.vld = [256, 1, 1] ∧ kb.vld = [256, 1, 1] ∧
      kf.vgd = [xDesc.GetElementSize / read_unit xDesc.GetElementSize, 1, 1] ∧
      kb.vgd = [xDesc.GetElementSize / read_unit xDesc.GetElementSize, 1, 1] ∧
      (256 ∣ xDesc.GetElementSize / read_unit xDesc.GetElementSize ↔
        256 * read_unit xDesc.GetElementSize ∣ xDesc.GetElementSize) := by
  refine ⟨fwd_lite_kernel self xDesc, bwd_lite_kernel self xDesc, fwd_lite_args self x y,
    bwd_lite_args self dx dy x y, ?_, ?_, rfl, rfl, rfl, rfl, ?_⟩
  · rw [Forward_fast env self handle alpha beta xDesc yDesc x y xOffset yOffset ha hb hf]
    exact Handle.launch_queue _ _ _ _ _
  · rw [Backward_fast env self handle alpha beta yDesc dyDesc xDesc dxDesc y dy x dx
      yOffset dyOffset xOffset dxOffset ha hb hf]
    exact Handle.launch_queue _ _ _ _ _
  · obtain ⟨q, hq⟩ := read_unit_dvd xDesc.GetElementSize
    have hpos := read_unit_pos xDesc.GetElementSize
    generalize read_unit xDesc.GetElementSize = w at hq hpos
    rw [hq, Nat.mul_div_cancel_left q hpos, Nat.mul_comm 256 w]
    exact (Nat.mul_dvd_mul_iff_left hpos).symm

/-- C19 (amended) at a concrete request: two packed `[8,8]` float tensors. -/
theorem C19_fast_path_work_sizes_witness :
    ∃ kf kb argsf argsb,
      (sample_activation.Forward sample_env Handle.empty (.val 1) (sample_2d 8 8) 100 (.val 0)
        (sample_2d 8 8) 200 0 0).2.queue = Handle.empty.queue ++ [(kf, argsf)] ∧
      (sample_activation.Backward sample_env Handle.empty (.val 1) (sample_2d 8 8) 200
        (sample_2d 8 8) 201 (sample_2d 8 8) 100 (.val 0) (sample_2d 8 8) 101
        0 0 0 0).2.queue = Handle.empty.queue ++ [(kb, argsb)] ∧
      kf.vld = [256, 1, 1] ∧ kb.vld = [256, 1, 1] ∧
      kf.vgd = [(sample_2d 8 8).GetElementSize / read_unit (sample_2d 8 8).GetElementSize,
        1, 1] ∧
      kb.vgd = [(sample_2d 8 8).GetElementSize / read_unit (sample_2d 8 8).GetElementSize,
        1, 1] ∧
      (256 ∣ (sample_2d 8 8).GetElementSize / read_unit (sample_2d 8 8).GetElementSize ↔
        256 * read_unit (sample_2d 8 8).GetElementSize ∣ (sample_2d 8 8).GetElementSize) :=
  C19_fast_path_work_sizes sample_env sample_activation Handle.empty (.val 1) (.val 0)
    (sample_2d 8 8) (sample_2d 8 8) (sample_2d 8 8) (sample_2d 8 8) 200 201 100 101 0 0 0 0
    (by decide) (by decide) (by decide)

/-- C20 (the claim fails as stated): a `Forward` request on an input of 4
elements and an output of 8 elements does not fail; it goes to the general
path, registers one kernel and invokes it. -/
theorem C20_count_mismatch_does_not_fail_counterexample :
    (sample_1d 4).GetElementSize ≠ (sample_1d 8).GetElementSize ∧
    (sample_activation.Forward sample_env Handle.empty (.val 1) (sample_1d 4) 100 (.val 0)
      (sample_1d 8) 200 0 0).1 = .ok () ∧
    (sample_activation.Forward sample_env Handle.empty (.val 1) (sample_1d 4) 100 (.val 0)
      (sample_1d 8) 200 0 0).2.added.length = 1 ∧
    (sample_activation.Forward sample_env Handle.empty (.val 1) (sample_1d 4) 100 (.val 0)
      (sample_1d 8) 200 0 0).2.queue.length = 1 := by
  decide

/-- C20 (amended): for every `Forward` request with `alpha = 1` and `beta = 0` in
which the input and the output (of rank at least 1, with as many strides as
extents) have different element counts, the fast path is not taken; when the
ranks of both tensors are at most 4 the request succeeds on the general path,
registering and invoking one kernel, and otherwise it fails with a thrown rank
error and the handle is as it was. -/
theorem C20_count_mismatch_takes_general_path (env : Collaborators)
    (self : ActivationDescriptor) (handle : Handle) (alpha beta : FloatExpr)
    (xDesc yDesc : TensorDescriptor) (x y xOffset yOffset : Nat)
    (ha : env.float_equal alpha 1 = true) (hb : env.float_equal beta 0 = true)
    (hsx : xDesc.strides.length = xDesc.lens.length) (hrx : 1 ≤ xDesc.lens.length)
    (hsy : yDesc.strides.length = yDesc.lens.length) (hry : 1 ≤ yDesc.lens.length)
    (hne : xDesc.GetElementSize ≠ yDesc.GetElementSize) :
    fast_path_decision xDesc yDesc = .ok false ∧
    (yDesc.GetSize ≤ 4 ∧ xDesc.GetSize ≤ 4 →
      ∃ k args, self.Forward env handle alpha xDesc x beta yDesc y xOffset yOffset =
        (.ok (), handle.launch forward_name (env.mloBuildConf_Key (mlo_construct_neuron.new 1))
          k args) ∧
        (handle.launch forward_name (env.mloBuildConf_Key (mlo_construct_neuron.new 1))
          k args).queue = handle.queue ++ [(k, args)]) ∧
    (¬ (yDesc.GetSize ≤ 4 ∧ xDesc.GetSize ≤ 4) →
      ∃ m, self.Forward env handle alpha xDesc x beta yDesc y xOffset yOffset =
        (.error (.thrown m), handle)) := by
  have hf := fast_path_decision_of_count_ne xDesc yDesc hsx hrx hsy hry hne
  refine ⟨hf, ?_, ?_⟩
  · rintro ⟨hy4, hx4⟩
    obtain ⟨vOut, hvOut, _⟩ := normalize4_good_rank yDesc msg_size hry hy4 hsy
    obtain ⟨vIn, hvIn, _⟩ := normalize4_good_rank xDesc msg_dimension hrx hx4 hsx
    exact ⟨_, _, Forward_general env self handle alpha beta xDesc yDesc x y xOffset yOffset
      ha hb hf vIn vOut hvOut hvIn, Handle.launch_queue _ _ _ _ _⟩
  · intro hbad
    by_cases hy4 : yDesc.GetSize ≤ 4
    · have hx4 : ¬ (1 ≤ xDesc.lens.length ∧ xDesc.lens.length ≤ 4) :=
        fun h => hbad ⟨hy4, h.2⟩
      obtain ⟨vOut, hvOut, _⟩ := normalize4_good_rank yDesc msg_size hry hy4 hsy
      exact ⟨_, Forward_general_fails_x env self handle alpha beta xDesc yDesc x y xOffset
        yOffset ha hb hf vOut _ hvOut (normalize4_bad_rank xDesc msg_dimension hx4)⟩
    · have hy : ¬ (1 ≤ yDesc.lens.length ∧ yDesc.lens.length ≤ 4) := fun h => hy4 h.2
      exact ⟨_, Forward_general_fails_y env self handle alpha beta xDesc yDesc x y xOffset
        yOffset ha hb hf _ (normalize4_bad_rank yDesc msg_size hy)⟩

/-- C20 (amended) at a concrete request: 4 elements in, 8 elements out. -/
theorem C20_count_mismatch_takes_general_path_witness :
    fast_path_decision (sample_1d 4) (sample_1d 8) = .ok false ∧
    ((sample_1d 8).GetSize ≤ 4 ∧ (sample_1d 4).GetSize ≤ 4 →
      ∃ k args, sample_activation.Forward sample_env Handle.empty (.val 1) (sample_1d 4) 100
          (.val 0) (sample_1d 8) 200 0 0 =
        (.ok (), Handle.empty.launch forward_name
          (sample_env.mloBuildConf_Key (mlo_construct_neuron.new 1)) k args) ∧
        (Handle.empty.launch forward_name
          (sample_env.mloBuildConf_Key (mlo_construct_neuron.new 1)) k args).queue =
          Handle.empty.queue ++ [(k, args)]) ∧
    (¬ ((sample_1d 8).GetSize ≤ 4 ∧ (sample_1d 4).GetSize ≤ 4) →
      ∃ m, sample_activation.Forward sample_env Handle.empty (.val 1) (sample_1d 4) 100
          (.val 0) (sample_1d 8) 200 0 0 = (.error (.thrown m), Handle.empty)) :=
  C20_count_mismatch_takes_general_path sample_env sample_activation Handle.empty (.val 1)
    (.val 0) (sample_1d 4) (sample_1d 8) 100 200 0 0 (by decide) (by decide) (by decide)
    (by decide) (by decide) (by decide) (by decide)


/-! ## The frame of the source normalizer -/

namespace tempfix_v2

/-- The text after the sweep is the text of the pieces after the normalizer. -/
theorem pieces_after_cut (ps : List (List Char × List Char)) (k : Nat) (s : List Char) :
    pieces_after (cut ps k s) = replace_every ps k s := by
  induction s generalizing k with
  | nil => simp [cut, replace_every, pieces_after]
  | cons c cs ih =>
    cases k with
    | succ k => simpa [cut, replace_every] using ih k
    | zero =>
      simp only [cut, replace_every]
      cases ps.find? (fun pr => pr.1.isPrefixOf (c :: cs)) with
      | none => simp [pieces_after, Piece.after, ih]
      | some pr => simp [pieces_after, Piece.after, ih]

/-- The pieces, before the normalizer, make up the text that was cut. -/
theorem pieces_before_cut (ps : List (List Char × List Char)) (hps : ∀ pr ∈ ps, pr.1 ≠ [])
    (k : Nat) (s : List Char) : pieces_before (cut ps k s) = s.drop k := by
  induction s generalizing k with
  | nil => simp [cut, pieces_before]
  | cons c cs ih =>
    cases k with
    | succ k => simpa [cut] using ih k
    | zero =>
      simp only [cut]
      cases hfind : ps.find? (fun pr => pr.1.isPrefixOf (c :: cs)) with
      | none => simp [pieces_before, Piece.before, ih]
      | some pr =>
        have hmem : pr ∈ ps := List.mem_of_find?_eq_some hfind
        have hpre : pr.1 <+: c :: cs := by simpa using List.find?_some hfind
        obtain ⟨t, ht⟩ := hpre
        obtain ⟨p, r⟩ := pr
        cases p with
        | nil => exact absurd rfl (hps _ hmem)
        | cons a p =>
          simp only [List.cons_append, List.cons.injEq] at ht
          simp only [pieces_before, Piece.before, ih, List.length_cons, Nat.add_sub_cancel,
            List.drop_zero, List.cons_append, List.cons.injEq]
          refine ⟨ht.1, ?_⟩
          rw [← ht.2]
          simp

/-- Every matched occurrence among the pieces is a pair of the sweep. -/
theorem hit_mem_cut (ps : List (List Char × List Char)) (k : Nat) (s : List Char)
    (target replacement : List Char) (h : Piece.hit target replacement ∈ cut ps k s) :
    (target, replacement) ∈ ps := by
  induction s generalizing k with
  | nil => simp [cut] at h
  | cons c cs ih =>
    cases k with
    | succ k => exact ih k (by simpa [cut] using h)
    | zero =>
      simp only [cut] at h
      cases hfind : ps.find? (fun pr => pr.1.isPrefixOf (c :: cs)) with
      | none =>
        rw [hfind] at h
        simp only [List.mem_cons] at h
        rcases h with h | h
        · cases h
        · exact ih 0 h
      | some pr =>
        rw [hfind] at h
        simp only [List.mem_cons] at h
        rcases h with h | h
        · cases h
          exact List.mem_of_find?_eq_some hfind
        · exact ih _ h

end tempfix_v2

/-- C22: every kernel-source text that contains none of the six targets is
returned unchanged by `set_offsets_to_uint`; and every text is made of pieces,
each one character or one occurrence of a target, such that the output is made
of the same pieces in the same order with the characters kept and each
occurrence rewritten to its replacement.  A text with offsets declared without
the leading `const` and with `const` declarations of other parameters is
returned unchanged, and in a text with two targets only these are rewritten. -/
theorem C22_set_offsets_to_uint_preserves_other_text :
    (∀ s : String, (∀ pr ∈ tempfix_v2.spec_targets, ¬ pr.1 <:+: s.toList) →
      tempfix_v2.set_offsets_to_uint s = s) ∧
    (∀ s : String,
      tempfix_v2.pieces_before (tempfix_v2.cut tempfix_v2.spec_targets 0 s.toList) = s.toList ∧
      tempfix_v2.pieces_after (tempfix_v2.cut tempfix_v2.spec_targets 0 s.toList) =
        (tempfix_v2.set_offsets_to_uint s).toList ∧
      (∀ target replacement,
        tempfix_v2.Piece.hit target replacement ∈
            tempfix_v2.cut tempfix_v2.spec_targets 0 s.toList →
          (target, replacement) ∈ tempfix_v2.spec_targets)) ∧
    tempfix_v2.set_offsets_to_uint tempfix_v2.sample_untouched = tempfix_v2.sample_untouched ∧
    tempfix_v2.set_offsets_to_uint tempfix_v2.sample_source =
      "(const unsigned a_offset, size_t b_offset, const unsigned c_offset, float beta)" := by
  have hgood : tempfix_v2.Good tempfix_v2.spec_targets :=
    tempfix_v2.passes_eq_spec_targets ▸ tempfix_v2.good_passes
  have hout : ∀ s : String, (tempfix_v2.set_offsets_to_uint s).toList =
      tempfix_v2.run_passes tempfix_v2.spec_targets s.toList := by
    intro s
    rw [← tempfix_v2.passes_eq_spec_targets]
    rfl
  refine ⟨fun s hs => ?_, fun s => ⟨?_, ?_, ?_⟩, by decide, by decide⟩
  · have h := hout s
    rw [tempfix_v2.run_passes_of_absent _ _ hs] at h
    exact String.ext h
  · simpa using tempfix_v2.pieces_before_cut _ hgood.1 0 s.toList
  · rw [hout, tempfix_v2.pieces_after_cut,
      tempfix_v2.run_passes_eq_replace_every _ hgood]
  · exact fun target replacement h => tempfix_v2.hit_mem_cut _ _ _ _ _ h

/-! ## Claims about ranks, the parameter string and the packedness test -/

/-- C21 (the claim fails as stated): a `Forward` request whose input and output
are the packed tensor of five axes `[2,2,2,2,2]` does not fail; the fast path
takes it, registers the lite kernel and invokes it. -/
theorem C21_rank5_packed_request_succeeds_counterexample :
    sample_5d.GetSize = 5 ∧
    (sample_activation.Forward sample_env Handle.empty (.val 1) sample_5d 100 (.val 0)
      sample_5d 200 0 0).1 = .ok () ∧
    (sample_activation.Forward sample_env Handle.empty (.val 1) sample_5d 100 (.val 0)
      sample_5d 200 0 0).2.added.map (fun r => r.kernel.kernel_name) =
      ["MIOpenActiveFwdLite"] ∧
    (sample_activation.Forward sample_env Handle.empty (.val 1) sample_5d 100 (.val 0)
      sample_5d 200 0 0).2.queue.length = 1 := by
  decide

/-- C21 (amended): for every `Forward` request with `alpha = 1` and `beta = 0`
(descriptors with as many strides as extents), when the fast-path test rejects
the request and the input or the output has more than 4 axes, `Forward` fails
with a thrown rank error and leaves the handle as it was, so that no kernel is
registered or invoked; when the fast-path test accepts the request, `Forward`
registers and invokes the lite kernel whatever the ranks are; and for tensors
of rank at least 1 the test does give an answer. -/
theorem C21_rank_above_4_fails_on_general_path (env : Collaborators)
    (self : ActivationDescriptor) (handle : Handle) (alpha beta : FloatExpr)
    (xDesc yDesc : TensorDescriptor) (x y xOffset yOffset : Nat)
    (ha : env.float_equal alpha 1 = true) (hb : env.float_equal beta 0 = true)
    (hsx : xDesc.strides.length = xDesc.lens.length)
    (hsy : yDesc.strides.length = yDesc.lens.length) :
    (fast_path_decision xDesc yDesc = .ok false → (4 < xDesc.GetSize ∨ 4 < yDesc.GetSize) →
      ∃ m, (m = msg_size ∨ m = msg_dimension) ∧
        self.Forward env handle alpha xDesc x beta yDesc y xOffset yOffset =
          (.error (.thrown m), handle)) ∧
    (fast_path_decision xDesc yDesc = .ok true →
      self.Forward env handle alpha xDesc x beta yDesc y xOffset yOffset =
        (.ok (), handle.launch forward_name (env.mloBuildConf_Key (mlo_construct_neuron.new 1))
          (fwd_lite_kernel self xDesc) (fwd_lite_args self x y))) ∧
    (1 ≤ xDesc.GetSize → 1 ≤ yDesc.GetSize → ∃ b, fast_path_decision xDesc yDesc = .ok b) := by
  refine ⟨fun hf hrank => ?_, fun hf => Forward_fast env self handle alpha beta xDesc yDesc x y
    xOffset yOffset ha hb hf, fun hrx hry => ?_⟩
  · by_cases hy : 1 ≤ yDesc.lens.length ∧ yDesc.lens.length ≤ 4
    · have hx : ¬ (1 ≤ xDesc.lens.length ∧ xDesc.lens.length ≤ 4) := by
        rcases hrank with h | h
        · exact fun hx => absurd hx.2 (by simpa [TensorDescriptor.GetSize] using h)
        · exact fun _ => absurd hy.2 (by simpa [TensorDescriptor.GetSize] using h)
      obtain ⟨vOut, hvOut, _⟩ := normalize4_good_rank yDesc msg_size hy.1 hy.2 hsy
      exact ⟨msg_dimension, Or.inr rfl, Forward_general_fails_x env self handle alpha beta xDesc
        yDesc x y xOffset yOffset ha hb hf vOut _ hvOut
        (normalize4_bad_rank xDesc msg_dimension hx)⟩
    · exact ⟨msg_size, Or.inl rfl, Forward_general_fails_y env self handle alpha beta xDesc
        yDesc x y xOffset yOffset ha hb hf _ (normalize4_bad_rank yDesc msg_size hy)⟩
  · obtain ⟨px, hx⟩ := IsPackedTensor_total _ _ hsx hrx
    obtain ⟨py, hy⟩ := IsPackedTensor_total _ _ hsy hry
    exact ⟨_, fast_path_decision_eq xDesc yDesc px py hx (fun _ => hy)⟩

/-- C21 (amended) at a concrete request: a packed input of five axes and 32
elements, an output of one axis and 4 elements. -/
theorem C21_rank_above_4_fails_on_general_path_witness :
    (fast_path_decision sample_5d (sample_1d 4) = .ok false →
      (4 < sample_5d.GetSize ∨ 4 < (sample_1d 4).GetSize) →
      ∃ m, (m = msg_size ∨ m = msg_dimension) ∧
        sample_activation.Forward sample_env Handle.empty (.val 1) sample_5d 100 (.val 0)
          (sample_1d 4) 200 0 0 = (.error (.thrown m), Handle.empty)) ∧
    (fast_path_decision sample_5d (sample_1d 4) = .ok true →
      sample_activation.Forward sample_env Handle.empty (.val 1) sample_5d 100 (.val 0)
          (sample_1d 4) 200 0 0 =
        (.ok (), Handle.empty.launch forward_name
          (sample_env.mloBuildConf_Key (mlo_construct_neuron.new 1))
          (fwd_lite_kernel sample_activation sample_5d) (fwd_lite_args sample_activation 100 200))) ∧
    (1 ≤ sample_5d.GetSize → 1 ≤ (sample_1d 4).GetSize →
      ∃ b, fast_path_decision sample_5d (sample_1d 4) = .ok b) :=
  C21_rank_above_4_fails_on_general_path sample_env sample_activation Handle.empty (.val 1)
    (.val 0) sample_5d (sample_1d 4) 100 200 0 0 (by decide) (by decide) (by decide) (by decide)

/-- C23: for every request on the fast path, in `Forward` and in `Backward`, the
compile options of the registered kernel are `-DLITE`, then `MLO_READ_UNIT`
with the chosen read width `w`, then `MLO_READ_TYPE` with `_FLOAT` when `w = 1`
and `_FLOAT` followed by `w` otherwise, then `MLO_NRN_OP_ID` with the mode of
the request, then the precision selector: `FP16=0`, `FP32=1` when the input
datatype is 32-bit float, `FP16=1`, `FP32=0` when it is half, and nothing for
another datatype. -/
theorem C23_fast_path_parameter_string (env : Collaborators) (self : ActivationDescriptor)
    (handle : Handle) (alpha beta : FloatExpr) (yDesc dyDesc xDesc dxDesc : TensorDescriptor)
    (y dy x dx yOffset dyOffset xOffset dxOffset : Nat)
    (ha : env.float_equal alpha 1 = true) (hb : env.float_equal beta 0 = true)
    (hf : fast_path_decision xDesc yDesc = .ok true) :
    ∃ w kf kb argsf argsb selector,
      w = read_unit xDesc.GetElementSize ∧
      (self.Forward env handle alpha xDesc x beta yDesc y xOffset yOffset).2.added =
        handle.added ++
          [⟨forward_name, env.mloBuildConf_Key (mlo_construct_neuron.new 1), 0, kf⟩] ∧
      (self.Forward env handle alpha xDesc x beta yDesc y xOffset yOffset).2.queue =
        handle.queue ++ [(kf, argsf)] ∧
      (self.Backward env handle alpha yDesc y dyDesc dy xDesc x beta dxDesc dx
        yOffset dyOffset xOffset dxOffset).2.added =
        handle.added ++
          [⟨backward_name, env.mloBuildConf_Key (mlo_construct_neuron.new 0), 0, kb⟩] ∧
      (self.Backward env handle alpha yDesc y dyDesc dy xDesc x beta dxDesc dx
        yOffset dyOffset xOffset dxOffset).2.queue = handle.queue ++ [(kb, argsb)] ∧
      kf.params = " -DLITE -DMLO_READ_UNIT=" ++ toString w ++ " -DMLO_READ_TYPE=" ++
        (if w = 1 then "_FLOAT" else "_FLOAT" ++ toString w) ++
        " -DMLO_NRN_OP_ID=" ++ toString self.mode ++ selector ∧
      kb.params = kf.params ∧
      (xDesc.GetType = .miopenFloat → selector = " -DMIOPEN_USE_FP16=0 -DMIOPEN_USE_FP32=1") ∧
      (xDesc.GetType = .miopenHalf → selector = " -DMIOPEN_USE_FP16=1 -DMIOPEN_USE_FP32=0") ∧
      (xDesc.GetType = .miopenOther → selector = "") := by
  refine ⟨read_unit xDesc.GetElementSize, fwd_lite_kernel self xDesc,
    bwd_lite_kernel self xDesc, fwd_lite_args self x y, bwd_lite_args self dx dy x y,
    type_opt xDesc.GetType, rfl, ?_, ?_, ?_, ?_, rfl, rfl, ?_, ?_, ?_⟩
  · rw [Forward_fast env self handle alpha beta xDesc yDesc x y xOffset yOffset ha hb hf]
    exact Handle.launch_added _ _ _ _ _
  · rw [Forward_fast env self handle alpha beta xDesc yDesc x y xOffset yOffset ha hb hf]
    exact Handle.launch_queue _ _ _ _ _
  · rw [Backward_fast env self handle alpha beta yDesc dyDesc xDesc dxDesc y dy x dx
      yOffset dyOffset xOffset dxOffset ha hb hf]
    exact Handle.launch_added _ _ _ _ _
  · rw [Backward_fast env self handle alpha beta yDesc dyDesc xDesc dxDesc y dy x dx
      yOffset dyOffset xOffset dxOffset ha hb hf]
    exact Handle.launch_queue _ _ _ _ _
  · intro h
    rw [h]
    rfl
  · intro h
    rw [h]
    rfl
  · intro h
    rw [h]
    rfl

/-- C23 at a concrete request: two packed `[8,8]` float tensors. -/
theorem C23_fast_path_parameter_string_witness :
    ∃ w kf kb argsf argsb selector,
      w = read_unit (sample_2d 8 8).GetElementSize ∧
      (sample_activation.Forward sample_env Handle.empty (.val 1) (sample_2d 8 8) 100 (.val 0)
        (sample_2d 8 8) 200 0 0).2.added =
        Handle.empty.added ++
          [⟨forward_name, sample_env.mloBuildConf_Key (mlo_construct_neuron.new 1), 0, kf⟩] ∧
      (sample_activation.Forward sample_env Handle.empty (.val 1) (sample_2d 8 8) 100 (.val 0)
        (sample_2d 8 8) 200 0 0).2.queue = Handle.empty.queue ++ [(kf, argsf)] ∧
      (sample_activation.Backward sample_env Handle.empty (.val 1) (sample_2d 8 8) 200
        (sample_2d 8 8) 201 (sample_2d 8 8) 100 (.val 0) (sample_2d 8 8) 101
        0 0 0 0).2.added =
        Handle.empty.added ++
          [⟨backward_name, sample_env.mloBuildConf_Key (mlo_construct_neuron.new 0), 0, kb⟩] ∧
      (sample_activation.Backward sample_env Handle.empty (.val 1) (sample_2d 8 8) 200
        (sample_2d 8 8) 201 (sample_2d 8 8) 100 (.val 0) (sample_2d 8 8) 101
        0 0 0 0).2.queue = Handle.empty.queue ++ [(kb, argsb)] ∧
      kf.params = " -DLITE -DMLO_READ_UNIT=" ++ toString w ++ " -DMLO_READ_TYPE=" ++
        (if w = 1 then "_FLOAT" else "_FLOAT" ++ toString w) ++
        " -DMLO_NRN_OP_ID=" ++ toString sample_activation.mode ++ selector ∧
      kb.params = kf.params ∧
      ((sample_2d 8 8).GetType = .miopenFloat →
        selector = " -DMIOPEN_USE_FP16=0 -DMIOPEN_USE_FP32=1") ∧
      ((sample_2d 8 8).GetType = .miopenHalf →
        selector = " -DMIOPEN_USE_FP16=1 -DMIOPEN_USE_FP32=0") ∧
      ((sample_2d 8 8).GetType = .miopenOther → selector = "") :=
  C23_fast_path_parameter_string sample_env sample_activation Handle.empty (.val 1) (.val 0)
    (sample_2d 8 8) (sample_2d 8 8) (sample_2d 8 8) (sample_2d 8 8) 200 201 100 101 0 0 0 0
    (by decide) (by decide) (by decide)

theorem IsPackedTensor_loop_congr (s1 s2 lens : List Nat) (i : Nat) (acc : Int)
    (h : ∀ j, 1 ≤ j → j ≤ i → s1[j]? = s2[j]?) :
    IsPackedTensor_loop s1 lens i acc = IsPackedTensor_loop s2 lens i acc := by
  induction i generalizing acc with
  | zero => rfl
  | succ i ih =>
    have hi := h (i + 1) (by omega) (le_refl _)
    have ih2 := fun a => ih a (fun j h1 h2 => h j h1 (by omega))
    simp only [IsPackedTensor_loop, hi, ih2]

/-- C24: for every extents list of length `n ≥ 1` and every two strides lists of
length `n` that agree on the axes `1..n-1`, `IsPackedTensor` returns the same
result, and it does return one; for every tensor of rank 1 it returns true
whatever the stride is. -/
theorem C24_IsPackedTensor_ignores_outermost_stride (lens s1 s2 : List Nat)
    (hn : 1 ≤ lens.length) (h1 : s1.length = lens.length) (h2 : s2.length = lens.length)
    (hagree : ∀ i, 1 ≤ i → i < lens.length → s1[i]? = s2[i]?) :
    IsPackedTensor s1 lens = IsPackedTensor s2 lens ∧
    (∃ b, IsPackedTensor s1 lens = .ok b) ∧
    (∀ stride extent : Nat, IsPackedTensor [stride] [extent] = .ok true) := by
  refine ⟨?_, IsPackedTensor_total s1 lens h1 hn, fun _ _ => rfl⟩
  unfold IsPackedTensor
  rw [if_neg (by omega), if_neg (by omega)]
  exact IsPackedTensor_loop_congr s1 s2 lens _ 1 (fun j hj1 hj2 => hagree j hj1 (by omega))

/-- C24 at the extents `[2,3,4]` with the strides `[12,4,1]` and `[500,4,1]`. -/
theorem C24_IsPackedTensor_ignores_outermost_stride_witness :
    IsPackedTensor [12, 4, 1] [2, 3, 4] = IsPackedTensor [500, 4, 1] [2, 3, 4] ∧
    (∃ b, IsPackedTensor [12, 4, 1] [2, 3, 4] = .ok b) ∧
    (∀ stride extent : Nat, IsPackedTensor [stride] [extent] = .ok true) :=
  C24_IsPackedTensor_ignores_outermost_stride [2, 3, 4] [12, 4, 1] [500, 4, 1] (by decide)
    (by decide) (by decide) (by decide)

/-! ## Claims about what the two paths depend on -/

/-- On the general path `Forward` either fails or launches the general kernel;
which of the two, and the kernel, do not depend on the buffer offsets. -/
theorem Forward_general_cases (env : Collaborators) (self : ActivationDescriptor)
    (handle : Handle) (alpha beta : FloatExpr) (xDesc yDesc : TensorDescriptor) (x y : Nat)
    (ha : env.float_equal alpha 1 = true) (hb : env.float_equal beta 0 = true)
    (hf : fast_path_decision xDesc yDesc = .ok false) :
    (∃ e, ∀ xOffset yOffset,
      self.Forward env handle alpha xDesc x beta yDesc y xOffset yOffset = (.error e, handle)) ∨
    (∃ vIn vOut, ∀ xOffset yOffset,
      self.Forward env handle alpha xDesc x beta yDesc y xOffset yOffset =
        (.ok (), handle.launch forward_name (env.mloBuildConf_Key (mlo_construct_neuron.new 1))
          (fwd_general_kernel env self xDesc vIn vOut)
          (fwd_general_args env self xDesc vOut x y xOffset yOffset))) := by
  cases hy : normalize4 yDesc msg_size with
  | error e =>
    exact Or.inl ⟨e, fun xOffset yOffset => Forward_general_fails_y env self handle alpha beta
      xDesc yDesc x y xOffset yOffset ha hb hf e hy⟩
  | ok vOut =>
    cases hx : normalize4 xDesc msg_dimension with
    | error e =>
      exact Or.inl ⟨e, fun xOffset yOffset => Forward_general_fails_x env self handle alpha beta
        xDesc yDesc x y xOffset yOffset ha hb hf vOut e hy hx⟩
    | ok vIn =>
      exact Or.inr ⟨vIn, vOut, fun xOffset yOffset => Forward_general env self handle alpha beta
        xDesc yDesc x y xOffset yOffset ha hb hf vIn vOut hy hx⟩

/-- On the general path `Backward` either fails or launches the general kernel;
which of the two, and the kernel, do not depend on the buffer offsets. -/
theorem Backward_general_cases (env : Collaborators) (self : ActivationDescriptor)
    (handle : Handle) (alpha beta : FloatExpr) (yDesc dyDesc xDesc dxDesc : TensorDescriptor)
    (y dy x dx : Nat)
    (ha : env.float_equal alpha 1 = true) (hb : env.float_equal beta 0 = true)
    (hf : fast_path_decision xDesc yDesc = .ok false) :
    (∃ e, ∀ yOffset dyOffset xOffset dxOffset,
      self.Backward env handle alpha yDesc y dyDesc dy xDesc x beta dxDesc dx
        yOffset dyOffset xOffset dxOffset = (.error e, handle)) ∨
    (∃ vIn vOut vDin vDout, ∀ yOffset dyOffset xOffset dxOffset,
      self.Backward env handle alpha yDesc y dyDesc dy xDesc x beta dxDesc dx
          yOffset dyOffset xOffset dxOffset =
        (.ok (), handle.launch backward_name (env.mloBuildConf_Key (mlo_construct_neuron.new 0))
          (bwd_general_kernel env self dyDesc yDesc dxDesc xDesc vIn vOut vDin vDout)
          (bwd_general_args self dx dy x y dxOffset dyOffset xOffset yOffset))) := by
  have fails := fun yOffset dyOffset xOffset dxOffset =>
    Backward_general_fails env self handle alpha beta yDesc dyDesc xDesc dxDesc
      y dy x dx yOffset dyOffset xOffset dxOffset ha hb hf
  cases hdy : normalize4 dyDesc msg_size with
  | error e => exact Or.inl ⟨e, fun a b c d => fails a b c d e (Or.inl hdy)⟩
  | ok vDout =>
    cases hy : normalize4 yDesc msg_dimensions with
    | error e =>
      exact Or.inl ⟨e, fun a b c d => fails a b c d e (Or.inr ⟨⟨vDout, hdy⟩, Or.inl hy⟩)⟩
    | ok vOut =>
      cases hdx : normalize4 dxDesc msg_dimensions with
      | error e =>
        exact Or.inl ⟨e, fun a b c d => fails a b c d e
          (Or.inr ⟨⟨vDout, hdy⟩, Or.inr ⟨⟨vOut, hy⟩, Or.inl hdx⟩⟩)⟩
      | ok vDin =>
        cases hx : normalize4 xDesc msg_dimensions with
        | error e =>
          exact Or.inl ⟨e, fun a b c d => fails a b c d e
            (Or.inr ⟨⟨vDout, hdy⟩, Or.inr ⟨⟨vOut, hy⟩, Or.inr ⟨⟨vDin, hdx⟩, hx⟩⟩⟩)⟩
        | ok vIn =>
          exact Or.inr ⟨vIn, vOut, vDin, vDout, fun a b c d =>
            Backward_general env self handle alpha beta yDesc dyDesc xDesc dxDesc y dy x dx
              a b c d ha hb hf vIn vOut vDin vDout hdy hy hdx hx⟩

/-- The conversion `cl_long(n)` of an offset below `2^63` is the offset itself. -/
theorem cl_long_of_lt (n : Nat) (h : n < 9223372036854775808) : cl_long n = (n : Int) := by
  unfold cl_long
  have : n % 18446744073709551616 = n := Nat.mod_eq_of_lt (by omega)
  rw [this, if_pos h]

/-- C25: for every request that takes the fast path (`xDesc`, `yDesc`), two
`Forward` calls that differ only in `xOffset`, `yOffset`, and two `Backward`
calls that differ only in the four offsets, have the same effect: the same
kernel is registered with the same geometry and invoked with the same
arguments, which are the buffers and the scalars and no offset.  For every
request on the general path (`xDescG`, `yDescG`, `dyDescG`, `dxDescG`) that
succeeds, the call registers one kernel, the same for all offsets, and invokes
it with the buffers, the scalars and then the offsets as the trailing
arguments: `xOffset`, `yOffset` in `Forward`, and `dxOffset`, `dyOffset`,
`xOffset`, `yOffset` in `Backward`, each converted by `cl_long`, which leaves an
offset below `2^63` as it is and turns a larger one into the offset minus
`2^64`. -/
theorem C25_offsets_ignored_on_fast_path (env : Collaborators) (self : ActivationDescriptor)
    (handle : Handle) (alpha beta : FloatExpr) (yDesc dyDesc xDesc dxDesc : TensorDescriptor)
    (yDescG dyDescG xDescG dxDescG : TensorDescriptor)
    (y dy x dx yOffset dyOffset xOffset dxOffset yOffset2 dyOffset2 xOffset2 dxOffset2 : Nat)
    (ha : env.float_equal alpha 1 = true) (hb : env.float_equal beta 0 = true)
    (hfast : fast_path_decision xDesc yDesc = .ok true)
    (hgen : fast_path_decision xDescG yDescG = .ok false)
    (hokF : (self.Forward env handle alpha xDescG x beta yDescG y xOffset yOffset).1 = .ok ())
    (hokB : (self.Backward env handle alpha yDescG y dyDescG dy xDescG x beta dxDescG dx
      yOffset dyOffset xOffset dxOffset).1 = .ok ()) :
    (self.Forward env handle alpha xDesc x beta yDesc y xOffset yOffset =
        self.Forward env handle alpha xDesc x beta yDesc y xOffset2 yOffset2 ∧
      self.Backward env handle alpha yDesc y dyDesc dy xDesc x beta dxDesc dx
          yOffset dyOffset xOffset dxOffset =
        self.Backward env handle alpha yDesc y dyDesc dy xDesc x beta dxDesc dx
          yOffset2 dyOffset2 xOffset2 dxOffset2 ∧
      (self.Forward env handle alpha xDesc x beta yDesc y xOffset yOffset).2.queue =
        handle.queue ++
          [(fwd_lite_kernel self xDesc,
            [.data x, .data y, .float (.cast self.power), .float (.cast self.beta),
             .float (.cast self.alpha)])] ∧
      (self.Backward env handle alpha yDesc y dyDesc dy xDesc x beta dxDesc dx
          yOffset dyOffset xOffset dxOffset).2.queue =
        handle.queue ++
          [(bwd_lite_kernel self xDesc,
            [.data dx, .data dy, .data x, .data y,
             .float (.mul (.cast self.beta) (.cast self.power)), .float (.cast self.power),
             .float (.cast self.beta), .float (.cast self.alpha)])]) ∧
    (∃ k power beta2 alpha2, ∀ xo yo,
      self.Forward env handle alpha xDescG x beta yDescG y xo yo =
          (.ok (), handle.launch forward_name
            (env.mloBuildConf_Key (mlo_construct_neuron.new 1)) k
            [.data x, .data y, .float power, .float beta2, .float alpha2,
             .long (cl_long xo), .long (cl_long yo)]) ∧
      (xo < 9223372036854775808 → yo < 9223372036854775808 →
        (self.Forward env handle alpha xDescG x beta yDescG y xo yo).2.queue =
          handle.queue ++
            [(k, [.data x, .data y, .float power, .float beta2, .float alpha2,
              .long (xo : Int), .long (yo : Int)])])) ∧
    (∃ k, ∀ yo dyo xo dxo,
      self.Backward env handle alpha yDescG y dyDescG dy xDescG x beta dxDescG dx
            yo dyo xo dxo =
          (.ok (), handle.launch backward_name
            (env.mloBuildConf_Key (mlo_construct_neuron.new 0)) k
            [.data dx, .data dy, .data x, .data y,
             .float (.mul (.cast self.beta) (.cast self.power)), .float (.cast self.power),
             .float (.cast self.beta), .float (.cast self.alpha),
             .long (cl_long dxo), .long (cl_long dyo), .long (cl_long xo),
             .long (cl_long yo)]) ∧
      (yo < 9223372036854775808 → dyo < 9223372036854775808 → xo < 9223372036854775808 →
        dxo < 9223372036854775808 →
        (self.Backward env handle alpha yDescG y dyDescG dy xDescG x beta dxDescG dx
            yo dyo xo dxo).2.queue =
          handle.queue ++
            [(k, [.data dx, .data dy, .data x, .data y,
              .float (.mul (.cast self.beta) (.cast self.power)), .float (.cast self.power),
              .float (.cast self.beta), .float (.cast self.alpha),
              .long (dxo : Int), .long (dyo : Int), .long (xo : Int),
              .long (yo : Int)])])) ∧
    (∀ n : Nat, n < 9223372036854775808 → cl_long n = (n : Int)) ∧
    (∀ n : Nat, 9223372036854775808 ≤ n → n < 18446744073709551616 →
      cl_long n = (n : Int) - 18446744073709551616) := by
  refine ⟨⟨?_, ?_, ?_, ?_⟩, ?_, ?_, fun n h => ?_, fun n h1 h2 => ?_⟩
  · rw [Forward_fast env self handle alpha beta xDesc yDesc x y xOffset yOffset ha hb hfast,
      Forward_fast env self handle alpha beta xDesc yDesc x y xOffset2 yOffset2 ha hb hfast]
  · rw [Backward_fast env self handle alpha beta yDesc dyDesc xDesc dxDesc y dy x dx
        yOffset dyOffset xOffset dxOffset ha hb hfast,
      Backward_fast env self handle alpha beta yDesc dyDesc xDesc dxDesc y dy x dx
        yOffset2 dyOffset2 xOffset2 dxOffset2 ha hb hfast]
  · rw [Forward_fast env self handle alpha beta xDesc yDesc x y xOffset yOffset ha hb hfast]
    exact Handle.launch_queue _ _ _ _ _
  · rw [Backward_fast env self handle alpha beta yDesc dyDesc xDesc dxDesc y dy x dx
      yOffset dyOffset xOffset dxOffset ha hb hfast]
    exact Handle.launch_queue _ _ _ _ _
  · rcases Forward_general_cases env self handle alpha beta xDescG yDescG x y ha hb hgen with
      ⟨e, he⟩ | ⟨vIn, vOut, h⟩
    · rw [he] at hokF
      cases hokF
    · refine ⟨fwd_general_kernel env self xDescG vIn vOut, _, _, _, fun xo yo => ⟨h xo yo, ?_⟩⟩
      intro hx hy
      rw [h xo yo, Handle.launch_queue]
      simp only [fwd_general_args, cl_long_of_lt xo hx, cl_long_of_lt yo hy]
  · rcases Backward_general_cases env self handle alpha beta yDescG dyDescG xDescG dxDescG
      y dy x dx ha hb hgen with ⟨e, he⟩ | ⟨vIn, vOut, vDin, vDout, h⟩
    · rw [he] at hokB
      cases hokB
    · refine ⟨bwd_general_kernel env self dyDescG yDescG dxDescG xDescG vIn vOut vDin vDout,
        fun yo dyo xo dxo => ⟨h yo dyo xo dxo, ?_⟩⟩
      intro hy hdy hx hdx
      rw [h yo dyo xo dxo, Handle.launch_queue]
      simp only [bwd_general_args, cl_long_of_lt yo hy, cl_long_of_lt dyo hdy,
        cl_long_of_lt xo hx, cl_long_of_lt dxo hdx]
  · unfold cl_long
    rw [Nat.mod_eq_of_lt (by omega : n < 18446744073709551616), if_pos h]
  · unfold cl_long
    rw [Nat.mod_eq_of_lt h2, if_neg (by omega)]

/-- C25 at two concrete requests: two packed `[8,8]` float tensors on the fast
path, with the offsets 0 in one call and 16, 32, 48, 64 in the other; and a
strided `[4,4,4]` input with packed `[4,4,4]` output and gradients on the
general path. -/
theorem C25_offsets_ignored_on_fast_path_witness :
    (sample_activation.Forward sample_env Handle.empty (.val 1) (sample_2d 8 8) 100 (.val 0)
          (sample_2d 8 8) 200 0 0 =
        sample_activation.Forward sample_env Handle.empty (.val 1) (sample_2d 8 8) 100 (.val 0)
          (sample_2d 8 8) 200 48 16 ∧
      sample_activation.Backward sample_env Handle.empty (.val 1) (sample_2d 8 8) 200
          (sample_2d 8 8) 201 (sample_2d 8 8) 100 (.val 0) (sample_2d 8 8) 101 0 0 0 0 =
        sample_activation.Backward sample_env Handle.empty (.val 1) (sample_2d 8 8) 200
          (sample_2d 8 8) 201 (sample_2d 8 8) 100 (.val 0) (sample_2d 8 8) 101 16 32 48 64 ∧
      (sample_activation.Forward sample_env Handle.empty (.val 1) (sample_2d 8 8) 100 (.val 0)
          (sample_2d 8 8) 200 0 0).2.queue =
        Handle.empty.queue ++
          [(fwd_lite_kernel sample_activation (sample_2d 8 8),
            [.data 100, .data 200, .float (.cast sample_activation.power),
             .float (.cast sample_activation.beta), .float (.cast sample_activation.alpha)])] ∧
      (sample_activation.Backward sample_env Handle.empty (.val 1) (sample_2d 8 8) 200
          (sample_2d 8 8) 201 (sample_2d 8 8) 100 (.val 0) (sample_2d 8 8) 101
          0 0 0 0).2.queue =
        Handle.empty.queue ++
          [(bwd_lite_kernel sample_activation (sample_2d 8 8),
            [.data 101, .data 201, .data 100, .data 200,
             .float (.mul (.cast sample_activation.beta) (.cast sample_activation.power)),
             .float (.cast sample_activation.power), .float (.cast sample_activation.beta),
             .float (.cast sample_activation.alpha)])]) ∧
    (∃ k power beta2 alpha2, ∀ xo yo,
      sample_activation.Forward sample_env Handle.empty (.val 1) sample_3d_strided 100
            (.val 0) sample_3d_packed 200 xo yo =
          (.ok (), Handle.empty.launch forward_name
            (sample_env.mloBuildConf_Key (mlo_construct_neuron.new 1)) k
            [.data 100, .data 200, .float power, .float beta2, .float alpha2,
             .long (cl_long xo), .long (cl_long yo)]) ∧
      (xo < 9223372036854775808 → yo < 9223372036854775808 →
        (sample_activation.Forward sample_env Handle.empty (.val 1) sample_3d_strided 100
            (.val 0) sample_3d_packed 200 xo yo).2.queue =
          Handle.empty.queue ++
            [(k, [.data 100, .data 200, .float power, .float beta2, .float alpha2,
              .long (xo : Int), .long (yo : Int)])])) ∧
    (∃ k, ∀ yo dyo xo dxo,
      sample_activation.Backward sample_env Handle.empty (.val 1) sample_3d_packed 200
            sample_3d_packed 201 sample_3d_strided 100 (.val 0) sample_3d_packed 101
            yo dyo xo dxo =
          (.ok (), Handle.empty.launch backward_name
            (sample_env.mloBuildConf_Key (mlo_construct_neuron.new 0)) k
            [.data 101, .data 201, .data 100, .data 200,
             .float (.mul (.cast sample_activation.beta) (.cast sample_activation.power)),
             .float (.cast sample_activation.power), .float (.cast sample_activation.beta),
             .float (.cast sample_activation.alpha),
             .long (cl_long dxo), .long (cl_long dyo), .long (cl_long xo),
             .long (cl_long yo)]) ∧
      (yo < 9223372036854775808 → dyo < 9223372036854775808 → xo < 9223372036854775808 →
        dxo < 9223372036854775808 →
        (sample_activation.Backward sample_env Handle.empty (.val 1) sample_3d_packed 200
            sample_3d_packed 201 sample_3d_strided 100 (.val 0) sample_3d_packed 101
            yo dyo xo dxo).2.queue =
          Handle.empty.queue ++
            [(k, [.data 101, .data 201, .data 100, .data 200,
              .float (.mul (.cast sample_activation.beta) (.cast sample_activation.power)),
              .float (.cast sample_activation.power), .float (.cast sample_activation.beta),
              .float (.cast sample_activation.alpha),
              .long (dxo : Int), .long (dyo : Int), .long (xo : Int),
              .long (yo : Int)])])) ∧
    (∀ n : Nat, n < 9223372036854775808 → cl_long n = (n : Int)) ∧
    (∀ n : Nat, 9223372036854775808 ≤ n → n < 18446744073709551616 →
      cl_long n = (n : Int) - 18446744073709551616) :=
  C25_offsets_ignored_on_fast_path sample_env sample_activation Handle.empty (.val 1) (.val 0)
    (sample_2d 8 8) (sample_2d 8 8) (sample_2d 8 8) (sample_2d 8 8)
    sample_3d_packed sample_3d_packed sample_3d_strided sample_3d_packed 200 201 100 101
    0 0 0 0 16 32 48 64 (by decide) (by decide) (by decide) (by decide) (by decide) (by decide)

/-- C26: in `Backward`, for every `xDesc` and `yDesc`, whatever the gradient
descriptors `dyDesc` and `dxDesc` are: when the test on `xDesc` and `yDesc`
selects the fast path, the call registers and invokes the lite kernel with the
local size `(256, 1, 1)`, the global size `(T / w, 1, 1)` and the compile
options of the read width `w`, all computed from `xDesc` alone; when the test
rejects the request, the call either fails or launches the kernel of the general
construction with the twelve arguments of the general path; and when the test
itself fails, so does the call.  For the packed `[8,8]` tensors with gradient
descriptors of extents `[3,5]` and strides `[100,7]` the fast path is taken with
the global size `(16, 1, 1)`. -/
theorem C26_backward_path_ignores_gradient_descriptors (env : Collaborators)
    (self : ActivationDescriptor) (handle : Handle) (alpha beta : FloatExpr)
    (yDesc xDesc : TensorDescriptor) (y dy x dx yOffset dyOffset xOffset dxOffset : Nat)
    (ha : env.float_equal alpha 1 = true) (hb : env.float_equal beta 0 = true) :
    (fast_path_decision xDesc yDesc = .ok true →
      ∀ dyDesc dxDesc : TensorDescriptor,
        self.Backward env handle alpha yDesc y dyDesc dy xDesc x beta dxDesc dx
            yOffset dyOffset xOffset dxOffset =
          (.ok (), handle.launch backward_name
            (env.mloBuildConf_Key (mlo_construct_neuron.new 0))
            ⟨"MIOpenNeuron.cl", "MIOpenActiveBwdLite", [256, 1, 1],
              [xDesc.GetElementSize / read_unit xDesc.GetElementSize, 1, 1],
              lite_compiler_options self.mode xDesc⟩
            (bwd_lite_args self dx dy x y))) ∧
    (fast_path_decision xDesc yDesc = .ok false →
      ∀ dyDesc dxDesc : TensorDescriptor,
        (∃ e, self.Backward env handle alpha yDesc y dyDesc dy xDesc x beta dxDesc dx
            yOffset dyOffset xOffset dxOffset = (.error e, handle)) ∨
        (∃ vIn vOut vDin vDout,
          self.Backward env handle alpha yDesc y dyDesc dy xDesc x beta dxDesc dx
              yOffset dyOffset xOffset dxOffset =
            (.ok (), handle.launch backward_name
              (env.mloBuildConf_Key (mlo_construct_neuron.new 0))
              (bwd_general_kernel env self dyDesc yDesc dxDesc xDesc vIn vOut vDin vDout)
              (bwd_general_args self dx dy x y dxOffset dyOffset xOffset yOffset)))) ∧
    (∀ e, fast_path_decision xDesc yDesc = .error e →
      ∀ dyDesc dxDesc : TensorDescriptor,
        self.Backward env handle alpha yDesc y dyDesc dy xDesc x beta dxDesc dx
          yOffset dyOffset xOffset dxOffset = (.error e, handle)) ∧
    (sample_activation.Backward sample_env Handle.empty (.val 1) (sample_2d 8 8) 200
        sample_grad_odd 201 (sample_2d 8 8) 100 (.val 0) sample_grad_odd 101
        0 0 0 0).2.queue.map (fun p => (p.1.kernel_name, p.1.vld, p.1.vgd)) =
      [("MIOpenActiveBwdLite", [256, 1, 1], [16, 1, 1])] := by
  refine ⟨fun hf dyDesc dxDesc => ?_, fun hf dyDesc dxDesc => ?_, fun e hf dyDesc dxDesc => ?_,
    by decide⟩
  · exact Backward_fast env self handle alpha beta yDesc dyDesc xDesc dxDesc y dy x dx
      yOffset dyOffset xOffset dxOffset ha hb hf
  · rcases Backward_general_cases env self handle alpha beta yDesc dyDesc xDesc dxDesc y dy x dx
      ha hb hf with ⟨e, he⟩ | ⟨vIn, vOut, vDin, vDout, h⟩
    · exact Or.inl ⟨e, he _ _ _ _⟩
    · exact Or.inr ⟨vIn, vOut, vDin, vDout, h _ _ _ _⟩
  · exact Backward_decision_fails env self handle alpha beta yDesc dyDesc xDesc dxDesc y dy x dx
      yOffset dyOffset xOffset dxOffset ha hb e hf

/-- C26 at a concrete request: two packed `[8,8]` float tensors as `xDesc` and
`yDesc`. -/
theorem C26_backward_path_ignores_gradient_descriptors_witness :
    (fast_path_decision (sample_2d 8 8) (sample_2d 8 8) = .ok true →
      ∀ dyDesc dxDesc : TensorDescriptor,
        sample_activation.Backward sample_env Handle.empty (.val 1) (sample_2d 8 8) 200
            dyDesc 201 (sample_2d 8 8) 100 (.val 0) dxDesc 101 0 0 0 0 =
          (.ok (), Handle.empty.launch backward_name
            (sample_env.mloBuildConf_Key (mlo_construct_neuron.new 0))
            ⟨"MIOpenNeuron.cl", "MIOpenActiveBwdLite", [256, 1, 1],
              [(sample_2d 8 8).GetElementSize / read_unit (sample_2d 8 8).GetElementSize, 1, 1],
              lite_compiler_options sample_activation.mode (sample_2d 8 8)⟩
            (bwd_lite_args sample_activation 101 201 100 200))) ∧
    (fast_path_decision (sample_2d 8 8) (sample_2d 8 8) = .ok false →
      ∀ dyDesc dxDesc : TensorDescriptor,
        (∃ e, sample_activation.Backward sample_env Handle.empty (.val 1) (sample_2d 8 8) 200
            dyDesc 201 (sample_2d 8 8) 100 (.val 0) dxDesc 101 0 0 0 0 =
          (.error e, Handle.empty)) ∨
        (∃ vIn vOut vDin vDout,
          sample_activation.Backward sample_env Handle.empty (.val 1) (sample_2d 8 8) 200
              dyDesc 201 (sample_2d 8 8) 100 (.val 0) dxDesc 101 0 0 0 0 =
            (.ok (), Handle.empty.launch backward_name
              (sample_env.mloBuildConf_Key (mlo_construct_neuron.new 0))
              (bwd_general_kernel sample_env sample_activation dyDesc (sample_2d 8 8) dxDesc
                (sample_2d 8 8) vIn vOut vDin vDout)
              (bwd_general_args sample_activation 101 201 100 200 0 0 0 0)))) ∧
    (∀ e, fast_path_decision (sample_2d 8 8) (sample_2d 8 8) = .error e →
      ∀ dyDesc dxDesc : TensorDescriptor,
        sample_activation.Backward sample_env Handle.empty (.val 1) (sample_2d 8 8) 200
          dyDesc 201 (sample_2d 8 8) 100 (.val 0) dxDesc 101 0 0 0 0 =
          (.error e, Handle.empty)) ∧
    (sample_activation.Backward sample_env Handle.empty (.val 1) (sample_2d 8 8) 200
        sample_grad_odd 201 (sample_2d 8 8) 100 (.val 0) sample_grad_odd 101
        0 0 0 0).2.queue.map (fun p => (p.1.kernel_name, p.1.vld, p.1.vgd)) =
      [("MIOpenActiveBwdLite", [256, 1, 1], [16, 1, 1])] :=
  C26_backward_path_ignores_gradient_descriptors sample_env sample_activation Handle.empty
    (.val 1) (.val 0) (sample_2d 8 8) (sample_2d 8 8) 200 201 100 101 0 0 0 0
    (by decide) (by decide)

/-! ## Claims about the registration of a planner solution -/

/-- C27: for every non-empty planner solution, with `back` its last entry and
`front` its first, `AddMiopengemmSolution` succeeds, enqueues nothing, and
registers the kernel of `back` at ordinal 0: the source of `back` passed
through `set_offsets_to_uint`, its entry-point name, the local size
`(l, 1, 1)`, the global size `(g, 1, 1)` and no compile options.  It registers
a second kernel, built in the same way from `front` and stored at ordinal 1, if
and only if the solution has exactly two entries; a solution of three or more
entries registers exactly one kernel. -/
theorem C27_AddMiopengemmSolution_registrations (handle : Handle)
    (algorithm_name network_config : String) (soln : Solution) (hne : soln.v_tgks ≠ []) :
    ∃ back front, soln.v_tgks.getLast? = some back ∧ soln.v_tgks.head? = some front ∧
      (AddMiopengemmSolution handle algorithm_name network_config soln).1 = .ok () ∧
      (AddMiopengemmSolution handle algorithm_name network_config soln).2.queue =
        handle.queue ∧
      (AddMiopengemmSolution handle algorithm_name network_config soln).2.added =
        handle.added ++
          (⟨algorithm_name, network_config, 0,
              ⟨tempfix_v2.set_offsets_to_uint back.kernstr, back.fname,
                [back.local_work_size, 1, 1], [back.global_work_size, 1, 1], ""⟩⟩ ::
            (if soln.v_tgks.length = 2 then
              [⟨algorithm_name, network_config, 1,
                ⟨tempfix_v2.set_offsets_to_uint front.kernstr, front.fname,
                  [front.local_work_size, 1, 1], [front.global_work_size, 1, 1], ""⟩⟩]
            else [])) ∧
      ((AddMiopengemmSolution handle algorithm_name network_config soln).2.added.length =
          handle.added.length + 2 ↔ soln.v_tgks.length = 2) ∧
      (3 ≤ soln.v_tgks.length →
        (AddMiopengemmSolution handle algorithm_name network_config soln).2.added.length =
          handle.added.length + 1) := by
  obtain ⟨tgks⟩ := soln
  cases tgks with
  | nil => exact absurd rfl hne
  | cons a l =>
    cases hb : (a :: l).getLast? with
    | none => simp at hb
    | some back =>
      have hadded : (AddMiopengemmSolution handle algorithm_name network_config ⟨a :: l⟩).2.added =
          handle.added ++
            (⟨algorithm_name, network_config, 0,
                ⟨tempfix_v2.set_offsets_to_uint back.kernstr, back.fname,
                  [back.local_work_size, 1, 1], [back.global_work_size, 1, 1], ""⟩⟩ ::
              (if (a :: l).length = 2 then
                [⟨algorithm_name, network_config, 1,
                  ⟨tempfix_v2.set_offsets_to_uint a.kernstr, a.fname,
                    [a.local_work_size, 1, 1], [a.global_work_size, 1, 1], ""⟩⟩]
              else [])) := by
        by_cases h2 : (a :: l).length = 2
        · simp only [AddMiopengemmSolution, hb, h2, if_true, List.getElem?_cons_zero,
            Handle.AddKernel, List.set_cons_zero, List.append_assoc, List.singleton_append]
        · simp only [AddMiopengemmSolution, hb, h2, if_false, Handle.AddKernel]
      refine ⟨back, a, rfl, rfl, ?_, ?_, hadded, ?_, ?_⟩
      · by_cases h2 : (a :: l).length = 2
        · simp only [AddMiopengemmSolution, hb, h2, if_true, List.getElem?_cons_zero]
        · simp only [AddMiopengemmSolution, hb, h2, if_false]
      · by_cases h2 : (a :: l).length = 2
        · simp only [AddMiopengemmSolution, hb, h2, if_true, List.getElem?_cons_zero,
            Handle.AddKernel]
        · simp only [AddMiopengemmSolution, hb, h2, if_false, Handle.AddKernel]
      · rw [hadded]
        dsimp only
        by_cases h2 : (a :: l).length = 2
        · rw [if_pos h2]
          exact ⟨fun _ => h2, fun _ => by simp⟩
        · rw [if_neg h2]
          exact ⟨fun h => by simp at h, fun h => absurd h h2⟩
      · intro h3
        have h3l : 3 ≤ (a :: l).length := h3
        have hn2 : ¬ (a :: l).length = 2 := by omega
        rw [hadded, if_neg hn2]
        simp

/-- C27 at a solution of three entries: one kernel is registered, the last. -/
theorem C27_AddMiopengemmSolution_registrations_witness :
    ∃ back front,
      (Solution.mk [sample_soln_extra, sample_soln_beta, sample_soln_main]).v_tgks.getLast? =
        some back ∧
      (Solution.mk [sample_soln_extra, sample_soln_beta, sample_soln_main]).v_tgks.head? =
        some front ∧
      (AddMiopengemmSolution Handle.empty "gemm" "cfg"
        ⟨[sample_soln_extra, sample_soln_beta, sample_soln_main]⟩).1 = .ok () ∧
      (AddMiopengemmSolution Handle.empty "gemm" "cfg"
        ⟨[sample_soln_extra, sample_soln_beta, sample_soln_main]⟩).2.queue =
        Handle.empty.queue ∧
      (AddMiopengemmSolution Handle.empty "gemm" "cfg"
        ⟨[sample_soln_extra, sample_soln_beta, sample_soln_main]⟩).2.added =
        Handle.empty.added ++
          (⟨"gemm", "cfg", 0,
              ⟨tempfix_v2.set_offsets_to_uint back.kernstr, back.fname,
                [back.local_work_size, 1, 1], [back.global_work_size, 1, 1], ""⟩⟩ ::
            (if (Solution.mk
                [sample_soln_extra, sample_soln_beta, sample_soln_main]).v_tgks.length = 2 then
              [⟨"gemm", "cfg", 1,
                ⟨tempfix_v2.set_offsets_to_uint front.kernstr, front.fname,
                  [front.local_work_size, 1, 1], [front.global_work_size, 1, 1], ""⟩⟩]
            else [])) ∧
      ((AddMiopengemmSolution Handle.empty "gemm" "cfg"
          ⟨[sample_soln_extra, sample_soln_beta, sample_soln_main]⟩).2.added.length =
          Handle.empty.added.length + 2 ↔
        (Solution.mk [sample_soln_extra, sample_soln_beta, sample_soln_main]).v_tgks.length =
          2) ∧
      (3 ≤ (Solution.mk [sample_soln_extra, sample_soln_beta, sample_soln_main]).v_tgks.length →
        (AddMiopengemmSolution Handle.empty "gemm" "cfg"
          ⟨[sample_soln_extra, sample_soln_beta, sample_soln_main]⟩).2.added.length =
          Handle.empty.added.length + 1) :=
  C27_AddMiopengemmSolution_registrations Handle.empty "gemm" "cfg"
    ⟨[sample_soln_extra, sample_soln_beta, sample_soln_main]⟩ (by decide)

/-- The `int` product of two sizes whose product is below `2^31` is exact. -/
theorem int_mul_size_t_of_lt (a b : Nat) (h : a * b < 2147483648) :
    int_mul (size_t_to_int a) (size_t_to_int b) = ((a * b : Nat) : Int) := by
  rcases Nat.eq_zero_or_pos a with rfl | ha
  · simp [int_mul, size_t_to_int, int_to_size_t]
  · rcases Nat.eq_zero_or_pos b with rfl | hb
    · simp [int_mul, size_t_to_int, int_to_size_t]
    · have hal : a < 2147483648 := lt_of_le_of_lt (Nat.le_mul_of_pos_right a hb) h
      have hbl : b < 2147483648 := lt_of_le_of_lt (Nat.le_mul_of_pos_left b ha) h
      rw [size_t_to_int_of_lt a hal, size_t_to_int_of_lt b hbl, int_mul_of_range]
      · push_cast
        rfl
      · have : (0 : Int) ≤ ((a * b : Nat) : Int) := Int.ofNat_nonneg _
        push_cast at this
        omega
      · have : ((a * b : Nat) : Int) < 2147483648 := by exact_mod_cast h
        push_cast at this
        exact this

/-- For a fully packed shape of rank at least 1, the product of the outermost
extent and stride is the product of all the extents. -/
theorem outer_product_of_fully_packed (strides lens : List Nat) (hr : 1 ≤ lens.length)
    (hpk : spec_fully_packed strides lens) : lens.headD 0 * strides.headD 0 = lens.prod := by
  cases lens with
  | nil => simp at hr
  | cons a l =>
    have h0 := hpk 0 (by simp)
    cases strides with
    | nil => simp at h0
    | cons s st =>
      simp at h0
      simp [h0]

/-- C28: for every shape of rank `r` in 1..3 with as many strides as extents,
the normalization succeeds and gives each of the `4 - r` left-padded axes the
stride `e_0 * s_0`, the `int` product of the extent and the stride of the
outermost original axis; the `int` product is the product of the numbers when
that is below `2^31`; and when the shape is fully packed `e_0 * s_0` is the
total element count of the tensor, so that every padded stride equals it. -/
theorem C28_padded_stride_is_outer_extent_times_stride (desc : TensorDescriptor)
    (msg : String) (hr1 : 1 ≤ desc.lens.length) (hr3 : desc.lens.length ≤ 3)
    (hs : desc.strides.length = desc.lens.length) :
    ∃ v, normalize4 desc msg = .ok v ∧
      [v.nStride, v.cStride, v.hStride, v.wStride].take (4 - desc.lens.length) =
        List.replicate (4 - desc.lens.length)
          (int_mul (size_t_to_int (desc.lens.headD 0)) (size_t_to_int (desc.strides.headD 0))) ∧
      (desc.lens.headD 0 * desc.strides.headD 0 < 2147483648 →
        int_mul (size_t_to_int (desc.lens.headD 0)) (size_t_to_int (desc.strides.headD 0)) =
          ((desc.lens.headD 0 * desc.strides.headD 0 : Nat) : Int)) ∧
      (spec_fully_packed desc.strides desc.lens →
        desc.lens.headD 0 * desc.strides.headD 0 = desc.GetElementSize) ∧
      (spec_fully_packed desc.strides desc.lens → desc.GetElementSize < 2147483648 →
        [v.nStride, v.cStride, v.hStride, v.wStride].take (4 - desc.lens.length) =
          List.replicate (4 - desc.lens.length) ((desc.GetElementSize : Nat) : Int)) := by
  obtain ⟨v, hv, _, hst⟩ := normalize4_good_rank desc msg hr1 (by omega) hs
  have htake : [v.nStride, v.cStride, v.hStride, v.wStride].take (4 - desc.lens.length) =
      List.replicate (4 - desc.lens.length)
        (int_mul (size_t_to_int (desc.lens.headD 0)) (size_t_to_int (desc.strides.headD 0))) := by
    rw [hst, List.take_left' (by simp)]
  refine ⟨v, hv, htake, int_mul_size_t_of_lt _ _,
    outer_product_of_fully_packed desc.strides desc.lens hr1, fun hpk hlt => ?_⟩
  have hprod := outer_product_of_fully_packed desc.strides desc.lens hr1 hpk
  rw [htake, int_mul_size_t_of_lt _ _ (by rw [hprod]; exact hlt), hprod]
  rfl

/-- C28 at the packed tensor of extents `[4,4,4]`: the padded stride is 64. -/
theorem C28_padded_stride_is_outer_extent_times_stride_witness :
    ∃ v, normalize4 sample_3d_packed msg_size = .ok v ∧
      [v.nStride, v.cStride, v.hStride, v.wStride].take (4 - sample_3d_packed.lens.length) =
        List.replicate (4 - sample_3d_packed.lens.length)
          (int_mul (size_t_to_int (sample_3d_packed.lens.headD 0))
            (size_t_to_int (sample_3d_packed.strides.headD 0))) ∧
      (sample_3d_packed.lens.headD 0 * sample_3d_packed.strides.headD 0 < 2147483648 →
        int_mul (size_t_to_int (sample_3d_packed.lens.headD 0))
            (size_t_to_int (sample_3d_packed.strides.headD 0)) =
          ((sample_3d_packed.lens.headD 0 * sample_3d_packed.strides.headD 0 : Nat) : Int)) ∧
      (spec_fully_packed sample_3d_packed.strides sample_3d_packed.lens →
        sample_3d_packed.lens.headD 0 * sample_3d_packed.strides.headD 0 =
          sample_3d_packed.GetElementSize) ∧
      (spec_fully_packed sample_3d_packed.strides sample_3d_packed.lens →
        sample_3d_packed.GetElementSize < 2147483648 →
        [v.nStride, v.cStride, v.hStride, v.wStride].take (4 - sample_3d_packed.lens.length) =
          List.replicate (4 - sample_3d_packed.lens.length)
            ((sample_3d_packed.GetElementSize : Nat) : Int)) :=
  C28_padded_stride_is_outer_extent_times_stride sample_3d_packed msg_size
    (by decide) (by decide) (by decide)

/-! ## Claims about `OperatorArgs` -/

namespace OperatorArgs

theorem map_find_assign_self (m : List (String × hold_any)) (name : String) (v : hold_any) :
    map_find (map_assign m name v) name = some v := by
  induction m with
  | nil => simp [map_assign, map_find]
  | cons e rest ih =>
    obtain ⟨k, w⟩ := e
    by_cases hk : k = name
    · simp [map_assign, map_find, hk]
    · simp [map_assign, map_find, hk, ih]

theorem map_find_assign_other (m : List (String × hold_any)) (name other : String)
    (v : hold_any) (h : other ≠ name) :
    map_find (map_assign m name v) other = map_find m other := by
  induction m with
  | nil => simp [map_assign, map_find, Ne.symm h]
  | cons e rest ih =>
    obtain ⟨k, w⟩ := e
    by_cases hk : k = name
    · subst hk
      simp [map_assign, map_find, Ne.symm h]
    · by_cases ho : k = other
      · subst ho
        simp [map_assign, map_find, hk]
      · simp [map_assign, map_find, hk, ho, ih]

/-- The names of the entries after an assignment: as before when `name` has an
entry, with `name` added at the end otherwise. -/
theorem keys_map_assign (m : List (String × hold_any)) (name : String) (v : hold_any) :
    (map_assign m name v).map Prod.fst =
      if name ∈ m.map Prod.fst then m.map Prod.fst else m.map Prod.fst ++ [name] := by
  induction m with
  | nil => simp [map_assign]
  | cons e rest ih =>
    obtain ⟨k, w⟩ := e
    by_cases hk : k = name
    · simp [map_assign, hk]
    · have hne : ¬ name = k := fun h => hk h.symm
      by_cases hmem : name ∈ rest.map Prod.fst
      · rw [if_pos hmem] at ih
        simp only [map_assign, hk, if_false, List.map_cons, ih, List.mem_cons, hne, false_or,
          hmem, if_true]
      · rw [if_neg hmem] at ih
        simp only [map_assign, hk, if_false, List.map_cons, ih, List.mem_cons, hne, false_or,
          hmem, List.cons_append]

theorem keys_ins_arg_nodup (self : OperatorArgs) (name : String) (v : hold_any)
    (h : (self.args_map.map Prod.fst).Nodup) :
    ((self.ins_arg name v).args_map.map Prod.fst).Nodup := by
  show ((map_assign self.args_map name v).map Prod.fst).Nodup
  rw [keys_map_assign]
  split_ifs with hmem
  · exact h
  · exact List.Nodup.append h (List.nodup_singleton _) (by simpa using hmem)

theorem mem_keys_ins_arg (self : OperatorArgs) (name : String) (v : hold_any) (n : String) :
    n ∈ (self.ins_arg name v).args_map.map Prod.fst ↔
      n ∈ self.args_map.map Prod.fst ∨ n = name := by
  show n ∈ (map_assign self.args_map name v).map Prod.fst ↔ _
  rw [keys_map_assign]
  split_ifs with hmem
  · constructor
    · exact Or.inl
    · rintro (h | rfl)
      · exact h
      · exact hmem
  · simp

theorem ins_args_cons (self : OperatorArgs) (c : String × hold_any)
    (calls : List (String × hold_any)) :
    self.ins_args (c :: calls) = (self.ins_arg c.1 c.2).ins_args calls := rfl

theorem args_vec_ins_args (self : OperatorArgs) (calls : List (String × hold_any)) :
    (self.ins_args calls).args_vec = self.args_vec ++ calls.map Prod.snd := by
  induction calls generalizing self with
  | nil => simp [ins_args]
  | cons c calls ih =>
    rw [ins_args_cons, ih]
    simp [ins_arg]

theorem keys_ins_args_nodup (self : OperatorArgs) (calls : List (String × hold_any))
    (h : (self.args_map.map Prod.fst).Nodup) :
    ((self.ins_args calls).args_map.map Prod.fst).Nodup := by
  induction calls generalizing self with
  | nil => exact h
  | cons c calls ih =>
    rw [ins_args_cons]
    exact ih _ (keys_ins_arg_nodup self c.1 c.2 h)

theorem mem_keys_ins_args (self : OperatorArgs) (calls : List (String × hold_any))
    (n : String) :
    n ∈ (self.ins_args calls).args_map.map Prod.fst ↔
      n ∈ self.args_map.map Prod.fst ∨ n ∈ calls.map Prod.fst := by
  induction calls generalizing self with
  | nil => simp [ins_args]
  | cons c calls ih =>
    rw [ins_args_cons, ih, mem_keys_ins_arg]
    simp only [List.map_cons, List.mem_cons]
    tauto

/-- After calls made on a fresh object the map has one entry for each distinct
name of the calls. -/
theorem args_map_length_ins_args (calls : List (String × hold_any)) :
    (new.ins_args calls).args_map.length = (calls.map Prod.fst).dedup.length := by
  have hnd := keys_ins_args_nodup new calls List.nodup_nil
  have hperm : ((new.ins_args calls).args_map.map Prod.fst).Perm (calls.map Prod.fst).dedup := by
    rw [List.perm_ext_iff_of_nodup hnd (List.nodup_dedup _)]
    intro n
    rw [mem_keys_ins_args, List.mem_dedup]
    simp [new]
  simpa using hperm.length_eq

end OperatorArgs

/-- C29: for every state of an `OperatorArgs`, every name and every value `v`,
after `ins_arg(name, v)` the map returns `v` for `name` and what it returned
before for every other name, and the argument list is the previous list with
`v` appended.  After any sequence of `ins_arg` calls on a fresh object, the
argument list holds the values of the calls in order, so its length is the
number of calls; the map has one entry for each distinct name, so that the
list is never shorter than the map has entries and is longer exactly when some
name occurs in more than one call. -/
theorem C29_ins_arg_map_and_argument_list :
    (∀ (self : OperatorArgs) (name : String) (v : hold_any),
      OperatorArgs.map_find (self.ins_arg name v).args_map name = some v ∧
      (∀ other : String, other ≠ name →
        OperatorArgs.map_find (self.ins_arg name v).args_map other =
          OperatorArgs.map_find self.args_map other) ∧
      (self.ins_arg name v).args_vec = self.args_vec ++ [v]) ∧
    (∀ calls : List (String × hold_any),
      (OperatorArgs.new.ins_args calls).args_vec = calls.map Prod.snd ∧
      (OperatorArgs.new.ins_args calls).args_vec.length = calls.length ∧
      ((OperatorArgs.new.ins_args calls).args_map.map Prod.fst).Nodup ∧
      (OperatorArgs.new.ins_args calls).args_map.length = (calls.map Prod.fst).dedup.length ∧
      (OperatorArgs.new.ins_args calls).args_map.length ≤
        (OperatorArgs.new.ins_args calls).args_vec.length ∧
      ((OperatorArgs.new.ins_args calls).args_map.length <
          (OperatorArgs.new.ins_args calls).args_vec.length ↔
        ¬ (calls.map Prod.fst).Nodup)) ∧
    (OperatorArgs.new.ins_args
        [("alpha", ⟨1⟩), ("beta", ⟨2⟩), ("alpha", ⟨3⟩)]).args_vec = [⟨1⟩, ⟨2⟩, ⟨3⟩] ∧
    (OperatorArgs.new.ins_args
        [("alpha", ⟨1⟩), ("beta", ⟨2⟩), ("alpha", ⟨3⟩)]).args_map =
      [("alpha", ⟨3⟩), ("beta", ⟨2⟩)] := by
  refine ⟨fun self name v => ⟨OperatorArgs.map_find_assign_self _ _ _,
    fun other h => OperatorArgs.map_find_assign_other _ _ _ _ h, rfl⟩, fun calls => ?_,
    by decide, by decide⟩
  have hvec : (OperatorArgs.new.ins_args calls).args_vec = calls.map Prod.snd := by
    rw [OperatorArgs.args_vec_ins_args]
    rfl
  have hmap := OperatorArgs.args_map_length_ins_args calls
  have hsub : (calls.map Prod.fst).dedup.Sublist (calls.map Prod.fst) := List.dedup_sublist _
  have hle : (calls.map Prod.fst).dedup.length ≤ calls.length := by
    simpa using hsub.length_le
  refine ⟨hvec, by rw [hvec, List.length_map],
    OperatorArgs.keys_ins_args_nodup _ calls List.nodup_nil, hmap, ?_, ?_⟩
  · rw [hmap, hvec, List.length_map]
    exact hle
  · rw [hmap, hvec, List.length_map]
    constructor
    · intro hlt hnd
      rw [List.Nodup.dedup hnd, List.length_map] at hlt
      exact lt_irrefl _ hlt
    · intro hnd
      refine lt_of_le_of_ne hle (fun heq => hnd ?_)
      have := hsub.eq_of_length (by simpa using heq)
      rw [← this]
      exact List.nodup_dedup _

end MIOpen
